import Mathlib

/-!
ESP32-S3 / W5500 connectivity and firmware-update control plane.

A shallow embedding of `main/ethernet_app.c`, `main/http_server.c` and
`main/app_nvs.c`.

* Module-level C variables become fields of a state record; every C function
  becomes a state-passing Lean function carrying the name of the C function.
* Calls into ESP-IDF / lwIP / FreeRTOS whose result the code inspects are
  oracles collected in the record `Env` (one value per processed input).
* An `ESP_ERROR_CHECK` or `configASSERT` that fails aborts the firmware; the
  model marks this with `assert_failed := true`.
* The FreeRTOS queues are lists, oldest message first.  The status monitor
  consumes a message as soon as it is queued; the Ethernet task consumes its
  mailbox when `ethernet_app_task_run` is invoked.
* An event that the library posts to the default event loop in reaction to a
  call of this module (`IP_EVENT_ETH_GOT_IP` after `esp_netif_set_ip_info`,
  `ETHERNET_EVENT_STOP` after `esp_eth_stop`) is kept in the field `posted` of
  the state until `dispatch_posted` hands it to `ethernet_app_event_handler`.
-/

namespace W5500

/-! ## esp_err.h -/

abbrev esp_err_t := Int

abbrev ESP_OK : esp_err_t := 0

abbrev ESP_FAIL : esp_err_t := -1

abbrev ESP_ERR_NO_MEM : esp_err_t := 0x101

abbrev ESP_ERR_INVALID_ARG : esp_err_t := 0x102

abbrev ESP_ERR_INVALID_STATE : esp_err_t := 0x103

/-! ## http_server.h -/

abbrev NONE : Nat := 0

abbrev HTTP_WIFI_STATUS_CONNECTING : Nat := 1

abbrev HTTP_WIFI_STATUS_CONNECT_FAILED : Nat := 2

abbrev HTTP_WIFI_STATUS_CONNECT_SUCCESS : Nat := 3

abbrev HTTP_WIFI_STATUS_DISCONNECTED : Nat := 4

abbrev HTTP_ETH_STATUS_NONE : Nat := 0

abbrev HTTP_ETH_STATUS_CONNECTING : Nat := 1

abbrev HTTP_ETH_STATUS_CONNECT_FAILED : Nat := 2

abbrev HTTP_ETH_STATUS_CONNECT_SUCCESS : Nat := 3

abbrev HTTP_ETH_STATUS_DISCONNECTED : Nat := 4

abbrev OTA_UPDATE_PENDING : Nat := 0

abbrev OTA_UPDATE_SUCCESSFUL : Nat := 1

abbrev OTA_UPDATE_FAILED : Nat := 2

/-- The message identifiers of the status monitor queue (`http_server_message_e`). -/
inductive http_server_message_e
  | HTTP_MSG_WIFI_CONNECT_INIT
  | HTTP_MSG_WIFI_CONNECT_SUCCESS
  | HTTP_MSG_WIFI_CONNECT_FAIL
  | HTTP_MSG_WIFI_USER_DISCONNECT
  | HTTP_MSG_OTA_UPDATE_SUCCESSFUL
  | HTTP_MSG_OTA_UPDATE_FAILED
  | HTTP_MSG_TIME_SERVICE_INITIALIZED
  | HTTP_MSG_ETH_CONNECT_INIT
  | HTTP_MSG_ETH_CONNECT_SUCCESS
  | HTTP_MSG_ETH_CONNECT_FAIL
  | HTTP_MSG_ETH_USER_DISCONNECT
  deriving DecidableEq, Repr

open http_server_message_e

/-- The module-level variables of `http_server.c` that the status monitor owns.
`monitor_received` lists every message the monitor queue accepted, oldest
first; `fw_update_reset` lists the delays (microseconds) of the
`esp_timer_start_once` calls made for the restart timer. -/
structure HttpServer where
  g_wifi_connect_status : Nat
  g_eth_connect_status : Nat
  g_fw_update_status : Nat
  g_is_local_time_set : Bool
  http_server_monitor_queue_handle : Bool
  monitor_received : List http_server_message_e
  fw_update_reset : List Nat
  deriving DecidableEq, Repr

/-- The static initialisers of `http_server.c`, with the monitor queue not yet created. -/
def HttpServer.static_init : HttpServer :=
  { g_wifi_connect_status := NONE
    g_eth_connect_status := NONE
    g_fw_update_status := OTA_UPDATE_PENDING
    g_is_local_time_set := false
    http_server_monitor_queue_handle := false
    monitor_received := []
    fw_update_reset := [] }

/-- The part of `http_server_configure` that creates the monitor queue. -/
def http_server_configure (h : HttpServer) : HttpServer :=
  { h with http_server_monitor_queue_handle := true }

/-- The function `http_server_fw_update_reset_timer`: arm the 8 s restart timer
when the update status is successful. -/
def http_server_fw_update_reset_timer (h : HttpServer) : HttpServer :=
  if h.g_fw_update_status = OTA_UPDATE_SUCCESSFUL then
    { h with fw_update_reset := h.fw_update_reset ++ [8000000] }
  else h

/-- One iteration of the `http_server_monitor` loop: the switch on `msg.msgID`. -/
def http_server_monitor (msg : http_server_message_e) (h : HttpServer) : HttpServer :=
  match msg with
  | HTTP_MSG_WIFI_CONNECT_INIT => { h with g_wifi_connect_status := HTTP_WIFI_STATUS_CONNECTING }
  | HTTP_MSG_WIFI_CONNECT_SUCCESS =>
      { h with g_wifi_connect_status := HTTP_WIFI_STATUS_CONNECT_SUCCESS }
  | HTTP_MSG_WIFI_CONNECT_FAIL =>
      { h with g_wifi_connect_status := HTTP_WIFI_STATUS_CONNECT_FAILED }
  | HTTP_MSG_WIFI_USER_DISCONNECT =>
      { h with g_wifi_connect_status := HTTP_WIFI_STATUS_DISCONNECTED }
  | HTTP_MSG_OTA_UPDATE_SUCCESSFUL =>
      http_server_fw_update_reset_timer { h with g_fw_update_status := OTA_UPDATE_SUCCESSFUL }
  | HTTP_MSG_OTA_UPDATE_FAILED => { h with g_fw_update_status := OTA_UPDATE_FAILED }
  | HTTP_MSG_TIME_SERVICE_INITIALIZED => { h with g_is_local_time_set := true }
  | HTTP_MSG_ETH_CONNECT_INIT => { h with g_eth_connect_status := HTTP_ETH_STATUS_CONNECTING }
  | HTTP_MSG_ETH_CONNECT_SUCCESS =>
      { h with g_eth_connect_status := HTTP_ETH_STATUS_CONNECT_SUCCESS }
  | HTTP_MSG_ETH_CONNECT_FAIL =>
      { h with g_eth_connect_status := HTTP_ETH_STATUS_CONNECT_FAILED }
  | HTTP_MSG_ETH_USER_DISCONNECT =>
      { h with g_eth_connect_status := HTTP_ETH_STATUS_DISCONNECTED }

/-- The function `http_server_monitor_send_message`: dropped when the queue does
not exist yet, otherwise queued and consumed by the monitor. -/
def http_server_monitor_send_message (msgID : http_server_message_e) (h : HttpServer) :
    HttpServer :=
  if h.http_server_monitor_queue_handle then
    http_server_monitor msgID { h with monitor_received := h.monitor_received ++ [msgID] }
  else h

/-! ## ethernet_app.h -/

abbrev ETH_DEFAULT_IP : String := "192.168.0.101"

abbrev ETH_DEFAULT_GATEWAY : String := "192.168.0.1"

abbrev ETH_DEFAULT_NETMASK : String := "255.255.255.0"

abbrev ETH_DEFAULT_DNS : String := "8.8.8.8"

abbrev ETH_DHCP_TIMEOUT_MS : Nat := 15000

/-- The record `eth_ip_config_t`; each 16-byte character array is represented by
the C string it holds. -/
structure eth_ip_config_t where
  ip : String
  gateway : String
  netmask : String
  dns : String
  dhcp_enabled : Bool
  deriving DecidableEq, Repr

/-- The message identifiers of the Ethernet task mailbox (`ethernet_app_message_e`). -/
inductive ethernet_app_message_e
  | ETHERNET_APP_MSG_START_HTTP_SERVER
  | ETHERNET_APP_MSG_ETH_CONNECTED_GOT_IP
  | ETHERNET_APP_MSG_ETH_DISCONNECTED
  | ETHERNET_APP_MSG_ETH_STOP
  | ETHERNET_APP_MSG_DHCP_TIMEOUT
  | ETHERNET_APP_MSG_UPDATE_IP_CONFIG
  deriving DecidableEq, Repr

open ethernet_app_message_e

/-- The record `ethernet_app_queue_message_t`; `data` is `none` for a NULL pointer
and otherwise the heap copy of a configuration. -/
structure ethernet_app_queue_message_t where
  msgID : ethernet_app_message_e
  data : Option eth_ip_config_t
  deriving DecidableEq, Repr

/-- An IPv4 address as its four octets in the order `IP2STR` prints them. -/
structure esp_ip4_addr_t where
  o1 : Nat
  o2 : Nat
  o3 : Nat
  o4 : Nat
  deriving DecidableEq, Repr

/-- The text `sprintf(dst, IPSTR, IP2STR(addr))` writes. -/
def ip4_str (a : esp_ip4_addr_t) : String :=
  toString a.o1 ++ "." ++ toString a.o2 ++ "." ++ toString a.o3 ++ "." ++ toString a.o4

/-- The payload of `IP_EVENT_ETH_GOT_IP` that the handler reads. -/
structure ip_event_got_ip_t where
  ip : esp_ip4_addr_t
  netmask : esp_ip4_addr_t
  gw : esp_ip4_addr_t
  deriving DecidableEq, Repr

/-- The record `esp_netif_ip_info_t` with each address as a 32-bit number (0 after `memset`). -/
structure esp_netif_ip_info_t where
  ip : Nat
  gw : Nat
  netmask : Nat
  deriving DecidableEq, Repr

/-- What this module did to the interface `esp_netif_eth`: whether the DHCP client
was last started or stopped by it, the address information last accepted by
`esp_netif_set_ip_info`, and the value last given to `dns_setserver` (`none`
while never set, or set from a string `inet_pton` did not parse, which leaves
the uninitialised local unchanged). -/
structure Netif where
  dhcpc_started : Bool
  ip_info : esp_netif_ip_info_t
  dns_server : Option Nat
  deriving DecidableEq, Repr

/-- The bits of `ethernet_app_event_group`. -/
structure EventBits where
  ETH_CONNECTED_BIT : Bool
  ETH_GOT_IP_BIT : Bool
  ETH_DISCONNECTED_BIT : Bool
  ETH_STOP_BIT : Bool
  ETH_USING_STATIC_IP_BIT : Bool
  deriving DecidableEq, Repr

/-- The event group right after `xEventGroupCreate`. -/
def EventBits.zero : EventBits :=
  ⟨false, false, false, false, false⟩

/-! ## app_nvs.c: the "ethconfig" namespace -/

/-- The contents of the NVS namespace `app_nvs_eth_config_namespace`: the four
16-byte blobs (as the C strings they hold) and the `u8` flag, each absent or present. -/
structure NvsEth where
  ip : Option String
  gateway : Option String
  netmask : Option String
  dns : Option String
  dhcp : Option Nat
  deriving DecidableEq, Repr

/-- The namespace with no key stored. -/
def NvsEth.empty : NvsEth :=
  ⟨none, none, none, none, none⟩

/-- Results of the NVS library calls made while one input is processed: `set_ret`
and `get_ret` are indexed by key. -/
structure NvsEnv where
  open_ret : esp_err_t
  set_ret : String → esp_err_t
  commit_ret : esp_err_t
  get_ret : String → esp_err_t
  erase_all_ret : esp_err_t

/-- Every NVS call succeeds. -/
def NvsEnv.ok : NvsEnv :=
  ⟨ESP_OK, fun _ => ESP_OK, ESP_OK, fun _ => ESP_OK, ESP_OK⟩

/-- The function `app_nvs_save_eth_config` (the pointer is never NULL at its only
call site).  A successful `nvs_set_*` stores the item at once; the first failing
call ends the save with its error code. -/
def app_nvs_save_eth_config (nv : NvsEnv) (eth_config : eth_ip_config_t) (store : NvsEth) :
    NvsEth × esp_err_t :=
  if nv.open_ret ≠ ESP_OK then (store, nv.open_ret)
  else if nv.set_ret "ip" ≠ ESP_OK then (store, nv.set_ret "ip")
  else
    let st1 := { store with ip := some eth_config.ip }
    if nv.set_ret "gateway" ≠ ESP_OK then (st1, nv.set_ret "gateway")
    else
      let st2 := { st1 with gateway := some eth_config.gateway }
      if nv.set_ret "netmask" ≠ ESP_OK then (st2, nv.set_ret "netmask")
      else
        let st3 := { st2 with netmask := some eth_config.netmask }
        if nv.set_ret "dns" ≠ ESP_OK then (st3, nv.set_ret "dns")
        else
          let st4 := { st3 with dns := some eth_config.dns }
          if nv.set_ret "dhcp" ≠ ESP_OK then (st4, nv.set_ret "dhcp")
          else
            let st5 := { st4 with dhcp := some (if eth_config.dhcp_enabled then 1 else 0) }
            if nv.commit_ret ≠ ESP_OK then (st5, nv.commit_ret)
            else (st5, ESP_OK)

/-- One `nvs_get_blob` of `app_nvs_load_eth_config`: the stored string when the
call succeeds, else the destination is left as it was and the load is marked failed. -/
def nvs_get_field (ret : esp_err_t) (stored : Option String) (dst : String) (success : Bool) :
    String × Bool :=
  match stored with
  | some v => if ret = ESP_OK then (v, success) else (dst, false)
  | none => (dst, false)

/-- The function `app_nvs_load_eth_config`; `eth_config` is the caller's
(uninitialised) destination record. -/
def app_nvs_load_eth_config (nv : NvsEnv) (store : NvsEth) (eth_config : eth_ip_config_t) :
    eth_ip_config_t × Bool :=
  if nv.open_ret ≠ ESP_OK then (eth_config, false)
  else
    let r1 := nvs_get_field (nv.get_ret "ip") store.ip eth_config.ip true
    let r2 := nvs_get_field (nv.get_ret "gateway") store.gateway eth_config.gateway r1.2
    let r3 := nvs_get_field (nv.get_ret "netmask") store.netmask eth_config.netmask r2.2
    let r4 := nvs_get_field (nv.get_ret "dns") store.dns eth_config.dns r3.2
    match store.dhcp with
    | some v =>
        if nv.get_ret "dhcp" = ESP_OK then
          (⟨r1.1, r2.1, r3.1, r4.1, decide (v = 1)⟩, r4.2)
        else (⟨r1.1, r2.1, r3.1, r4.1, eth_config.dhcp_enabled⟩, false)
    | none => (⟨r1.1, r2.1, r3.1, r4.1, eth_config.dhcp_enabled⟩, false)

/-- The function `app_nvs_clear_eth_config`. -/
def app_nvs_clear_eth_config (nv : NvsEnv) (store : NvsEth) : NvsEth × esp_err_t :=
  if nv.open_ret ≠ ESP_OK then (store, nv.open_ret)
  else if nv.erase_all_ret ≠ ESP_OK then (store, nv.erase_all_ret)
  else if nv.commit_ret ≠ ESP_OK then (NvsEth.empty, nv.commit_ret)
  else (NvsEth.empty, ESP_OK)

/-! ## ethernet_app.c -/

/-- The events `ethernet_app_event_handler` is registered for. -/
inductive esp_event_t
  | ETHERNET_EVENT_START
  | ETHERNET_EVENT_STOP
  | ETHERNET_EVENT_CONNECTED
  | ETHERNET_EVENT_DISCONNECTED
  | IP_EVENT_ETH_GOT_IP (event : ip_event_got_ip_t)
  deriving DecidableEq, Repr

open esp_event_t

/-- Results of the library calls made while one input is processed.
`inet_pton` is the lwIP text-to-address conversion (`none` when it rejects the
text); `got_ip_event_posted` tells whether the stack posts
`IP_EVENT_ETH_GOT_IP` for the address given to a successful
`esp_netif_set_ip_info` (it does so for an address other than 0.0.0.0: at the
call when the interface is up, and when the interface comes up with that
address otherwise), and `eth_stop_event_posted` whether a successful
`esp_eth_stop` posts `ETHERNET_EVENT_STOP`; the other fields are return codes. -/
structure Env where
  inet_pton : String → Option Nat
  esp_netif_set_ip_info_ret : esp_err_t
  got_ip_event_posted : Bool
  nvs : NvsEnv
  esp_eth_stop_ret : esp_err_t
  eth_stop_event_posted : Bool
  eth_deinit_w5500_ret : esp_err_t

/-- The module-level variables of `ethernet_app.c`, the interface, the NVS
namespace and the status monitor.  `s_dhcp_timer` is `none` for a NULL handle
and `some active` otherwise; `s_eth_handle` and `ethernet_connected_event_cb`
tell whether the pointer is non-NULL; `callback_calls` counts the invocations
of the connected callback; `posted` holds the events the library has posted to
the default event loop in reaction to this module's calls and that the loop has
not yet handed to `ethernet_app_event_handler`, oldest first. -/
structure State where
  s_eth_ip_config : eth_ip_config_t
  event_group : EventBits
  s_dhcp_timer : Option Bool
  s_eth_handle : Bool
  ethernet_connected_event_cb : Bool
  callback_calls : Nat
  ethernet_app_queue : List ethernet_app_queue_message_t
  esp_netif_eth : Netif
  nvs : NvsEth
  http : HttpServer
  assert_failed : Bool
  posted : List esp_event_t
  deriving DecidableEq, Repr

/-- The static initialiser of `s_eth_ip_config`. -/
def s_eth_ip_config_init : eth_ip_config_t :=
  { ip := ETH_DEFAULT_IP
    gateway := ETH_DEFAULT_GATEWAY
    netmask := ETH_DEFAULT_NETMASK
    dns := ETH_DEFAULT_DNS
    dhcp_enabled := true }

/-- The function `ethernet_app_send_message`: append to the task mailbox. -/
def ethernet_app_send_message (msgID : ethernet_app_message_e) (data : Option eth_ip_config_t)
    (s : State) : State :=
  { s with ethernet_app_queue := s.ethernet_app_queue ++ [⟨msgID, data⟩] }

/-- Status message sent from the Ethernet module to the monitor. -/
def send_http (msgID : http_server_message_e) (s : State) : State :=
  { s with http := http_server_monitor_send_message msgID s.http }

/-- The call `xTimerStart(s_dhcp_timer, 0)`; a NULL handle fails `configASSERT`. -/
def xTimerStart (s : State) : State :=
  match s.s_dhcp_timer with
  | some _ => { s with s_dhcp_timer := some true }
  | none => { s with assert_failed := true }

/-- The statement `if (xTimerIsTimerActive(s_dhcp_timer)) xTimerStop(s_dhcp_timer, 0);`. -/
def xTimerStop_if_active (s : State) : State :=
  match s.s_dhcp_timer with
  | some _ => { s with s_dhcp_timer := some false }
  | none => { s with assert_failed := true }

/-- The address with the 32-bit number `n`, first octet most significant (the
numbering `inet_pton` has in this model). -/
def esp_ip4_addr_of_u32 (n : Nat) : esp_ip4_addr_t :=
  ⟨n / 16777216 % 256, n / 65536 % 256, n / 256 % 256, n % 256⟩

/-- The payload of the `IP_EVENT_ETH_GOT_IP` posted for the address information
given to `esp_netif_set_ip_info`. -/
def got_ip_event_of (ip_info : esp_netif_ip_info_t) : ip_event_got_ip_t :=
  { ip := esp_ip4_addr_of_u32 ip_info.ip
    netmask := esp_ip4_addr_of_u32 ip_info.netmask
    gw := esp_ip4_addr_of_u32 ip_info.gw }

/-- The function `configure_static_ip`.  A successful `esp_netif_set_ip_info`
leaves the event the stack posts for the new address in `posted`. -/
def configure_static_ip (env : Env) (s : State) : State × esp_err_t :=
  let s1 := { s with esp_netif_eth := { s.esp_netif_eth with dhcpc_started := false } }
  let ip_info : esp_netif_ip_info_t :=
    { ip := (env.inet_pton s1.s_eth_ip_config.ip).getD 0
      gw := (env.inet_pton s1.s_eth_ip_config.gateway).getD 0
      netmask := (env.inet_pton s1.s_eth_ip_config.netmask).getD 0 }
  let ret := env.esp_netif_set_ip_info_ret
  if ret ≠ ESP_OK then (s1, ret)
  else
    let s2 := { s1 with
      esp_netif_eth :=
        { s1.esp_netif_eth with
          ip_info := ip_info
          dns_server := env.inet_pton s1.s_eth_ip_config.dns }
      posted :=
        if env.got_ip_event_posted then
          s1.posted ++ [IP_EVENT_ETH_GOT_IP (got_ip_event_of ip_info)]
        else s1.posted }
    let s3 := { s2 with event_group := { s2.event_group with ETH_USING_STATIC_IP_BIT := true } }
    (ethernet_app_send_message ETHERNET_APP_MSG_ETH_CONNECTED_GOT_IP none s3, ESP_OK)

/-- The function `ethernet_app_event_handler`. -/
def ethernet_app_event_handler (env : Env) (ev : esp_event_t) (s : State) : State :=
  match ev with
  | ETHERNET_EVENT_CONNECTED =>
      let s1 := { s with event_group := { s.event_group with ETH_CONNECTED_BIT := true } }
      let s2 := send_http HTTP_MSG_ETH_CONNECT_INIT s1
      if s2.s_eth_ip_config.dhcp_enabled then xTimerStart s2
      else (configure_static_ip env s2).1
  | ETHERNET_EVENT_DISCONNECTED =>
      let s1 := send_http HTTP_MSG_ETH_USER_DISCONNECT s
      let s2 := { s1 with event_group :=
        { s1.event_group with
          ETH_DISCONNECTED_BIT := true
          ETH_CONNECTED_BIT := false
          ETH_GOT_IP_BIT := false
          ETH_USING_STATIC_IP_BIT := false } }
      let s3 :=
        match s2.s_dhcp_timer with
        | some true => { s2 with s_dhcp_timer := some false }
        | some false => s2
        | none => { s2 with assert_failed := true }
      ethernet_app_send_message ETHERNET_APP_MSG_ETH_DISCONNECTED none s3
  | ETHERNET_EVENT_START => s
  | ETHERNET_EVENT_STOP =>
      { s with event_group :=
        { s.event_group with
          ETH_STOP_BIT := true
          ETH_CONNECTED_BIT := false
          ETH_GOT_IP_BIT := false
          ETH_USING_STATIC_IP_BIT := false
          ETH_DISCONNECTED_BIT := false } }
  | IP_EVENT_ETH_GOT_IP event =>
      let s1 := send_http HTTP_MSG_ETH_CONNECT_SUCCESS s
      let s2 :=
        match s1.s_dhcp_timer with
        | some true => { s1 with s_dhcp_timer := some false }
        | some false => s1
        | none => { s1 with assert_failed := true }
      let s3 :=
        if s2.event_group.ETH_USING_STATIC_IP_BIT then s2
        else
          { s2 with s_eth_ip_config :=
            { s2.s_eth_ip_config with
              ip := ip4_str event.ip
              gateway := ip4_str event.gw
              netmask := ip4_str event.netmask } }
      let s4 := { s3 with event_group := { s3.event_group with ETH_GOT_IP_BIT := true } }
      ethernet_app_send_message ETHERNET_APP_MSG_ETH_CONNECTED_GOT_IP none s4

/-- The function `ethernet_app_call_callback`. -/
def ethernet_app_call_callback (s : State) : State :=
  if s.ethernet_connected_event_cb then { s with callback_calls := s.callback_calls + 1 } else s

/-- One iteration of the `for(;;)` loop of `ethernet_app_task`: the switch on
`msg.msgID`, for a message already taken from the mailbox.  A successful
`esp_eth_stop` leaves the event the driver posts in `posted`. -/
def ethernet_app_task_step (env : Env) (msg : ethernet_app_queue_message_t) (s : State) :
    State :=
  match msg.msgID with
  | ETHERNET_APP_MSG_START_HTTP_SERVER => s
  | ETHERNET_APP_MSG_ETH_CONNECTED_GOT_IP =>
      if s.ethernet_connected_event_cb then ethernet_app_call_callback s else s
  | ETHERNET_APP_MSG_ETH_DISCONNECTED =>
      { s with event_group :=
        { s.event_group with
          ETH_CONNECTED_BIT := false
          ETH_GOT_IP_BIT := false
          ETH_USING_STATIC_IP_BIT := false } }
  | ETHERNET_APP_MSG_ETH_STOP =>
      if s.s_eth_handle then
        if env.esp_eth_stop_ret ≠ ESP_OK then { s with assert_failed := true }
        else
          let s1 := { s with posted :=
            if env.eth_stop_event_posted then s.posted ++ [ETHERNET_EVENT_STOP] else s.posted }
          if env.eth_deinit_w5500_ret ≠ ESP_OK then { s1 with assert_failed := true }
          else { s1 with s_eth_handle := false, s_dhcp_timer := none }
      else s
  | ETHERNET_APP_MSG_DHCP_TIMEOUT => (configure_static_ip env s).1
  | ETHERNET_APP_MSG_UPDATE_IP_CONFIG =>
      match msg.data with
      | none => s
      | some new_config =>
          let mode_changing := s.s_eth_ip_config.dhcp_enabled != new_config.dhcp_enabled
          let s1 := { s with s_eth_ip_config := new_config }
          let s2 := { s1 with nvs := (app_nvs_save_eth_config env.nvs s1.s_eth_ip_config s1.nvs).1 }
          if s2.event_group.ETH_CONNECTED_BIT then
            if mode_changing then
              if s2.s_eth_ip_config.dhcp_enabled then
                let s3 := { s2 with event_group :=
                  { s2.event_group with ETH_USING_STATIC_IP_BIT := false } }
                let s4 := { s3 with esp_netif_eth := { s3.esp_netif_eth with dhcpc_started := true } }
                xTimerStart s4
              else (configure_static_ip env s2).1
            else if !s2.s_eth_ip_config.dhcp_enabled then (configure_static_ip env s2).1
            else s2
          else s2

/-- The Ethernet task consuming its mailbox, oldest message first, for at most
`fuel` messages. -/
def ethernet_app_task_run : Nat → Env → State → State
  | 0, _, s => s
  | fuel + 1, env, s =>
      match s.ethernet_app_queue with
      | [] => s
      | msg :: rest =>
          ethernet_app_task_run fuel env
            (ethernet_app_task_step env msg { s with ethernet_app_queue := rest })

/-- The function `ethernet_app_get_ip_config` for a non-NULL destination. -/
def ethernet_app_get_ip_config (s : State) : eth_ip_config_t × esp_err_t :=
  (s.s_eth_ip_config, ESP_OK)

/-- The function `ethernet_app_set_ip_config` for a non-NULL argument;
`malloc_ok` tells whether the allocation succeeds. -/
def ethernet_app_set_ip_config (malloc_ok : Bool) (config : eth_ip_config_t) (s : State) :
    State × esp_err_t :=
  if malloc_ok then
    (ethernet_app_send_message ETHERNET_APP_MSG_UPDATE_IP_CONFIG (some config) s, ESP_OK)
  else (s, ESP_ERR_NO_MEM)

/-- The function `ethernet_app_apply_ip_config`. -/
def ethernet_app_apply_ip_config (env : Env) (s : State) : State × esp_err_t :=
  if !s.event_group.ETH_CONNECTED_BIT then (s, ESP_ERR_INVALID_STATE)
  else if s.s_eth_ip_config.dhcp_enabled then
    let s1 := { s with event_group := { s.event_group with ETH_USING_STATIC_IP_BIT := false } }
    let s2 := { s1 with esp_netif_eth := { s1.esp_netif_eth with dhcpc_started := true } }
    (xTimerStart s2, ESP_OK)
  else
    let r := configure_static_ip env s
    if r.2 ≠ ESP_OK then (r.1, r.2) else (r.1, ESP_OK)

/-- The function `dhcp_timeout_callback`, run when the one-shot timer expires
(the timer is dormant from then on). -/
def dhcp_timeout_callback (s : State) : State :=
  let s1 :=
    match s.s_dhcp_timer with
    | some _ => { s with s_dhcp_timer := some false }
    | none => s
  ethernet_app_send_message ETHERNET_APP_MSG_DHCP_TIMEOUT none s1

/-- Lines 670-690 of `http_server_eth_connect_json_handler`: hand the prepared
configuration to the Ethernet task, post the status message and apply at once.
The result is the handler's return code. -/
def http_server_eth_connect_json_handler_update (env : Env) (malloc_ok : Bool)
    (eth_config : eth_ip_config_t) (s : State) : State × esp_err_t :=
  let r := ethernet_app_set_ip_config malloc_ok eth_config s
  if r.2 ≠ ESP_OK then (r.1, ESP_FAIL)
  else
    let s1 := send_http HTTP_MSG_ETH_CONNECT_INIT r.1
    ((ethernet_app_apply_ip_config env s1).1, ESP_OK)

/-- The function `http_server_eth_disconnect_json_handler`. -/
def http_server_eth_disconnect_json_handler (s : State) : State × esp_err_t :=
  let s1 := ethernet_app_send_message ETHERNET_APP_MSG_ETH_STOP none s
  (send_http HTTP_MSG_ETH_USER_DISCONNECT s1, ESP_OK)

/-! ### The manager's inputs at the level of the specification -/

/-- The inputs of the connection manager: the three driver events, the expiry
of the DHCP timer, a reconfiguration command and the stop request. -/
inductive Event
  | LinkUp
  | LinkDown
  | AddressAcquired (address gateway netmask : esp_ip4_addr_t)
  | DhcpTimeout
  | UpdateConfig (new : eth_ip_config_t)
  | Stop
  deriving DecidableEq, Repr

/-- How an input from outside reaches the module: driver events run the event
handler, the timer expiry runs its callback, the two commands are put in the
mailbox.  The events the library posts in reaction to the module's own calls
are not inputs: they are collected in `posted` and reach the handler through
`dispatch_posted`. -/
def deliver (env : Env) (e : Event) (s : State) : State :=
  match e with
  | .LinkUp => ethernet_app_event_handler env ETHERNET_EVENT_CONNECTED s
  | .LinkDown => ethernet_app_event_handler env ETHERNET_EVENT_DISCONNECTED s
  | .AddressAcquired address gateway netmask =>
      ethernet_app_event_handler env (IP_EVENT_ETH_GOT_IP ⟨address, netmask, gateway⟩) s
  | .DhcpTimeout => dhcp_timeout_callback s
  | .UpdateConfig new => (ethernet_app_set_ip_config true new s).1
  | .Stop => ethernet_app_send_message ETHERNET_APP_MSG_ETH_STOP none s

/-- Deliver one input, then let the Ethernet task consume its mailbox.  A message
being processed queues at most one further message, which queues none, so
twice the mailbox length is enough fuel. -/
def process (env : Env) (s : State) (e : Event) : State :=
  let s1 := deliver env e s
  ethernet_app_task_run (2 * s1.ethernet_app_queue.length) env s1

/-- Process a history of inputs in arrival order, each with its own library results. -/
def run (s : State) (history : List (Env × Event)) : State :=
  history.foldl (fun st p => process p.1 st p.2) s

/-- The default event loop hands the posted events to `ethernet_app_event_handler`,
oldest first; then the Ethernet task consumes its mailbox. -/
def dispatch_posted (env : Env) (s : State) : State :=
  let s1 := s.posted.foldl (fun st ev => ethernet_app_event_handler env ev st)
    { s with posted := [] }
  ethernet_app_task_run (2 * s1.ethernet_app_queue.length) env s1

/-- One input handled to the end: the input is processed, then the events the
library posted in reaction are dispatched. -/
def react (env : Env) (s : State) (e : Event) : State :=
  dispatch_posted env (process env s e)

/-- A history of inputs handled to the end one after the other. -/
def run_reacting (s : State) (history : List (Env × Event)) : State :=
  history.foldl (fun st p => react p.1 st p.2) s

/-- The state in which `ethernet_app_task` enters its message loop when the timer
and the driver were created, nothing was loaded from NVS that selects static
addressing, and `cfg` is the configuration in force: link down, mailbox empty. -/
def link_down_state (cfg : eth_ip_config_t) (http : HttpServer) (nvs : NvsEth) : State :=
  { s_eth_ip_config := cfg
    event_group := EventBits.zero
    s_dhcp_timer := some false
    s_eth_handle := true
    ethernet_connected_event_cb := true
    callback_calls := 0
    ethernet_app_queue := []
    esp_netif_eth := ⟨true, ⟨0, 0, 0⟩, none⟩
    nvs := nvs
    http := http
    assert_failed := false
    posted := [] }

/-! ### Connection states read off the event group -/

/-- The manager is bound: the link is up and an address is in force. -/
def Bound (s : State) : Prop :=
  s.event_group.ETH_CONNECTED_BIT = true ∧
    (s.event_group.ETH_GOT_IP_BIT = true ∨ s.event_group.ETH_USING_STATIC_IP_BIT = true)

/-- State `Bound(Static)`: link up with the static marker set. -/
def BoundStatic (s : State) : Prop :=
  s.event_group.ETH_CONNECTED_BIT = true ∧ s.event_group.ETH_USING_STATIC_IP_BIT = true

/-- State `Bound(Dynamic)`: link up, a DHCP address obtained, static marker clear. -/
def BoundDynamic (s : State) : Prop :=
  s.event_group.ETH_CONNECTED_BIT = true ∧ s.event_group.ETH_GOT_IP_BIT = true ∧
    s.event_group.ETH_USING_STATIC_IP_BIT = false

/-- State `AcquiringAddress`: link up, no address yet. -/
def AcquiringAddress (s : State) : Prop :=
  s.event_group.ETH_CONNECTED_BIT = true ∧ s.event_group.ETH_GOT_IP_BIT = false ∧
    s.event_group.ETH_USING_STATIC_IP_BIT = false

instance (s : State) : Decidable (Bound s) := by
  unfold Bound; infer_instance

instance (s : State) : Decidable (BoundStatic s) := by
  unfold BoundStatic; infer_instance

instance (s : State) : Decidable (BoundDynamic s) := by
  unfold BoundDynamic; infer_instance

instance (s : State) : Decidable (AcquiringAddress s) := by
  unfold AcquiringAddress; infer_instance

/-- Reads the octets of a dotted-decimal text: `cur` is the number being read,
`acc` the octets already complete. -/
def parse_octets : List Char → Option Nat → List Nat → Option (List Nat)
  | [], some n, acc => some (acc ++ [n])
  | [], none, _ => none
  | c :: cs, cur, acc =>
      if c.toNat = 46 then
        match cur with
        | some n => parse_octets cs none (acc ++ [n])
        | none => none
      else if 48 ≤ c.toNat ∧ c.toNat ≤ 57 then
        parse_octets cs (some (cur.getD 0 * 10 + (c.toNat - 48))) acc
      else none

/-- A strict dotted-decimal reader ("a.b.c.d", each part 0..255) used to
instantiate `Env.inet_pton` in concrete runs: the value is the address as a
number with the first octet most significant. -/
def dotted_quad (text : String) : Option Nat :=
  match parse_octets text.data none [] with
  | some [a, b, c, d] =>
      if a < 256 ∧ b < 256 ∧ c < 256 ∧ d < 256 then
        some (((a * 256 + b) * 256 + c) * 256 + d)
      else none
  | _ => none

/-- Library results for a run in which every call succeeds. -/
def Env.ok : Env :=
  { inet_pton := dotted_quad
    esp_netif_set_ip_info_ret := ESP_OK
    got_ip_event_posted := true
    nvs := NvsEnv.ok
    esp_eth_stop_ret := ESP_OK
    eth_stop_event_posted := true
    eth_deinit_w5500_ret := ESP_OK }

/-! ## http_server.c: the firmware update handler -/

abbrev HTTPD_SOCK_ERR_FAIL : Int := -1

abbrev HTTPD_SOCK_ERR_INVALID : Int := -2

abbrev HTTPD_SOCK_ERR_TIMEOUT : Int := -3

/-- The size of `ota_buff`. -/
abbrev sizeof_ota_buff : Nat := 1024

/-- What one call of `httpd_req_recv` delivers: bytes (none when the peer has
closed or nothing remains), or a negative error code. -/
inductive Recv
  | data (bytes : List Nat)
  | error (code : Int)
  deriving DecidableEq, Repr

/-- The surroundings of one run of the update handler: the result of the i-th
`httpd_req_recv` call (counted from 0), the indeterminate initial contents of
the stack buffer `ota_buff`, and the return codes of the OTA library calls
whose result the handler inspects. -/
structure OtaEnv where
  recv : Nat → Recv
  ota_buff : List Nat
  esp_ota_begin_ret : esp_err_t
  esp_ota_end_ret : esp_err_t
  esp_ota_set_boot_partition_ret : esp_err_t

/-- The OTA library calls the handler makes.  `esp_ota_write data` is a write whose
size is non-negative and stays inside `ota_buff`, with the bytes handed over;
`esp_ota_write_invalid size` is any other write. -/
inductive ota_call
  | esp_ota_begin
  | esp_ota_write (data : List Nat)
  | esp_ota_write_invalid (size : Int)
  | esp_ota_end
  | esp_ota_set_boot_partition
  deriving DecidableEq, Repr

/-- The two firmware slots: the one that was bootable before the request, and
the update partition returned by `esp_ota_get_next_update_partition`. -/
inductive Slot
  | previous
  | target
  deriving DecidableEq, Repr

/-- The OTA side of the flash: the calls made so far, the bytes handed to
`esp_ota_write` since `esp_ota_begin`, and the slot marked for the next boot. -/
structure OtaFlash where
  calls : List ota_call
  written : List Nat
  boot_partition : Slot
  deriving DecidableEq, Repr

/-- The flash before an update request. -/
def OtaFlash.idle : OtaFlash :=
  ⟨[], [], Slot.previous⟩

/-- The conversion `int content_length = req->content_len` of a 32-bit `size_t`. -/
def int_of_size_t (n : Nat) : Int :=
  if n % 2 ^ 32 < 2 ^ 31 then ((n % 2 ^ 32 : Nat) : Int) else ((n % 2 ^ 32 : Nat) : Int) - 2 ^ 32

/-- The expression `MIN(content_length, sizeof(ota_buff))`: the comparison is made
in `size_t`, so a negative `content_length` compares as a huge value. -/
def MIN_content_length_sizeof (content_length : Int) : Nat :=
  if 0 ≤ content_length ∧ content_length < sizeof_ota_buff then content_length.toNat
  else sizeof_ota_buff

/-- The call `httpd_req_recv(req, ota_buff, buf_len)`: the new buffer contents and
the return value.  At most `buf_len` bytes are taken. -/
def httpd_req_recv (r : Recv) (buf : List Nat) (buf_len : Nat) : List Nat × Int :=
  match r with
  | .data bytes => ((bytes.take buf_len) ++ buf.drop (bytes.take buf_len).length,
      ((bytes.take buf_len).length : Int))
  | .error code => (buf, code)

/-- Whether `needle` is found at the very start of `hay`. -/
def starts_with : List Nat → List Nat → Bool
  | _, [] => true
  | [], _ :: _ => false
  | h :: hs, n :: ns => h == n && starts_with hs ns

/-- The call `strstr(hay, needle)` on the bytes of a buffer, for a needle without
a NUL byte: the offset of the first occurrence inside the C string that starts
the buffer.  `none` stands for NULL, and also for a search that leaves the
buffer without meeting a NUL. -/
def strstr : List Nat → List Nat → Option Nat
  | [], _ => none
  | c :: rest, needle =>
      if starts_with (c :: rest) needle then some 0
      else if c = 0 then none
      else (strstr rest needle).map (fun k => k + 1)

/-- The header terminator "\r\n\r\n". -/
abbrev CRLFCRLF : List Nat := [13, 10, 13, 10]

/-- The call `esp_ota_write(ota_handle, ota_buff + offset, size)`; its result is
not inspected by the handler. -/
def esp_ota_write (buf : List Nat) (offset : Nat) (size : Int) (f : OtaFlash) : OtaFlash :=
  if 0 ≤ size ∧ offset + size.toNat ≤ buf.length then
    { f with
      calls := f.calls ++ [ota_call.esp_ota_write ((buf.drop offset).take size.toNat)]
      written := f.written ++ (buf.drop offset).take size.toNat }
  else { f with calls := f.calls ++ [ota_call.esp_ota_write_invalid size] }

/-- The local variables of `http_server_OTA_update_handler` together with the
number of `httpd_req_recv` calls made and the flash. -/
structure OtaLocals where
  ota_buff : List Nat
  content_received : Int
  recv_len : Int
  is_req_body_started : Bool
  reads : Nat
  flash : OtaFlash
  deriving DecidableEq, Repr

/-- How one pass through the body of the `do ... while` loop ends: the loop
condition held (`next`), it did not (`exit`), the handler returned `ESP_FAIL`
because `esp_ota_begin` failed, or `strstr` gave NULL and the handler went on
to compute with `NULL + 4` (undefined behaviour). -/
inductive OtaStep
  | next (l : OtaLocals)
  | exit (l : OtaLocals)
  | begin_failed (l : OtaLocals)
  | undefined (l : OtaLocals)
  deriving DecidableEq, Repr

/-- The loop condition `recv_len > 0 && content_received < content_length`. -/
def ota_loop_cond (content_length : Int) (l : OtaLocals) : OtaStep :=
  if l.recv_len > 0 ∧ l.content_received < content_length then OtaStep.next l
  else OtaStep.exit l

/-- One pass through the body of the `do ... while` loop (lines 278-326).  The
`continue` of the time-out branch transfers control to the loop condition. -/
def ota_loop_body (env : OtaEnv) (content_length : Int) (l : OtaLocals) : OtaStep :=
  let r := httpd_req_recv (env.recv l.reads) l.ota_buff (MIN_content_length_sizeof content_length)
  let l1 := { l with ota_buff := r.1, recv_len := r.2, reads := l.reads + 1 }
  if l1.recv_len < 0 ∧ l1.recv_len = HTTPD_SOCK_ERR_TIMEOUT then
    ota_loop_cond content_length l1
  else if !l1.is_req_body_started then
    let l2 := { l1 with is_req_body_started := true }
    match strstr l2.ota_buff CRLFCRLF with
    | none => OtaStep.undefined l2
    | some k =>
        let body_part_len : Int := l2.recv_len - ((k + 4 : Nat) : Int)
        let l3 := { l2 with flash :=
          { l2.flash with calls := l2.flash.calls ++ [ota_call.esp_ota_begin] } }
        if env.esp_ota_begin_ret ≠ ESP_OK then OtaStep.begin_failed l3
        else
          let l4 := { l3 with flash := { l3.flash with written := [] } }
          let l5 := { l4 with
            flash := esp_ota_write l4.ota_buff (k + 4) body_part_len l4.flash
            content_received := l4.content_received + body_part_len }
          ota_loop_cond content_length l5
  else
    let l2 := { l1 with
      flash := esp_ota_write l1.ota_buff 0 l1.recv_len l1.flash
      content_received := l1.content_received + l1.recv_len }
    ota_loop_cond content_length l2

/-- The `do ... while` loop, for at most `fuel` passes; the result `next` means
that the fuel ran out while the loop condition still held. -/
def ota_loop : Nat → OtaEnv → Int → OtaLocals → OtaStep
  | 0, _, _, l => OtaStep.next l
  | fuel + 1, env, content_length, l =>
      match ota_loop_body env content_length l with
      | OtaStep.next l1 => ota_loop fuel env content_length l1
      | other => other

/-- Passes that are always enough for the loop to end (see `receive_loop_reads`). -/
def ota_fuel (content_length : Int) : Nat :=
  content_length.toNat + sizeof_ota_buff + 2

/-- The outcome of one run of the update handler: the return code (`none` when
the run reached undefined behaviour), the final locals and flash, and the
status monitor. -/
structure OtaResult where
  ret : Option esp_err_t
  locals : OtaLocals
  http : HttpServer
  deriving DecidableEq, Repr

/-- Lines 328-349 of `http_server_OTA_update_handler`: finalize, mark the boot
slot, report the outcome. -/
def ota_finish (env : OtaEnv) (l : OtaLocals) (http : HttpServer) : OtaResult :=
  let f1 := { l.flash with calls := l.flash.calls ++ [ota_call.esp_ota_end] }
  if env.esp_ota_end_ret = ESP_OK then
    let f2 := { f1 with calls := f1.calls ++ [ota_call.esp_ota_set_boot_partition] }
    if env.esp_ota_set_boot_partition_ret = ESP_OK then
      { ret := some ESP_OK
        locals := { l with flash := { f2 with boot_partition := Slot.target } }
        http := http_server_monitor_send_message HTTP_MSG_OTA_UPDATE_SUCCESSFUL http }
    else
      { ret := some ESP_OK
        locals := { l with flash := f2 }
        http := http_server_monitor_send_message HTTP_MSG_OTA_UPDATE_FAILED http }
  else
    { ret := some ESP_OK
      locals := { l with flash := f1 }
      http := http_server_monitor_send_message HTTP_MSG_OTA_UPDATE_FAILED http }

/-- The locals at the start of the handler; the uninitialised buffer holds the
first 1024 bytes of `env.ota_buff`, padded with zeros. -/
def ota_locals_init (env : OtaEnv) (flash : OtaFlash) : OtaLocals :=
  { ota_buff := (env.ota_buff ++ List.replicate sizeof_ota_buff 0).take sizeof_ota_buff
    content_received := 0
    recv_len := 0
    is_req_body_started := false
    reads := 0
    flash := flash }

/-- The function `http_server_OTA_update_handler` for a request whose header
declares `content_len` body bytes. -/
def http_server_OTA_update_handler (env : OtaEnv) (content_len : Nat) (flash : OtaFlash)
    (http : HttpServer) : OtaResult :=
  let content_length := int_of_size_t content_len
  match ota_loop (ota_fuel content_length) env content_length (ota_locals_init env flash) with
  | OtaStep.exit l => ota_finish env l http
  | OtaStep.begin_failed l => { ret := some ESP_FAIL, locals := l, http := http }
  | OtaStep.undefined l => { ret := none, locals := l, http := http }
  | OtaStep.next l => { ret := none, locals := l, http := http }

/-- The reads of a transfer that delivers `chunks` in order and then `last` for ever. -/
def recv_chunks (chunks : List (List Nat)) (last : Recv) (i : Nat) : Recv :=
  match chunks.get? i with
  | some c => Recv.data c
  | none => last

/-! ## Auxiliary definitions used by the statements -/

/-- An upper bound on the number of task iterations a mailbox message causes:
a time-out or a reconfiguration may queue one connected notification. -/
def msg_weight (m : ethernet_app_queue_message_t) : Nat :=
  match m.msgID with
  | ETHERNET_APP_MSG_DHCP_TIMEOUT => 2
  | ETHERNET_APP_MSG_UPDATE_IP_CONFIG => 2
  | _ => 1

/-- The sum of `msg_weight` over a mailbox. -/
def queue_weight (q : List ethernet_app_queue_message_t) : Nat :=
  (q.map msg_weight).sum

/-- The configuration a history of inputs asks for: the payload of the last
`UpdateConfig`, or `c0` (the loaded or default configuration) when there is none. -/
def configured (c0 : eth_ip_config_t) (events : List Event) : eth_ip_config_t :=
  events.foldl (fun c e => match e with
    | Event.UpdateConfig new => new
    | _ => c) c0

/-- The address information `configure_static_ip` builds from a configuration. -/
def static_ip_info (env : Env) (c : eth_ip_config_t) : esp_netif_ip_info_t :=
  { ip := (env.inet_pton c.ip).getD 0
    gw := (env.inet_pton c.gateway).getD 0
    netmask := (env.inet_pton c.netmask).getD 0 }

/-- A configuration request handled by the module: the tail of the HTTP handler,
then the Ethernet task consuming its mailbox. -/
def eth_connect_request (env : Env) (c : eth_ip_config_t) (s : State) : State :=
  ethernet_app_task_run
    (2 * (http_server_eth_connect_json_handler_update env true c s).1.ethernet_app_queue.length)
    env (http_server_eth_connect_json_handler_update env true c s).1

/-- A configuration request handled to the end: `eth_connect_request`, then the
events the library posted in reaction are dispatched. -/
def eth_connect_request_reacting (env : Env) (c : eth_ip_config_t) (s : State) : State :=
  dispatch_posted env (eth_connect_request env c s)

/-! ## Concrete inputs used by witnesses and counterexamples -/

/-- The manager after start with the default (Dynamic) configuration, the status
monitor running and nothing stored in NVS. -/
def start_default : State :=
  link_down_state s_eth_ip_config_init (http_server_configure HttpServer.static_init) NvsEth.empty

/-- The Static configuration of scenario B. -/
def cfg_static_B : eth_ip_config_t :=
  { ip := "10.0.0.5", gateway := "10.0.0.1", netmask := "255.255.255.0", dns := "8.8.8.8",
    dhcp_enabled := false }

/-- The manager after start with the Static configuration of scenario B. -/
def start_static_B : State :=
  link_down_state cfg_static_B (http_server_configure HttpServer.static_init) NvsEth.empty

/-- A lease 10.1.2.3 / gateway 10.1.2.1 / netmask 255.255.0.0 reported by the driver. -/
def lease_10_1_2_3 : Event :=
  Event.AddressAcquired ⟨10, 1, 2, 3⟩ ⟨10, 1, 2, 1⟩ ⟨255, 255, 0, 0⟩

/-- Link up, lease obtained, link down, link up again, DHCP time-out. -/
def history_lease_then_timeout : List (Env × Event) :=
  [(Env.ok, Event.LinkUp), (Env.ok, lease_10_1_2_3), (Env.ok, Event.LinkDown),
   (Env.ok, Event.LinkUp), (Env.ok, Event.DhcpTimeout)]

/-- Scenario A: link up, then DHCP time-out. -/
def history_A : List (Env × Event) :=
  [(Env.ok, Event.LinkUp), (Env.ok, Event.DhcpTimeout)]

/-- Link up, then a lease: the manager is in Bound(Dynamic). -/
def history_bound_dynamic : List (Env × Event) :=
  [(Env.ok, Event.LinkUp), (Env.ok, lease_10_1_2_3)]

/-- The buffer contents and return value of the first `httpd_req_recv` call of
the update handler. -/
def first_read (env : OtaEnv) (content_len : Nat) : List Nat × Int :=
  httpd_req_recv (env.recv 0)
    ((env.ota_buff ++ List.replicate sizeof_ota_buff 0).take sizeof_ota_buff)
    (MIN_content_length_sizeof (int_of_size_t content_len))

/-- Calls the receive loop can make: everything except finalize and set-boot. -/
def loop_call (c : ota_call) : Prop :=
  c ≠ ota_call.esp_ota_end ∧ c ≠ ota_call.esp_ota_set_boot_partition

/-- The locals `l1` come from `l` by loop passes: the boot slot is the same and
the calls made in between are loop calls. -/
def OtaExtends (l l1 : OtaLocals) : Prop :=
  l1.flash.boot_partition = l.flash.boot_partition ∧
    ∃ during : List ota_call, l1.flash.calls = l.flash.calls ++ during ∧
      ∀ c ∈ during, loop_call c

/-- The locals carried by the result of a loop pass. -/
def OtaStep.locals : OtaStep → OtaLocals
  | OtaStep.next l => l
  | OtaStep.exit l => l
  | OtaStep.begin_failed l => l
  | OtaStep.undefined l => l

/-- The outcome message `ota_finish` sends. -/
def ota_outcome (env : OtaEnv) : http_server_message_e :=
  if env.esp_ota_end_ret = ESP_OK ∧ env.esp_ota_set_boot_partition_ret = ESP_OK then
    HTTP_MSG_OTA_UPDATE_SUCCESSFUL
  else HTTP_MSG_OTA_UPDATE_FAILED

/-- The return code the handler's first read decides: `ESP_OK` after a time-out,
undefined when the header terminator is not found, `ESP_FAIL` when
`esp_ota_begin` fails, `ESP_OK` otherwise. -/
def ota_ret (env : OtaEnv) (content_len : Nat) : Option esp_err_t :=
  if (first_read env content_len).2 = HTTPD_SOCK_ERR_TIMEOUT then some ESP_OK
  else if strstr (first_read env content_len).1 CRLFCRLF = none then none
  else if env.esp_ota_begin_ret ≠ ESP_OK then some ESP_FAIL
  else some ESP_OK

/-- A request of 2048 declared bytes in two chunks of 1024: the first starts with
the header terminator followed by 1020 image bytes; every library call succeeds. -/
def env_scenario_D : OtaEnv :=
  { recv := recv_chunks [CRLFCRLF ++ List.replicate 1020 233, List.replicate 1024 7]
      (Recv.data [])
    ota_buff := []
    esp_ota_begin_ret := ESP_OK
    esp_ota_end_ret := ESP_OK
    esp_ota_set_boot_partition_ret := ESP_OK }

/-- A request that declares 12 bytes and delivers 11 (the header terminator and
seven image bytes) before the peer closes; every library call succeeds. -/
def env_short : OtaEnv :=
  { recv := recv_chunks [CRLFCRLF ++ [233, 1, 2, 3, 4, 5, 6]] (Recv.data [])
    ota_buff := []
    esp_ota_begin_ret := ESP_OK
    esp_ota_end_ret := ESP_OK
    esp_ota_set_boot_partition_ret := ESP_OK }

/-- A request whose first read times out while the body would arrive on the
next read; `esp_ota_end` rejects the handle that was never opened. -/
def env_timeout_first : OtaEnv :=
  { recv := fun i =>
      if i = 0 then Recv.error HTTPD_SOCK_ERR_TIMEOUT
      else Recv.data (CRLFCRLF ++ [233, 1, 2])
    ota_buff := []
    esp_ota_begin_ret := ESP_OK
    esp_ota_end_ret := ESP_ERR_INVALID_ARG
    esp_ota_set_boot_partition_ret := ESP_OK }

/-- A request whose only chunk is "hello": no header terminator. -/
def env_no_header : OtaEnv :=
  { recv := recv_chunks [[104, 101, 108, 108, 111]] (Recv.data [])
    ota_buff := []
    esp_ota_begin_ret := ESP_OK
    esp_ota_end_ret := ESP_OK
    esp_ota_set_boot_partition_ret := ESP_OK }

/-- A well-framed request for which `esp_ota_begin` fails. -/
def env_begin_fails : OtaEnv :=
  { recv := recv_chunks [CRLFCRLF ++ [233, 1, 2]] (Recv.data [])
    ota_buff := []
    esp_ota_begin_ret := ESP_FAIL
    esp_ota_end_ret := ESP_OK
    esp_ota_set_boot_partition_ret := ESP_OK }

/-- A well-framed request whose finalize step fails. -/
def env_end_fails : OtaEnv :=
  { recv := recv_chunks [CRLFCRLF ++ [233, 1, 2]] (Recv.data [])
    ota_buff := []
    esp_ota_begin_ret := ESP_OK
    esp_ota_end_ret := ESP_FAIL
    esp_ota_set_boot_partition_ret := ESP_OK }

/-- The status monitor once the HTTP server is configured. -/
def http_ready : HttpServer :=
  http_server_configure HttpServer.static_init

/-- The number of bytes in a list of chunks. -/
def total_length (cs : List (List Nat)) : Nat :=
  (cs.map List.length).sum

/-- The peer has closed: the read returns 0 or a negative error code. -/
def closed (last : Recv) : Prop :=
  last = Recv.data [] ∨ ∃ code : Int, code < 0 ∧ last = Recv.error code

/-! ## http_server.c: the Ethernet configuration request -/

/-- An HTTP request as the handler sees it through the httpd API: the value of
each header field (`none` when the field is absent; a text stands for its
bytes), and the result `httpd_req_get_hdr_value_str` gives for each field when
the destination is large enough. -/
structure HttpdReq where
  hdr : String → Option String
  get_hdr_value_str_ret : String → esp_err_t

/-- The call `httpd_req_get_hdr_value_len(req, field)`: 0 when the field is absent. -/
def httpd_req_get_hdr_value_len (req : HttpdReq) (field : String) : Nat :=
  match req.hdr field with
  | some v => v.length
  | none => 0

/-- The pattern used for every header of the request:
`len = httpd_req_get_hdr_value_len(req, field) + 1;
 if (len > 1 && len < size) if (httpd_req_get_hdr_value_str(req, field, buf, len) == ESP_OK) ...`.
The result is the value copied into the buffer of `size` bytes, or `none` when
the buffer is left as it was. -/
def read_hdr (req : HttpdReq) (field : String) (size : Nat) : Option String :=
  if httpd_req_get_hdr_value_len req field + 1 > 1 ∧
      httpd_req_get_hdr_value_len req field + 1 < size then
    match req.hdr field with
    | some v => if req.get_hdr_value_str_ret field = ESP_OK then some v else none
    | none => none
  else none

/-- The call `strncpy(dst, src, sizeof(dst) - 1)` into a zeroed 16-byte field. -/
def strncpy15 (src : String) : String :=
  String.mk (src.data.take 15)

/-- Lines 562-582 of `http_server_eth_connect_json_handler`: the addressing mode
the request selects (`true` for DHCP, the default). -/
def eth_connect_dhcp_enabled (req : HttpdReq) : Bool :=
  match read_hdr req "ip-mode" 10 with
  | some ip_mode_str => if ip_mode_str = "static" then false else true
  | none => true

/-- Lines 584-668 of `http_server_eth_connect_json_handler`: the configuration
built from the request, or `none` when the static fields fail the validation. -/
def eth_connect_config (req : HttpdReq) : Option eth_ip_config_t :=
  if !eth_connect_dhcp_enabled req then
    let static_ip_str := (read_hdr req "static-ip" 16).getD ""
    let static_subnet_str := (read_hdr req "static-subnet" 16).getD ""
    let static_gateway_str := (read_hdr req "static-gateway" 16).getD ""
    let static_dns_str := (read_hdr req "static-dns" 16).getD "8.8.8.8"
    if static_ip_str.length = 0 ∨ static_subnet_str.length = 0 ∨
        static_gateway_str.length = 0 then none
    else
      some
        { ip := strncpy15 static_ip_str
          gateway := strncpy15 static_gateway_str
          netmask := strncpy15 static_subnet_str
          dns := strncpy15 static_dns_str
          dhcp_enabled := false }
  else
    some
      { ip := strncpy15 ETH_DEFAULT_IP
        gateway := strncpy15 ETH_DEFAULT_GATEWAY
        netmask := strncpy15 ETH_DEFAULT_NETMASK
        dns := strncpy15 ETH_DEFAULT_DNS
        dhcp_enabled := true }

/-- What the configuration handler leaves behind: the state, its return code and
the status of the error response it sent, if any. -/
structure EthConnectResult where
  state : State
  ret : esp_err_t
  resp_err : Option Nat
  deriving DecidableEq, Repr

/-- The function `http_server_eth_connect_json_handler`. -/
def http_server_eth_connect_json_handler (env : Env) (malloc_ok : Bool) (req : HttpdReq)
    (s : State) : EthConnectResult :=
  match eth_connect_config req with
  | none => { state := s, ret := ESP_FAIL, resp_err := some 400 }
  | some eth_config =>
      if (ethernet_app_set_ip_config malloc_ok eth_config s).2 ≠ ESP_OK then
        { state := (http_server_eth_connect_json_handler_update env malloc_ok eth_config s).1
          ret := ESP_FAIL
          resp_err := some 500 }
      else
        { state := (http_server_eth_connect_json_handler_update env malloc_ok eth_config s).1
          ret := ESP_OK
          resp_err := none }

/-- A request given by its header fields, every `httpd_req_get_hdr_value_str` succeeding. -/
def request (fields : List (String × String)) : HttpdReq :=
  { hdr := fun name => (fields.find? (fun p => p.1 = name)).map Prod.snd
    get_hdr_value_str_ret := fun _ => ESP_OK }

/-- Every NVS call of a save succeeds. -/
def NvsEnv.save_ok (nv : NvsEnv) : Prop :=
  nv.open_ret = ESP_OK ∧ (∀ key, nv.set_ret key = ESP_OK) ∧ nv.commit_ret = ESP_OK

/-- The namespace after a complete save of `c`. -/
def NvsEth.of_config (c : eth_ip_config_t) : NvsEth :=
  { ip := some c.ip
    gateway := some c.gateway
    netmask := some c.netmask
    dns := some c.dns
    dhcp := some (if c.dhcp_enabled then 1 else 0) }

/-- The mailbox message that carries a reconfiguration. -/
def update_msg (c : eth_ip_config_t) : ethernet_app_queue_message_t :=
  ⟨ETHERNET_APP_MSG_UPDATE_IP_CONFIG, some c⟩

/-- A static request with malformed address fields. -/
def request_malformed : HttpdReq :=
  request [("ip-mode", "static"), ("static-ip", "abc"), ("static-subnet", "x.y"),
    ("static-gateway", "300.1.1")]

/-- A static request with a 15-character address. -/
def request_long_ip : HttpdReq :=
  request [("ip-mode", "static"), ("static-ip", "192.168.100.200"),
    ("static-subnet", "255.255.255.0"), ("static-gateway", "192.168.100.1")]

/-- A static request with a 15-character DNS server. -/
def request_long_dns : HttpdReq :=
  request [("ip-mode", "static"), ("static-ip", "10.0.0.5"),
    ("static-subnet", "255.255.255.0"), ("static-gateway", "10.0.0.1"),
    ("static-dns", "192.168.100.100")]

/-- A static request without a DNS server. -/
def request_no_dns : HttpdReq :=
  request [("ip-mode", "static"), ("static-ip", "10.0.0.5"),
    ("static-subnet", "255.255.255.0"), ("static-gateway", "10.0.0.1")]

/-- A static request with a 7-character DNS server. -/
def request_dns : HttpdReq :=
  request [("ip-mode", "static"), ("static-ip", "10.0.0.5"),
    ("static-subnet", "255.255.255.0"), ("static-gateway", "10.0.0.1"),
    ("static-dns", "1.1.1.1")]

/-- A request that selects DHCP. -/
def request_dhcp : HttpdReq :=
  request [("ip-mode", "dhcp")]

/-- Link up, DHCP time-out, then a late lease. -/
def history_late_lease : List (Env × Event) :=
  [(Env.ok, Event.LinkUp), (Env.ok, Event.DhcpTimeout), (Env.ok, lease_10_1_2_3)]

/-- Link up, lease obtained, link down. -/
def history_lease_then_down : List (Env × Event) :=
  [(Env.ok, Event.LinkUp), (Env.ok, lease_10_1_2_3), (Env.ok, Event.LinkDown)]

/-- Link up, lease obtained, stop. -/
def history_bound_then_stop : List (Env × Event) :=
  [(Env.ok, Event.LinkUp), (Env.ok, lease_10_1_2_3), (Env.ok, Event.Stop)]

/-- The header field is unusable for the handler: absent, empty, or too long for
the 16-byte buffer even without the terminating NUL. -/
def hdr_missing (req : HttpdReq) (field : String) : Prop :=
  match req.hdr field with
  | none => True
  | some v => v.length = 0 ∨ 16 ≤ v.length

/-- The header field is present with the value `v` of 1 to 14 characters and can be read. -/
def hdr_short (req : HttpdReq) (field : String) (v : String) : Prop :=
  req.hdr field = some v ∧ 1 ≤ v.length ∧ v.length ≤ 14 ∧
    req.get_hdr_value_str_ret field = ESP_OK

/-! ## ethernet_app.c: the start of the task -/

/-- Results of the calls `ethernet_app_task` makes before its message loop, and
the indeterminate contents of its local `loaded_config`. -/
structure StartEnv where
  env : Env
  esp_event_handler_register_ret : esp_err_t
  xTimerCreate_ok : Bool
  eth_init_w5500_ok : Bool
  esp_netif_attach_ret : esp_err_t
  esp_eth_start_ret : esp_err_t
  loaded_config : eth_ip_config_t

/-- The module variables when `ethernet_app_task` is entered: the static
initialisers of `ethernet_app.c`, the queue and the event group just created by
`ethernet_app_start`, and the surroundings (NVS namespace, status monitor,
registered callback). -/
def task_entry_state (nvs : NvsEth) (http : HttpServer) (cb : Bool) : State :=
  { s_eth_ip_config := s_eth_ip_config_init
    event_group := EventBits.zero
    s_dhcp_timer := none
    s_eth_handle := false
    ethernet_connected_event_cb := cb
    callback_calls := 0
    ethernet_app_queue := []
    esp_netif_eth := ⟨true, ⟨0, 0, 0⟩, none⟩
    nvs := nvs
    http := http
    assert_failed := false
    posted := [] }

/-- Lines 410-469 of `ethernet_app_task`: everything before the message loop.
The second component tells whether the loop is entered. -/
def ethernet_app_task_start (se : StartEnv) (s : State) : State × Bool :=
  if se.esp_event_handler_register_ret ≠ ESP_OK then ({ s with assert_failed := true }, false)
  else if !se.xTimerCreate_ok then ({ s with s_dhcp_timer := none }, false)
  else
    let s1 := { s with s_dhcp_timer := some false }
    let loaded := app_nvs_load_eth_config se.env.nvs s1.nvs se.loaded_config
    let s2 := if loaded.2 then { s1 with s_eth_ip_config := loaded.1 } else s1
    if !se.eth_init_w5500_ok then ({ s2 with s_eth_handle := false }, false)
    else
      let s3 := { s2 with s_eth_handle := true }
      if se.esp_netif_attach_ret ≠ ESP_OK then ({ s3 with assert_failed := true }, false)
      else
        let s4 := if !s3.s_eth_ip_config.dhcp_enabled then (configure_static_ip se.env s3).1 else s3
        if se.esp_eth_start_ret ≠ ESP_OK then ({ s4 with assert_failed := true }, false)
        else (s4, true)

/-! ## http_server.c: the monitor loop over a sequence of messages -/

/-- The `for(;;)` loop of `http_server_monitor` consuming the queued messages
`msgs`, oldest first. -/
def http_server_monitor_run (msgs : List http_server_message_e) (h : HttpServer) : HttpServer :=
  msgs.foldl (fun st m => http_server_monitor m st) h

/-- The messages `msgs` handed one after the other to `http_server_monitor_send_message`. -/
def http_server_monitor_send_all (msgs : List http_server_message_e) (h : HttpServer) :
    HttpServer :=
  msgs.foldl (fun st m => http_server_monitor_send_message m st) h

/-- The Wi-Fi phase a status event sets, when it is an event of the Wi-Fi bearer. -/
def wifi_phase_of : http_server_message_e → Option Nat
  | HTTP_MSG_WIFI_CONNECT_INIT => some HTTP_WIFI_STATUS_CONNECTING
  | HTTP_MSG_WIFI_CONNECT_SUCCESS => some HTTP_WIFI_STATUS_CONNECT_SUCCESS
  | HTTP_MSG_WIFI_CONNECT_FAIL => some HTTP_WIFI_STATUS_CONNECT_FAILED
  | HTTP_MSG_WIFI_USER_DISCONNECT => some HTTP_WIFI_STATUS_DISCONNECTED
  | _ => none

/-- The Ethernet phase a status event sets, when it is an event of the Ethernet bearer. -/
def eth_phase_of : http_server_message_e → Option Nat
  | HTTP_MSG_ETH_CONNECT_INIT => some HTTP_ETH_STATUS_CONNECTING
  | HTTP_MSG_ETH_CONNECT_SUCCESS => some HTTP_ETH_STATUS_CONNECT_SUCCESS
  | HTTP_MSG_ETH_CONNECT_FAIL => some HTTP_ETH_STATUS_CONNECT_FAILED
  | HTTP_MSG_ETH_USER_DISCONNECT => some HTTP_ETH_STATUS_DISCONNECTED
  | _ => none

/-- The update outcome a status event sets, when it is an update event. -/
def update_outcome_of : http_server_message_e → Option Nat
  | HTTP_MSG_OTA_UPDATE_SUCCESSFUL => some OTA_UPDATE_SUCCESSFUL
  | HTTP_MSG_OTA_UPDATE_FAILED => some OTA_UPDATE_FAILED
  | _ => none

/-- The value set by the last event of `msgs` that sets one, or `init` when no
event of `msgs` does. -/
def last_set (f : http_server_message_e → Option Nat) (init : Nat)
    (msgs : List http_server_message_e) : Nat :=
  (msgs.reverse.findSome? f).getD init

/-! ## Further concrete inputs -/

/-- Library results for a run in which the interface rejects the address. -/
def env_set_ip_fails : Env :=
  { Env.ok with esp_netif_set_ip_info_ret := ESP_FAIL }

/-- Link up, then a DHCP time-out whose static application the interface rejects. -/
def history_fallback_fails : List (Env × Event) :=
  [(Env.ok, Event.LinkUp), (env_set_ip_fails, Event.DhcpTimeout)]

/-! ## Auxiliary definitions for the receive loop -/

/-- The receive loop of `http_server_OTA_update_handler` as the handler runs it:
from the initial locals, with the handler's bound on the number of passes. -/
def receive_loop (env : OtaEnv) (content_len : Nat) (flash : OtaFlash) : OtaStep :=
  ota_loop (ota_fuel (int_of_size_t content_len)) env (int_of_size_t content_len)
    (ota_locals_init env flash)

/-- The offset of the first occurrence of `needle` among all the bytes of `hay`
(unlike `strstr`, a NUL byte does not end the search). -/
def first_occurrence : List Nat → List Nat → Option Nat
  | [], _ => none
  | c :: rest, needle =>
      if starts_with (c :: rest) needle then some 0
      else (first_occurrence rest needle).map (fun k => k + 1)

/-- The number of bytes a read delivers when at most `buf_len` are asked for. -/
def recv_count (r : Recv) (buf_len : Nat) : Nat :=
  match r with
  | .data bytes => (bytes.take buf_len).length
  | .error _ => 0

/-- The number of bytes the first `n` reads of a request deliver. -/
def delivered (env : OtaEnv) (content_length : Int) (n : Nat) : Nat :=
  ((List.range n).map
    (fun i => recv_count (env.recv i) (MIN_content_length_sizeof content_length))).sum

/-- A request whose only chunk has a NUL byte in front of the header terminator. -/
def env_nul_before_header : OtaEnv :=
  { recv := recv_chunks [[0, 13, 10, 13, 10, 233, 1, 2]] (Recv.data [])
    ota_buff := []
    esp_ota_begin_ret := ESP_OK
    esp_ota_end_ret := ESP_OK
    esp_ota_set_boot_partition_ret := ESP_OK }

/-! ## Theorems: the mailbox is always drained -/

theorem queue_weight_append (q1 q2 : List ethernet_app_queue_message_t) :
    queue_weight (q1 ++ q2) = queue_weight q1 + queue_weight q2 := by
  simp [queue_weight]

theorem msg_weight_pos (m : ethernet_app_queue_message_t) : 1 ≤ msg_weight m := by
  unfold msg_weight
  split <;> omega

theorem msg_weight_le_two (m : ethernet_app_queue_message_t) : msg_weight m ≤ 2 := by
  unfold msg_weight
  split <;> omega

theorem queue_weight_le (q : List ethernet_app_queue_message_t) :
    queue_weight q ≤ 2 * q.length := by
  induction q with
  | nil => simp [queue_weight]
  | cons m rest ih =>
      have h := msg_weight_le_two m
      simp only [queue_weight, List.map_cons, List.sum_cons, List.length_cons] at ih ⊢
      omega

theorem queue_weight_eq_zero (q : List ethernet_app_queue_message_t)
    (h : queue_weight q = 0) : q = [] := by
  cases q with
  | nil => rfl
  | cons m rest =>
      have hm := msg_weight_pos m
      simp only [queue_weight, List.map_cons, List.sum_cons] at h
      omega

theorem configure_static_ip_queue_weight (env : Env) (s : State) :
    queue_weight (configure_static_ip env s).1.ethernet_app_queue
      ≤ queue_weight s.ethernet_app_queue + 1 := by
  unfold configure_static_ip
  by_cases hr : env.esp_netif_set_ip_info_ret = 0
  · simp [hr, ethernet_app_send_message, queue_weight_append, queue_weight, msg_weight]
  · simp [hr]

theorem ethernet_app_task_step_queue_weight (env : Env) (msg : ethernet_app_queue_message_t)
    (s : State) :
    queue_weight (ethernet_app_task_step env msg s).ethernet_app_queue + 1
      ≤ queue_weight s.ethernet_app_queue + msg_weight msg := by
  have hc := configure_static_ip_queue_weight env
  obtain ⟨id, data⟩ := msg
  cases id
  case ETHERNET_APP_MSG_START_HTTP_SERVER => simp [ethernet_app_task_step, msg_weight]
  case ETHERNET_APP_MSG_ETH_CONNECTED_GOT_IP =>
    simp only [ethernet_app_task_step, ethernet_app_call_callback, msg_weight]
    split <;> simp
  case ETHERNET_APP_MSG_ETH_DISCONNECTED => simp [ethernet_app_task_step, msg_weight]
  case ETHERNET_APP_MSG_ETH_STOP =>
    simp only [ethernet_app_task_step, msg_weight]
    split_ifs <;> simp
  case ETHERNET_APP_MSG_DHCP_TIMEOUT =>
    simp only [ethernet_app_task_step, msg_weight]
    have := hc s
    omega
  case ETHERNET_APP_MSG_UPDATE_IP_CONFIG =>
    cases data with
    | none => simp [ethernet_app_task_step, msg_weight]
    | some c =>
        simp only [ethernet_app_task_step, msg_weight]
        split_ifs
        · simp [xTimerStart]
          split <;> simp
        · refine le_trans (Nat.add_le_add_right (hc _) 1) ?_
          simp
        · refine le_trans (Nat.add_le_add_right (hc _) 1) ?_
          simp
        · simp
        · simp

theorem ethernet_app_task_run_drains (env : Env) :
    ∀ (fuel : Nat) (s : State), queue_weight s.ethernet_app_queue ≤ fuel →
      (ethernet_app_task_run fuel env s).ethernet_app_queue = [] := by
  intro fuel
  induction fuel with
  | zero =>
      intro s h
      simpa [ethernet_app_task_run] using queue_weight_eq_zero _ (Nat.le_zero.mp h)
  | succ n ih =>
      intro s h
      unfold ethernet_app_task_run
      cases hq : s.ethernet_app_queue with
      | nil => simpa using hq
      | cons msg rest =>
          simp only
          apply ih
          have h1 := ethernet_app_task_step_queue_weight env msg
            { s with ethernet_app_queue := rest }
          rw [hq] at h
          simp only [queue_weight, List.map_cons, List.sum_cons] at h h1 ⊢
          omega

theorem process_queue_empty (env : Env) (s : State) (e : Event) :
    (process env s e).ethernet_app_queue = [] := by
  unfold process
  exact ethernet_app_task_run_drains env _ _ (queue_weight_le _)

theorem run_queue_empty (history : List (Env × Event)) :
    ∀ s : State, s.ethernet_app_queue = [] → (run s history).ethernet_app_queue = [] := by
  induction history with
  | nil => intro s h; simpa [run] using h
  | cons p rest ih =>
      intro s _
      have := ih (process p.1 s p.2) (process_queue_empty _ _ _)
      simpa [run] using this
/-! ## Theorems: connection manager -/

/-- LinkUp with a Dynamic configuration, handled to the end. -/
theorem react_link_up_dynamic (env : Env) (s : State)
    (hq : s.ethernet_app_queue = []) (hp : s.posted = [])
    (hdhcp : s.s_eth_ip_config.dhcp_enabled = true)
    (hmon : s.http.http_server_monitor_queue_handle = true) :
    (react env s Event.LinkUp).ethernet_app_queue = [] ∧
    (react env s Event.LinkUp).posted = [] ∧
    (react env s Event.LinkUp).event_group.ETH_CONNECTED_BIT = true ∧
    (react env s Event.LinkUp).s_eth_ip_config = s.s_eth_ip_config ∧
    (react env s Event.LinkUp).http.monitor_received
      = s.http.monitor_received ++ [HTTP_MSG_ETH_CONNECT_INIT] ∧
    (react env s Event.LinkUp).http.http_server_monitor_queue_handle = true := by
  cases ht : s.s_dhcp_timer <;>
  simp [react, dispatch_posted, process, deliver, ethernet_app_event_handler, send_http,
    http_server_monitor_send_message, http_server_monitor, xTimerStart,
    ethernet_app_task_run, hq, hp, hdhcp, hmon, ht]

/-- DhcpTimeout handled to the end when the interface accepts the address and
the stack posts the address event for it. -/
theorem react_dhcp_timeout_posted (env : Env) (s : State)
    (hq : s.ethernet_app_queue = []) (hp : s.posted = [])
    (hmon : s.http.http_server_monitor_queue_handle = true)
    (hok : env.esp_netif_set_ip_info_ret = ESP_OK)
    (hpost : env.got_ip_event_posted = true) :
    (react env s Event.DhcpTimeout).event_group.ETH_USING_STATIC_IP_BIT = true ∧
    (react env s Event.DhcpTimeout).event_group.ETH_CONNECTED_BIT
      = s.event_group.ETH_CONNECTED_BIT ∧
    (react env s Event.DhcpTimeout).http.monitor_received
      = s.http.monitor_received ++ [HTTP_MSG_ETH_CONNECT_SUCCESS] ∧
    (react env s Event.DhcpTimeout).http.g_eth_connect_status
      = HTTP_ETH_STATUS_CONNECT_SUCCESS ∧
    (react env s Event.DhcpTimeout).esp_netif_eth.ip_info
      = static_ip_info env s.s_eth_ip_config ∧
    (react env s Event.DhcpTimeout).s_eth_ip_config = s.s_eth_ip_config ∧
    (react env s Event.DhcpTimeout).s_dhcp_timer ≠ some true ∧
    (react env s Event.DhcpTimeout).posted = [] ∧
    (react env s Event.DhcpTimeout).ethernet_app_queue = [] ∧
    (react env s Event.DhcpTimeout).callback_calls
      = s.callback_calls + (if s.ethernet_connected_event_cb then 2 else 0) := by
  have hr : env.esp_netif_set_ip_info_ret = 0 := hok
  cases ht : s.s_dhcp_timer <;> cases hcb : s.ethernet_connected_event_cb <;>
  simp [react, dispatch_posted, process, deliver, ethernet_app_event_handler, send_http,
    http_server_monitor_send_message, http_server_monitor, dhcp_timeout_callback,
    ethernet_app_send_message, ethernet_app_task_run, ethernet_app_task_step,
    configure_static_ip, ethernet_app_call_callback, static_ip_info,
    hq, hp, hmon, ht, hr, hpost, hcb]

/-- C1: for every Dynamic configuration and every state with an empty mailbox and
no pending event, after LinkUp and then DhcpTimeout, each handled to the end
(the interface accepting the address and the stack posting the address event
for it), the manager is in Bound(Static) with the static marker set and the
timer not active, the interface carries the stored static settings, the stored
configuration is untouched, and the monitor has received ConnectInit and then
ConnectSuccess: the Ethernet phase is Success.  ConnectSuccess is sent by the
handler of the address event that the stack posts for the applied address. -/
theorem C1_fallback_bound_static (env1 env2 : Env) (s : State)
    (hq : s.ethernet_app_queue = []) (hp : s.posted = [])
    (hdhcp : s.s_eth_ip_config.dhcp_enabled = true)
    (hmon : s.http.http_server_monitor_queue_handle = true)
    (hok : env2.esp_netif_set_ip_info_ret = ESP_OK)
    (hpost : env2.got_ip_event_posted = true) :
    BoundStatic (react env2 (react env1 s Event.LinkUp) Event.DhcpTimeout) ∧
    (react env2 (react env1 s Event.LinkUp)
      Event.DhcpTimeout).event_group.ETH_USING_STATIC_IP_BIT = true ∧
    (react env2 (react env1 s Event.LinkUp) Event.DhcpTimeout).http.monitor_received
      = s.http.monitor_received ++ [HTTP_MSG_ETH_CONNECT_INIT, HTTP_MSG_ETH_CONNECT_SUCCESS] ∧
    (react env2 (react env1 s Event.LinkUp) Event.DhcpTimeout).http.g_eth_connect_status
      = HTTP_ETH_STATUS_CONNECT_SUCCESS ∧
    (react env2 (react env1 s Event.LinkUp) Event.DhcpTimeout).esp_netif_eth.ip_info
      = static_ip_info env2 s.s_eth_ip_config ∧
    (react env2 (react env1 s Event.LinkUp) Event.DhcpTimeout).s_eth_ip_config
      = s.s_eth_ip_config ∧
    (react env2 (react env1 s Event.LinkUp) Event.DhcpTimeout).s_dhcp_timer ≠ some true ∧
    (react env2 (react env1 s Event.LinkUp) Event.DhcpTimeout).posted = [] ∧
    (react env2 (react env1 s Event.LinkUp) Event.DhcpTimeout).ethernet_app_queue = [] := by
  obtain ⟨a1, a2, a3, a4, a5, a6⟩ := react_link_up_dynamic env1 s hq hp hdhcp hmon
  obtain ⟨b1, b2, b3, b4, b5, b6, b7, b8, b9, _⟩ :=
    react_dhcp_timeout_posted env2 (react env1 s Event.LinkUp) a1 a2 a6 hok hpost
  refine ⟨⟨b2.trans a3, b1⟩, b1, ?_, b4, ?_, b6.trans a4, b7, b8, b9⟩
  · rw [b3, a5]
    simp
  · rw [b5, a4]

/-- C1 at scenario A from the default start. -/
theorem C1_fallback_bound_static_witness :
    start_default.ethernet_app_queue = [] ∧
    start_default.posted = [] ∧
    start_default.s_eth_ip_config.dhcp_enabled = true ∧
    start_default.http.http_server_monitor_queue_handle = true ∧
    Env.ok.esp_netif_set_ip_info_ret = ESP_OK ∧
    Env.ok.got_ip_event_posted = true ∧
    BoundStatic (react Env.ok (react Env.ok start_default Event.LinkUp) Event.DhcpTimeout) ∧
    (react Env.ok (react Env.ok start_default Event.LinkUp)
      Event.DhcpTimeout).http.g_eth_connect_status = HTTP_ETH_STATUS_CONNECT_SUCCESS :=
  ⟨rfl, rfl, rfl, rfl, rfl, rfl,
    (C1_fallback_bound_static Env.ok Env.ok start_default rfl rfl rfl rfl rfl rfl).1,
    (C1_fallback_bound_static Env.ok Env.ok start_default rfl rfl rfl rfl rfl rfl).2.2.2.1⟩

/-- C2 refuted as stated: after a link-up that obtained the lease 10.1.2.3, a
link-down and a new link-up that times out, the address put on the interface is
10.1.2.3 with gateway 10.1.2.1 and netmask 255.255.0.0 (the earlier lease), not
the configured defaults 192.168.0.101 / 192.168.0.1 / 255.255.255.0. -/
theorem C2_counterexample :
    BoundStatic (run start_default history_lease_then_timeout) ∧
    configured start_default.s_eth_ip_config (history_lease_then_timeout.map Prod.snd)
      = s_eth_ip_config_init ∧
    (run start_default history_lease_then_timeout).esp_netif_eth.ip_info
      = ⟨167838211, 167838209, 4294901760⟩ ∧
    (run start_default history_lease_then_timeout).esp_netif_eth.ip_info
      ≠ static_ip_info Env.ok s_eth_ip_config_init := by
  decide
theorem process_config_of_not_acquired (env : Env) (s : State) (e : Event)
    (hq : s.ethernet_app_queue = [])
    (he : ∀ a g m, e ≠ Event.AddressAcquired a g m) :
    (process env s e).s_eth_ip_config = configured s.s_eth_ip_config [e] := by
  cases e with
  | AddressAcquired a g m => exact absurd rfl (he a g m)
  | LinkUp =>
      cases ht : s.s_dhcp_timer <;> cases hcb : s.ethernet_connected_event_cb <;>
      cases hd : s.s_eth_ip_config.dhcp_enabled <;>
      by_cases hr : env.esp_netif_set_ip_info_ret = 0 <;>
      simp [process, deliver, ethernet_app_event_handler, send_http, xTimerStart,
        ethernet_app_send_message, ethernet_app_task_run, ethernet_app_task_step,
        configure_static_ip, ethernet_app_call_callback, configured, hq, ht, hr, hcb, hd]
  | LinkDown =>
      rcases ht : s.s_dhcp_timer with _ | _ | _ <;>
      simp [process, deliver, ethernet_app_event_handler, send_http,
        ethernet_app_send_message, ethernet_app_task_run, ethernet_app_task_step,
        configured, hq, ht]
  | DhcpTimeout =>
      cases ht : s.s_dhcp_timer <;> cases hcb : s.ethernet_connected_event_cb <;>
      by_cases hr : env.esp_netif_set_ip_info_ret = 0 <;>
      simp [process, deliver, dhcp_timeout_callback,
        ethernet_app_send_message, ethernet_app_task_run, ethernet_app_task_step,
        configure_static_ip, ethernet_app_call_callback, configured, hq, ht, hr, hcb]
  | UpdateConfig c =>
      cases ht : s.s_dhcp_timer <;> cases hcb : s.ethernet_connected_event_cb <;>
      cases hd : s.s_eth_ip_config.dhcp_enabled <;> cases hc : c.dhcp_enabled <;>
      cases hb : s.event_group.ETH_CONNECTED_BIT <;>
      by_cases hr : env.esp_netif_set_ip_info_ret = 0 <;>
      simp [process, deliver, ethernet_app_set_ip_config, xTimerStart,
        ethernet_app_send_message, ethernet_app_task_run, ethernet_app_task_step,
        configure_static_ip, ethernet_app_call_callback, configured, hq, ht, hr, hcb, hd, hc, hb]
  | Stop =>
      cases hh : s.s_eth_handle <;>
      by_cases h1 : env.esp_eth_stop_ret = 0 <;> by_cases h2 : env.eth_deinit_w5500_ret = 0 <;>
      simp [process, deliver, ethernet_app_send_message, ethernet_app_task_run,
        ethernet_app_task_step, configured, hq, hh, h1, h2]

theorem run_config_of_not_acquired (history : List (Env × Event)) :
    ∀ s : State, s.ethernet_app_queue = [] →
      (∀ p ∈ history, ∀ a g m, p.2 ≠ Event.AddressAcquired a g m) →
      (run s history).s_eth_ip_config
        = configured s.s_eth_ip_config (history.map Prod.snd) := by
  induction history with
  | nil => intro s _ _; rfl
  | cons p rest ih =>
      intro s hq hno
      have h1 := process_config_of_not_acquired p.1 s p.2 hq
        (hno p (List.mem_cons_self _ _))
      have h2 := ih (process p.1 s p.2) (process_queue_empty _ _ _)
        (fun q hqm => hno q (List.mem_cons_of_mem _ hqm))
      simp only [run, List.foldl_cons, List.map_cons, configured] at h1 h2 ⊢
      rw [h2, h1]
      rfl

/-- C2 as amended: whenever DhcpTimeout is processed while the link is up (after
any history of inputs) and the interface accepts the address, the address,
gateway, netmask and DNS put on the interface are those held in the stored
configuration at that moment, and the manager ends in Bound(Static), not in
AcquiringAddress.  When the history has no AddressAcquired, the stored
configuration is the configured one (the last UpdateConfig, else the initial one). -/
theorem C2_fallback_applies_stored_config (s0 : State) (history : List (Env × Event))
    (env : Env)
    (hq : s0.ethernet_app_queue = [])
    (hup : (run s0 history).event_group.ETH_CONNECTED_BIT = true)
    (hok : env.esp_netif_set_ip_info_ret = ESP_OK) :
    (process env (run s0 history) Event.DhcpTimeout).esp_netif_eth.ip_info
      = static_ip_info env (run s0 history).s_eth_ip_config ∧
    (process env (run s0 history) Event.DhcpTimeout).esp_netif_eth.dns_server
      = env.inet_pton (run s0 history).s_eth_ip_config.dns ∧
    BoundStatic (process env (run s0 history) Event.DhcpTimeout) ∧
    ¬ AcquiringAddress (process env (run s0 history) Event.DhcpTimeout) ∧
    ((∀ p ∈ history, ∀ a g m, p.2 ≠ Event.AddressAcquired a g m) →
      (run s0 history).s_eth_ip_config
        = configured s0.s_eth_ip_config (history.map Prod.snd)) := by
  have hq1 := run_queue_empty history s0 hq
  have hok0 : env.esp_netif_set_ip_info_ret = 0 := hok
  refine ⟨?_, ?_, ?_, ?_, fun hno => run_config_of_not_acquired history s0 hq hno⟩
  all_goals
    cases ht : (run s0 history).s_dhcp_timer <;>
    cases hcb : (run s0 history).ethernet_connected_event_cb <;>
    simp [process, deliver, dhcp_timeout_callback, ethernet_app_send_message,
      ethernet_app_task_run, ethernet_app_task_step, configure_static_ip,
      ethernet_app_call_callback, BoundStatic, AcquiringAddress, static_ip_info,
      hq1, ht, hcb, hok0, hup]

/-- C2 amended, at a concrete run: scenario A from the default start. -/
theorem C2_fallback_applies_stored_config_witness :
    start_default.ethernet_app_queue = [] ∧
    (run start_default [(Env.ok, Event.LinkUp)]).event_group.ETH_CONNECTED_BIT = true ∧
    Env.ok.esp_netif_set_ip_info_ret = ESP_OK ∧
    (process Env.ok (run start_default [(Env.ok, Event.LinkUp)])
      Event.DhcpTimeout).esp_netif_eth.ip_info
      = static_ip_info Env.ok (run start_default [(Env.ok, Event.LinkUp)]).s_eth_ip_config :=
  ⟨rfl, by decide, rfl,
    (C2_fallback_applies_stored_config start_default [(Env.ok, Event.LinkUp)] Env.ok rfl
      (by decide) rfl).1⟩

/-- C3: for every Static configuration and every state with an empty mailbox and
no pending event, LinkUp handled to the end (the interface accepting the
address and the stack posting the address event for it) applies the static
settings at once: the manager is in Bound(Static), the interface carries the
configured address, gateway, netmask and DNS, the DHCP timer is not armed (a
dormant timer stays dormant, and it is not active afterwards in any case), the
stored configuration is untouched, and the monitor has received ConnectInit and
then ConnectSuccess: the Ethernet phase is Success. -/
theorem C3_static_link_up (env : Env) (s : State)
    (hq : s.ethernet_app_queue = []) (hp : s.posted = [])
    (hstatic : s.s_eth_ip_config.dhcp_enabled = false)
    (hmon : s.http.http_server_monitor_queue_handle = true)
    (hok : env.esp_netif_set_ip_info_ret = ESP_OK)
    (hpost : env.got_ip_event_posted = true) :
    BoundStatic (react env s Event.LinkUp) ∧
    (react env s Event.LinkUp).esp_netif_eth.ip_info = static_ip_info env s.s_eth_ip_config ∧
    (react env s Event.LinkUp).esp_netif_eth.dns_server
      = env.inet_pton s.s_eth_ip_config.dns ∧
    (react env s Event.LinkUp).s_dhcp_timer ≠ some true ∧
    (s.s_dhcp_timer = some false → (react env s Event.LinkUp).s_dhcp_timer = some false) ∧
    (react env s Event.LinkUp).http.monitor_received
      = s.http.monitor_received ++ [HTTP_MSG_ETH_CONNECT_INIT, HTTP_MSG_ETH_CONNECT_SUCCESS] ∧
    (react env s Event.LinkUp).http.g_eth_connect_status = HTTP_ETH_STATUS_CONNECT_SUCCESS ∧
    (react env s Event.LinkUp).s_eth_ip_config = s.s_eth_ip_config ∧
    (react env s Event.LinkUp).posted = [] ∧
    (react env s Event.LinkUp).ethernet_app_queue = [] := by
  have hr : env.esp_netif_set_ip_info_ret = 0 := hok
  rcases ht : s.s_dhcp_timer with _ | _ | _ <;> cases hcb : s.ethernet_connected_event_cb <;>
  simp [react, dispatch_posted, process, deliver, ethernet_app_event_handler, send_http,
    http_server_monitor_send_message, http_server_monitor, ethernet_app_send_message,
    ethernet_app_task_run, ethernet_app_task_step, configure_static_ip,
    ethernet_app_call_callback, BoundStatic, static_ip_info, hq, hp, hstatic, hmon, hr,
    hpost, hcb, ht]

/-- C3 at scenario B. -/
theorem C3_static_link_up_witness :
    start_static_B.ethernet_app_queue = [] ∧
    start_static_B.posted = [] ∧
    start_static_B.s_eth_ip_config.dhcp_enabled = false ∧
    start_static_B.http.http_server_monitor_queue_handle = true ∧
    Env.ok.esp_netif_set_ip_info_ret = ESP_OK ∧
    Env.ok.got_ip_event_posted = true ∧
    start_static_B.s_dhcp_timer = some false ∧
    BoundStatic (react Env.ok start_static_B Event.LinkUp) ∧
    (react Env.ok start_static_B Event.LinkUp).esp_netif_eth.ip_info
      = static_ip_info Env.ok start_static_B.s_eth_ip_config ∧
    (react Env.ok start_static_B Event.LinkUp).s_dhcp_timer = some false ∧
    (react Env.ok start_static_B Event.LinkUp).http.g_eth_connect_status
      = HTTP_ETH_STATUS_CONNECT_SUCCESS :=
  ⟨rfl, rfl, rfl, rfl, rfl, rfl, rfl,
    (C3_static_link_up Env.ok start_static_B rfl rfl rfl rfl rfl rfl).1,
    (C3_static_link_up Env.ok start_static_B rfl rfl rfl rfl rfl rfl).2.1,
    (C3_static_link_up Env.ok start_static_B rfl rfl rfl rfl rfl rfl).2.2.2.2.1 rfl,
    (C3_static_link_up Env.ok start_static_B rfl rfl rfl rfl rfl rfl).2.2.2.2.2.2.1⟩

set_option maxHeartbeats 2000000 in
/-- A configuration request handled to the end while the link is up. -/
theorem eth_connect_request_reacting_fields (env : Env) (s : State) (c : eth_ip_config_t)
    (hq : s.ethernet_app_queue = []) (hp : s.posted = [])
    (hconn : s.event_group.ETH_CONNECTED_BIT = true)
    (hmon : s.http.http_server_monitor_queue_handle = true) :
    (eth_connect_request_reacting env c s).event_group.ETH_CONNECTED_BIT = true ∧
    (eth_connect_request_reacting env c s).posted = [] ∧
    (eth_connect_request_reacting env c s).ethernet_app_queue = [] ∧
    (eth_connect_request_reacting env c s).s_eth_ip_config.dhcp_enabled = c.dhcp_enabled ∧
    (eth_connect_request_reacting env c s).http.monitor_received
      = s.http.monitor_received ++ HTTP_MSG_ETH_CONNECT_INIT ::
          List.replicate
            ((if s.s_eth_ip_config.dhcp_enabled = false ∧ env.esp_netif_set_ip_info_ret = ESP_OK
                ∧ env.got_ip_event_posted = true then 1 else 0) +
             (if c.dhcp_enabled = false ∧ env.esp_netif_set_ip_info_ret = ESP_OK
                ∧ env.got_ip_event_posted = true then 1 else 0))
            HTTP_MSG_ETH_CONNECT_SUCCESS ∧
    (c.dhcp_enabled = false → env.esp_netif_set_ip_info_ret = ESP_OK →
      (eth_connect_request_reacting env c s).s_eth_ip_config = c ∧
      (eth_connect_request_reacting env c s).event_group.ETH_USING_STATIC_IP_BIT = true ∧
      (eth_connect_request_reacting env c s).esp_netif_eth.ip_info = static_ip_info env c ∧
      (eth_connect_request_reacting env c s).esp_netif_eth.dns_server = env.inet_pton c.dns ∧
      (env.got_ip_event_posted = true →
        (eth_connect_request_reacting env c s).http.g_eth_connect_status
          = HTTP_ETH_STATUS_CONNECT_SUCCESS ∧
        (eth_connect_request_reacting env c s).s_dhcp_timer ≠ some true)) ∧
    (c.dhcp_enabled = true → s.s_eth_ip_config.dhcp_enabled = true → s.s_dhcp_timer ≠ none →
      (eth_connect_request_reacting env c s).s_eth_ip_config = c ∧
      (eth_connect_request_reacting env c s).event_group.ETH_USING_STATIC_IP_BIT = false ∧
      (eth_connect_request_reacting env c s).esp_netif_eth.dhcpc_started = true ∧
      (eth_connect_request_reacting env c s).s_dhcp_timer = some true ∧
      (eth_connect_request_reacting env c s).http.g_eth_connect_status
        = HTTP_ETH_STATUS_CONNECTING) ∧
    (c.dhcp_enabled = true → s.s_eth_ip_config.dhcp_enabled = false →
      (eth_connect_request_reacting env c s).event_group.ETH_USING_STATIC_IP_BIT = false ∧
      (eth_connect_request_reacting env c s).esp_netif_eth.dhcpc_started = true) := by
  rcases ht : s.s_dhcp_timer with _ | _ | _ <;> cases hcb : s.ethernet_connected_event_cb <;>
  cases hd : s.s_eth_ip_config.dhcp_enabled <;> cases hc : c.dhcp_enabled <;>
  cases hpo : env.got_ip_event_posted <;>
  by_cases hr : env.esp_netif_set_ip_info_ret = 0 <;>
  simp [eth_connect_request_reacting, dispatch_posted, eth_connect_request,
    http_server_eth_connect_json_handler_update, ethernet_app_set_ip_config,
    ethernet_app_apply_ip_config, ethernet_app_event_handler, xTimerStart, send_http,
    http_server_monitor_send_message, http_server_monitor,
    ethernet_app_send_message, ethernet_app_task_run, ethernet_app_task_step,
    configure_static_ip, ethernet_app_call_callback, List.replicate, static_ip_info,
    hq, hp, ht, hr, hcb, hd, hc, hconn, hmon, hpo]

/-- C4 refuted as stated: the phase does not remain Success.  In Bound(Dynamic)
with phase Success, the request that selects DHCP (its payload is the default
configuration) leaves the manager with the link and got-ip flags still set and
the phase at Connecting, with the timer running; the static request of
scenario C makes the monitor receive ConnectInit (phase Connecting when the
handler returns) before the ConnectSuccess of the address event brings the
phase back to Success. -/
theorem C4_counterexample :
    Bound (run_reacting start_default history_bound_dynamic) ∧
    (run_reacting start_default history_bound_dynamic).http.g_eth_connect_status
      = HTTP_ETH_STATUS_CONNECT_SUCCESS ∧
    eth_connect_config request_dhcp = some s_eth_ip_config_init ∧
    Bound (eth_connect_request_reacting Env.ok s_eth_ip_config_init
      (run_reacting start_default history_bound_dynamic)) ∧
    (eth_connect_request_reacting Env.ok s_eth_ip_config_init
      (run_reacting start_default history_bound_dynamic)).http.g_eth_connect_status
      = HTTP_ETH_STATUS_CONNECTING ∧
    (eth_connect_request_reacting Env.ok s_eth_ip_config_init
      (run_reacting start_default history_bound_dynamic)).s_dhcp_timer = some true ∧
    eth_connect_config request_no_dns = some cfg_static_B ∧
    (http_server_eth_connect_json_handler Env.ok true request_no_dns
      (run_reacting start_default history_bound_dynamic)).state.http.g_eth_connect_status
      = HTTP_ETH_STATUS_CONNECTING ∧
    (eth_connect_request_reacting Env.ok cfg_static_B
      (run_reacting start_default history_bound_dynamic)).http.monitor_received
      = [HTTP_MSG_ETH_CONNECT_INIT, HTTP_MSG_ETH_CONNECT_SUCCESS,
         HTTP_MSG_ETH_CONNECT_INIT, HTTP_MSG_ETH_CONNECT_SUCCESS] := by
  decide

/-- C4 as amended: for every configuration request (the source of UpdateConfig)
handled to the end while the manager is Bound (empty mailbox, no pending event,
monitor running): the link flag stays set; the monitor receives ConnectInit,
which sets the phase to Connecting, followed only by ConnectSuccess messages
(at most two), so no Disconnected is emitted; the stored mode becomes the new
one.  A Static new configuration is applied in place when the interface accepts
it: the stored configuration is the new one, the static marker is set and the
interface carries the new settings, and when the stack posts the address event
the phase is back at Success with the timer not active.  A Dynamic new
configuration over a Dynamic one restarts dynamic acquisition: the static
marker is clear, the DHCP client started, the timer armed, and the phase stays
at Connecting.  A Dynamic new configuration over a Static one leaves the static
marker clear and the DHCP client started. -/
theorem C4_update_config_while_bound (env : Env) (s : State) (c : eth_ip_config_t)
    (hq : s.ethernet_app_queue = []) (hp : s.posted = []) (hb : Bound s)
    (hmon : s.http.http_server_monitor_queue_handle = true) :
    (eth_connect_request_reacting env c s).event_group.ETH_CONNECTED_BIT = true ∧
    (∃ n, n ≤ 2 ∧
      (eth_connect_request_reacting env c s).http.monitor_received
        = s.http.monitor_received ++ HTTP_MSG_ETH_CONNECT_INIT ::
            List.replicate n HTTP_MSG_ETH_CONNECT_SUCCESS) ∧
    (∀ h : HttpServer, (http_server_monitor HTTP_MSG_ETH_CONNECT_INIT h).g_eth_connect_status
      = HTTP_ETH_STATUS_CONNECTING) ∧
    (eth_connect_request_reacting env c s).s_eth_ip_config.dhcp_enabled = c.dhcp_enabled ∧
    (c.dhcp_enabled = false → env.esp_netif_set_ip_info_ret = ESP_OK →
      (eth_connect_request_reacting env c s).s_eth_ip_config = c ∧
      BoundStatic (eth_connect_request_reacting env c s) ∧
      (eth_connect_request_reacting env c s).esp_netif_eth.ip_info = static_ip_info env c ∧
      (eth_connect_request_reacting env c s).esp_netif_eth.dns_server = env.inet_pton c.dns ∧
      (env.got_ip_event_posted = true →
        (eth_connect_request_reacting env c s).http.g_eth_connect_status
          = HTTP_ETH_STATUS_CONNECT_SUCCESS ∧
        (eth_connect_request_reacting env c s).s_dhcp_timer ≠ some true)) ∧
    (c.dhcp_enabled = true → s.s_eth_ip_config.dhcp_enabled = true → s.s_dhcp_timer ≠ none →
      (eth_connect_request_reacting env c s).s_eth_ip_config = c ∧
      (eth_connect_request_reacting env c s).event_group.ETH_USING_STATIC_IP_BIT = false ∧
      (eth_connect_request_reacting env c s).esp_netif_eth.dhcpc_started = true ∧
      (eth_connect_request_reacting env c s).s_dhcp_timer = some true ∧
      (eth_connect_request_reacting env c s).http.g_eth_connect_status
        = HTTP_ETH_STATUS_CONNECTING) ∧
    (c.dhcp_enabled = true → s.s_eth_ip_config.dhcp_enabled = false →
      (eth_connect_request_reacting env c s).event_group.ETH_USING_STATIC_IP_BIT = false ∧
      (eth_connect_request_reacting env c s).esp_netif_eth.dhcpc_started = true) := by
  obtain ⟨f1, _, _, f4, f5, f6, f7, f8⟩ :=
    eth_connect_request_reacting_fields env s c hq hp hb.1 hmon
  refine ⟨f1, ⟨_, ?_, f5⟩, fun h => rfl, f4, ?_, f7, f8⟩
  · split_ifs <;> decide
  · intro hc hr
    obtain ⟨g1, g2, g3, g4, g5⟩ := f6 hc hr
    exact ⟨g1, ⟨f1, g2⟩, g3, g4, g5⟩

/-- C4 amended, at scenario C: Bound(Dynamic), then the request for the Static
configuration of scenario B. -/
theorem C4_update_config_while_bound_witness :
    (run_reacting start_default history_bound_dynamic).ethernet_app_queue = [] ∧
    (run_reacting start_default history_bound_dynamic).posted = [] ∧
    Bound (run_reacting start_default history_bound_dynamic) ∧
    (run_reacting start_default
      history_bound_dynamic).http.http_server_monitor_queue_handle = true ∧
    BoundStatic (eth_connect_request_reacting Env.ok cfg_static_B
      (run_reacting start_default history_bound_dynamic)) ∧
    (eth_connect_request_reacting Env.ok cfg_static_B
      (run_reacting start_default history_bound_dynamic)).esp_netif_eth.ip_info
      = static_ip_info Env.ok cfg_static_B ∧
    (eth_connect_request_reacting Env.ok cfg_static_B
      (run_reacting start_default history_bound_dynamic)).http.g_eth_connect_status
      = HTTP_ETH_STATUS_CONNECT_SUCCESS :=
  ⟨by decide, by decide, by decide, by decide,
    ((C4_update_config_while_bound Env.ok (run_reacting start_default history_bound_dynamic)
      cfg_static_B (by decide) (by decide) (by decide) (by decide)).2.2.2.2.1 rfl rfl).2.1,
    ((C4_update_config_while_bound Env.ok (run_reacting start_default history_bound_dynamic)
      cfg_static_B (by decide) (by decide) (by decide) (by decide)).2.2.2.2.1 rfl rfl).2.2.1,
    (((C4_update_config_while_bound Env.ok (run_reacting start_default history_bound_dynamic)
      cfg_static_B (by decide) (by decide) (by decide) (by decide)).2.2.2.2.1
        rfl rfl).2.2.2.2 rfl).1⟩

/-! ## Theorems: the update handler -/

theorem starts_with_append (n : List Nat) :
    ∀ (a b : List Nat), n.length ≤ a.length → starts_with (a ++ b) n = starts_with a n := by
  induction n with
  | nil => intro a b _; cases a <;> cases b <;> simp [starts_with]
  | cons x xs ih =>
      intro a b h
      cases a with
      | nil => simp at h
      | cons y ys =>
          have h1 := ih ys b (by simpa using h)
          show (y == x && starts_with (ys ++ b) xs) = (y == x && starts_with ys xs)
          rw [h1]

theorem strstr_some_le (n : List Nat) :
    ∀ (hay : List Nat) (k : Nat), strstr hay n = some k → k + n.length ≤ hay.length := by
  intro hay
  induction hay with
  | nil => intro k h; simp [strstr] at h
  | cons c rest ih =>
      intro k h
      unfold strstr at h
      split_ifs at h with h1 h2
      · have hk : k = 0 := by simpa using h.symm
        subst hk
        have : ∀ (a m : List Nat), starts_with a m = true → m.length ≤ a.length := by
          intro a m
          induction m generalizing a with
          | nil => intro _; simp
          | cons x xs ihm =>
              intro hs
              cases a with
              | nil => simp [starts_with] at hs
              | cons y ys =>
                  simp only [starts_with, Bool.and_eq_true] at hs
                  have := ihm ys hs.2
                  simp only [List.length_cons]
                  omega
        simpa using this _ _ h1
      · cases hr : strstr rest n with
        | none => simp [hr] at h
        | some k1 =>
            simp only [hr, Option.map_some', Option.some.injEq] at h
            have := ih k1 hr
            simp only [List.length_cons]
            omega

theorem strstr_append (n : List Nat) :
    ∀ (a b : List Nat) (k : Nat), strstr a n = some k → strstr (a ++ b) n = some k := by
  intro a
  induction a with
  | nil => intro b k h; simp [strstr] at h
  | cons c rest ih =>
      intro b k h
      have hlen := strstr_some_le n _ _ h
      have hn1 : n.length ≤ (c :: rest).length := by omega
      unfold strstr at h
      simp only [List.cons_append]
      unfold strstr
      rw [← List.cons_append, starts_with_append n (c :: rest) b hn1]
      split_ifs at h ⊢ with h1 h2
      · exact h
      · cases hr : strstr rest n with
        | none => simp [hr] at h
        | some k1 =>
            simp only [hr, Option.map_some', Option.some.injEq] at h
            rw [ih b k1 hr]
            simp [h]

theorem MIN_content_length_sizeof_le (cl : Int) :
    MIN_content_length_sizeof cl ≤ sizeof_ota_buff := by
  unfold MIN_content_length_sizeof
  split_ifs with h
  · have := h.2
    omega
  · exact le_refl _

theorem httpd_req_recv_length (r : Recv) (buf : List Nat) (n : Nat)
    (hn : n ≤ buf.length) : (httpd_req_recv r buf n).1.length = buf.length := by
  cases r with
  | data bytes =>
      simp only [httpd_req_recv, List.length_append, List.length_drop, List.length_take]
      omega
  | error code => rfl

theorem ota_locals_init_buff_length (env : OtaEnv) (flash : OtaFlash) :
    (ota_locals_init env flash).ota_buff.length = sizeof_ota_buff := by
  simp [ota_locals_init]

theorem OtaExtends.refl (l : OtaLocals) : OtaExtends l l :=
  ⟨rfl, [], by simp, by simp⟩

theorem OtaExtends.trans {l1 l2 l3 : OtaLocals} (h12 : OtaExtends l1 l2)
    (h23 : OtaExtends l2 l3) : OtaExtends l1 l3 := by
  obtain ⟨hb1, d1, hc1, hd1⟩ := h12
  obtain ⟨hb2, d2, hc2, hd2⟩ := h23
  refine ⟨hb2.trans hb1, d1 ++ d2, ?_, ?_⟩
  · rw [hc2, hc1, List.append_assoc]
  · intro c hc
    rcases List.mem_append.mp hc with h | h
    · exact hd1 c h
    · exact hd2 c h

theorem esp_ota_write_boot (buf : List Nat) (off : Nat) (size : Int) (f : OtaFlash) :
    (esp_ota_write buf off size f).boot_partition = f.boot_partition := by
  unfold esp_ota_write
  split_ifs <;> rfl

theorem esp_ota_write_calls (buf : List Nat) (off : Nat) (size : Int) (f : OtaFlash) :
    ∃ c, (esp_ota_write buf off size f).calls = f.calls ++ [c] ∧ loop_call c := by
  unfold esp_ota_write
  split_ifs
  · exact ⟨_, rfl, by simp [loop_call]⟩
  · exact ⟨_, rfl, by simp [loop_call]⟩
theorem ota_loop_cond_exit (cl : Int) (l : OtaLocals) (h : ¬ l.recv_len > 0) :
    ota_loop_cond cl l = OtaStep.exit l := by
  simp [ota_loop_cond, h]

theorem ota_loop_body_started (env : OtaEnv) (cl : Int) (l : OtaLocals)
    (hs : l.is_req_body_started = true) :
    (∃ l1, ota_loop_body env cl l = OtaStep.next l1 ∧ l1.is_req_body_started = true ∧
        OtaExtends l l1 ∧ l.content_received + 1 ≤ l1.content_received ∧
        l1.content_received < cl ∧ l1.reads = l.reads + 1) ∨
    (∃ l1, ota_loop_body env cl l = OtaStep.exit l1 ∧ OtaExtends l l1 ∧
        l1.reads = l.reads + 1) := by
  obtain ⟨buf, cr, rl, st, reads, flash⟩ := l
  simp only at hs
  subst hs
  unfold ota_loop_body
  dsimp only
  generalize httpd_req_recv (env.recv reads) buf (MIN_content_length_sizeof cl) = r
  by_cases ht : r.2 < 0 ∧ r.2 = HTTPD_SOCK_ERR_TIMEOUT
  · right
    rw [if_pos ht, ota_loop_cond_exit _ _ (by dsimp only; omega)]
    exact ⟨_, rfl, ⟨rfl, [], by simp, by simp⟩, rfl⟩
  · rw [if_neg ht]
    simp only [Bool.not_true, Bool.false_eq_true, if_false]
    obtain ⟨c, hc, hlc⟩ := esp_ota_write_calls r.1 0 r.2 flash
    have hb := esp_ota_write_boot r.1 0 r.2 flash
    unfold ota_loop_cond
    dsimp only
    by_cases hcond : r.2 > 0 ∧ cr + r.2 < cl
    · left
      rw [if_pos hcond]
      refine ⟨_, rfl, rfl, ⟨hb, [c], hc, by simpa using hlc⟩, ?_, hcond.2, rfl⟩
      dsimp only
      omega
    · right
      rw [if_neg hcond]
      exact ⟨_, rfl, ⟨hb, [c], hc, by simpa using hlc⟩, rfl⟩

theorem ota_loop_started_exits (env : OtaEnv) (cl : Int) :
    ∀ (fuel : Nat) (l : OtaLocals), l.is_req_body_started = true →
      (cl - l.content_received).toNat ≤ fuel →
      ∃ l1, ota_loop (fuel + 1) env cl l = OtaStep.exit l1 ∧ OtaExtends l l1 := by
  intro fuel
  induction fuel with
  | zero =>
      intro l hs hm
      rcases ota_loop_body_started env cl l hs with ⟨l1, hb, _, _, h1, h2, _⟩ | ⟨l1, hb, he, _⟩
      · omega
      · exact ⟨l1, by simp [ota_loop, hb], he⟩
  | succ n ih =>
      intro l hs hm
      rcases ota_loop_body_started env cl l hs with ⟨l1, hb, hs1, he, h1, h2, _⟩ | ⟨l1, hb, he, _⟩
      · obtain ⟨l2, hl2, he2⟩ := ih l1 hs1 (by omega)
        refine ⟨l2, ?_, he.trans he2⟩
        rw [ota_loop, hb]
        exact hl2
      · exact ⟨l1, by simp [ota_loop, hb], he⟩
theorem ota_loop_body_first (env : OtaEnv) (cl : Int) (l : OtaLocals)
    (hs : l.is_req_body_started = false) (r : List Nat × Int)
    (hr : httpd_req_recv (env.recv l.reads) l.ota_buff (MIN_content_length_sizeof cl) = r) :
    (r.2 = HTTPD_SOCK_ERR_TIMEOUT →
      ota_loop_body env cl l
        = OtaStep.exit { l with ota_buff := r.1, recv_len := r.2, reads := l.reads + 1 }) ∧
    (r.2 ≠ HTTPD_SOCK_ERR_TIMEOUT → strstr r.1 CRLFCRLF = none →
      ota_loop_body env cl l
        = OtaStep.undefined { l with
            ota_buff := r.1, recv_len := r.2, reads := l.reads + 1,
            is_req_body_started := true }) ∧
    (r.2 ≠ HTTPD_SOCK_ERR_TIMEOUT → ∀ k, strstr r.1 CRLFCRLF = some k →
      env.esp_ota_begin_ret ≠ ESP_OK →
      ota_loop_body env cl l
        = OtaStep.begin_failed { l with
            ota_buff := r.1, recv_len := r.2, reads := l.reads + 1,
            is_req_body_started := true,
            flash := { l.flash with calls := l.flash.calls ++ [ota_call.esp_ota_begin] } }) ∧
    (r.2 ≠ HTTPD_SOCK_ERR_TIMEOUT → ∀ k, strstr r.1 CRLFCRLF = some k →
      env.esp_ota_begin_ret = ESP_OK →
      ota_loop_body env cl l
        = ota_loop_cond cl { l with
            ota_buff := r.1, recv_len := r.2, reads := l.reads + 1,
            is_req_body_started := true,
            flash := esp_ota_write r.1 (k + 4) (r.2 - ((k + 4 : Nat) : Int))
              { l.flash with
                calls := l.flash.calls ++ [ota_call.esp_ota_begin], written := [] },
            content_received := l.content_received + (r.2 - ((k + 4 : Nat) : Int)) }) := by
  obtain ⟨buf, cr, rl, st, reads, flash⟩ := l
  simp only at hs
  subst hs
  simp only at hr
  unfold ota_loop_body
  dsimp only
  rw [hr]
  refine ⟨?_, ?_, ?_, ?_⟩
  · intro ht
    have h1 : r.2 < 0 ∧ r.2 = HTTPD_SOCK_ERR_TIMEOUT := ⟨by rw [ht]; decide, ht⟩
    rw [if_pos h1, ota_loop_cond_exit _ _ (by dsimp only; omega)]
  · intro ht hn
    have h1 : ¬ (r.2 < 0 ∧ r.2 = HTTPD_SOCK_ERR_TIMEOUT) := fun h => ht h.2
    rw [if_neg h1]
    simp [hn]
  · intro ht k hk hb
    have h1 : ¬ (r.2 < 0 ∧ r.2 = HTTPD_SOCK_ERR_TIMEOUT) := fun h => ht h.2
    rw [if_neg h1]
    simp [hk, hb]
  · intro ht k hk hb
    have h1 : ¬ (r.2 < 0 ∧ r.2 = HTTPD_SOCK_ERR_TIMEOUT) := fun h => ht h.2
    rw [if_neg h1]
    simp [hk, hb]

theorem ota_fuel_eq (cl : Int) : ota_fuel cl = (cl.toNat + 1025) + 1 := by
  simp [ota_fuel]

theorem first_read_eq (env : OtaEnv) (content_len : Nat) (flash : OtaFlash) :
    httpd_req_recv (env.recv (ota_locals_init env flash).reads)
      (ota_locals_init env flash).ota_buff
      (MIN_content_length_sizeof (int_of_size_t content_len)) = first_read env content_len :=
  rfl

theorem first_read_length (env : OtaEnv) (content_len : Nat) :
    (first_read env content_len).1.length = sizeof_ota_buff := by
  unfold first_read
  rw [httpd_req_recv_length]
  · simp
  · have := MIN_content_length_sizeof_le (int_of_size_t content_len)
    simpa using this

/-- The receive loop of the handler always ends, in one of four ways decided by
the first read. -/
theorem ota_loop_top (env : OtaEnv) (content_len : Nat) (flash : OtaFlash) :
    ((first_read env content_len).2 = HTTPD_SOCK_ERR_TIMEOUT →
      ∃ l1, ota_loop (ota_fuel (int_of_size_t content_len)) env (int_of_size_t content_len)
          (ota_locals_init env flash) = OtaStep.exit l1 ∧
        l1.flash = flash ∧ l1.reads = 1) ∧
    ((first_read env content_len).2 ≠ HTTPD_SOCK_ERR_TIMEOUT →
      strstr (first_read env content_len).1 CRLFCRLF = none →
      ∃ l1, ota_loop (ota_fuel (int_of_size_t content_len)) env (int_of_size_t content_len)
          (ota_locals_init env flash) = OtaStep.undefined l1 ∧
        l1.flash = flash ∧ l1.reads = 1) ∧
    ((first_read env content_len).2 ≠ HTTPD_SOCK_ERR_TIMEOUT →
      strstr (first_read env content_len).1 CRLFCRLF ≠ none →
      env.esp_ota_begin_ret ≠ ESP_OK →
      ∃ l1, ota_loop (ota_fuel (int_of_size_t content_len)) env (int_of_size_t content_len)
          (ota_locals_init env flash) = OtaStep.begin_failed l1 ∧
        OtaExtends (ota_locals_init env flash) l1) ∧
    ((first_read env content_len).2 ≠ HTTPD_SOCK_ERR_TIMEOUT →
      strstr (first_read env content_len).1 CRLFCRLF ≠ none →
      env.esp_ota_begin_ret = ESP_OK →
      ∃ l1, ota_loop (ota_fuel (int_of_size_t content_len)) env (int_of_size_t content_len)
          (ota_locals_init env flash) = OtaStep.exit l1 ∧
        OtaExtends (ota_locals_init env flash) l1) := by
  obtain ⟨hT, hU, hB, hE⟩ := ota_loop_body_first env (int_of_size_t content_len)
    (ota_locals_init env flash) rfl _ (first_read_eq env content_len flash)
  rw [ota_fuel_eq]
  refine ⟨?_, ?_, ?_, ?_⟩
  · intro ht
    rw [ota_loop, hT ht]
    exact ⟨_, rfl, rfl, rfl⟩
  · intro ht hn
    rw [ota_loop, hU ht hn]
    exact ⟨_, rfl, rfl, rfl⟩
  · intro ht hn hb
    obtain ⟨k, hk⟩ := Option.ne_none_iff_exists'.mp hn
    rw [ota_loop, hB ht k hk hb]
    exact ⟨_, rfl, ⟨rfl, [ota_call.esp_ota_begin], rfl, by simp [loop_call]⟩⟩
  · intro ht hn hb
    obtain ⟨k, hk⟩ := Option.ne_none_iff_exists'.mp hn
    have hklen := strstr_some_le CRLFCRLF _ _ hk
    rw [first_read_length] at hklen
    obtain ⟨c, hc, hlc⟩ := esp_ota_write_calls (first_read env content_len).1 (k + 4)
      ((first_read env content_len).2 - ((k + 4 : Nat) : Int))
      { (ota_locals_init env flash).flash with
        calls := (ota_locals_init env flash).flash.calls ++ [ota_call.esp_ota_begin],
        written := [] }
    have hboot := esp_ota_write_boot (first_read env content_len).1 (k + 4)
      ((first_read env content_len).2 - ((k + 4 : Nat) : Int))
      { (ota_locals_init env flash).flash with
        calls := (ota_locals_init env flash).flash.calls ++ [ota_call.esp_ota_begin],
        written := [] }
    have hext : OtaExtends (ota_locals_init env flash)
        { ota_locals_init env flash with
          ota_buff := (first_read env content_len).1, recv_len := (first_read env content_len).2,
          reads := (ota_locals_init env flash).reads + 1,
          is_req_body_started := true,
          flash := esp_ota_write (first_read env content_len).1 (k + 4)
            ((first_read env content_len).2 - ((k + 4 : Nat) : Int))
            { (ota_locals_init env flash).flash with
              calls := (ota_locals_init env flash).flash.calls ++ [ota_call.esp_ota_begin],
              written := [] },
          content_received := (ota_locals_init env flash).content_received +
            ((first_read env content_len).2 - ((k + 4 : Nat) : Int)) } := by
      refine ⟨hboot, [ota_call.esp_ota_begin, c], ?_, ?_⟩
      · rw [hc]; simp
      · intro x hx
        simp only [List.mem_cons, List.mem_singleton, List.not_mem_nil, or_false] at hx
        rcases hx with rfl | rfl
        · simp [loop_call]
        · exact hlc
    rw [ota_loop, hE ht k hk hb]
    unfold ota_loop_cond
    dsimp only
    split_ifs with hcond
    · dsimp only
      obtain ⟨l2, hl2, he2⟩ := ota_loop_started_exits env (int_of_size_t content_len)
        ((int_of_size_t content_len).toNat + 1024) _ (show
          ({ ota_locals_init env flash with
          ota_buff := (first_read env content_len).1, recv_len := (first_read env content_len).2,
          reads := (ota_locals_init env flash).reads + 1,
          is_req_body_started := true,
          flash := esp_ota_write (first_read env content_len).1 (k + 4)
            ((first_read env content_len).2 - ((k + 4 : Nat) : Int))
            { (ota_locals_init env flash).flash with
              calls := (ota_locals_init env flash).flash.calls ++ [ota_call.esp_ota_begin],
              written := [] },
          content_received := (ota_locals_init env flash).content_received +
            ((first_read env content_len).2 - ((k + 4 : Nat) : Int)) } :
              OtaLocals).is_req_body_started = true from rfl) (by
            have h1 := hcond.1
            simp only [ota_locals_init, CRLFCRLF, sizeof_ota_buff, List.length_cons,
              List.length_nil] at hklen h1 ⊢
            omega)
      exact ⟨l2, hl2, hext.trans he2⟩
    · exact ⟨_, rfl, hext⟩
theorem ota_finish_ret (env : OtaEnv) (l : OtaLocals) (http : HttpServer) :
    (ota_finish env l http).ret = some ESP_OK := by
  unfold ota_finish
  split_ifs <;> rfl

theorem ota_finish_http (env : OtaEnv) (l : OtaLocals) (http : HttpServer) :
    (ota_finish env l http).http = http_server_monitor_send_message (ota_outcome env) http := by
  unfold ota_finish ota_outcome
  split_ifs with h1 h2 h3 h4 <;> first | rfl | (exfalso; tauto)

theorem ota_finish_boot (env : OtaEnv) (l : OtaLocals) (http : HttpServer) :
    (ota_finish env l http).locals.flash.boot_partition
      = if env.esp_ota_end_ret = ESP_OK ∧ env.esp_ota_set_boot_partition_ret = ESP_OK
        then Slot.target else l.flash.boot_partition := by
  unfold ota_finish
  split_ifs with h1 h2 h3 h4 <;> first | rfl | (exfalso; tauto)

theorem ota_finish_calls (env : OtaEnv) (l : OtaLocals) (http : HttpServer) :
    (ota_finish env l http).locals.flash.calls
      = l.flash.calls ++ [ota_call.esp_ota_end] ++
        (if env.esp_ota_end_ret = ESP_OK then [ota_call.esp_ota_set_boot_partition] else []) := by
  unfold ota_finish
  split_ifs <;> simp

theorem ota_finish_written (env : OtaEnv) (l : OtaLocals) (http : HttpServer) :
    (ota_finish env l http).locals.flash.written = l.flash.written := by
  unfold ota_finish
  split_ifs <;> rfl

/-- The four ways a run of the handler can go, decided by its first read. -/
theorem handler_cases (env : OtaEnv) (content_len : Nat) (flash : OtaFlash)
    (http : HttpServer) :
    ((first_read env content_len).2 = HTTPD_SOCK_ERR_TIMEOUT →
      ∃ l1, http_server_OTA_update_handler env content_len flash http = ota_finish env l1 http ∧
        l1.flash = flash ∧ l1.reads = 1) ∧
    ((first_read env content_len).2 ≠ HTTPD_SOCK_ERR_TIMEOUT →
      strstr (first_read env content_len).1 CRLFCRLF = none →
      (http_server_OTA_update_handler env content_len flash http).ret = none ∧
      (http_server_OTA_update_handler env content_len flash http).http = http ∧
      (http_server_OTA_update_handler env content_len flash http).locals.flash = flash ∧
      (http_server_OTA_update_handler env content_len flash http).locals.reads = 1) ∧
    ((first_read env content_len).2 ≠ HTTPD_SOCK_ERR_TIMEOUT →
      strstr (first_read env content_len).1 CRLFCRLF ≠ none →
      env.esp_ota_begin_ret ≠ ESP_OK →
      (http_server_OTA_update_handler env content_len flash http).ret = some ESP_FAIL ∧
      (http_server_OTA_update_handler env content_len flash http).http = http ∧
      OtaExtends (ota_locals_init env flash)
        (http_server_OTA_update_handler env content_len flash http).locals) ∧
    ((first_read env content_len).2 ≠ HTTPD_SOCK_ERR_TIMEOUT →
      strstr (first_read env content_len).1 CRLFCRLF ≠ none →
      env.esp_ota_begin_ret = ESP_OK →
      ∃ l1, http_server_OTA_update_handler env content_len flash http = ota_finish env l1 http ∧
        OtaExtends (ota_locals_init env flash) l1) := by
  obtain ⟨hT, hU, hB, hE⟩ := ota_loop_top env content_len flash
  unfold http_server_OTA_update_handler
  refine ⟨?_, ?_, ?_, ?_⟩
  · intro ht
    obtain ⟨l1, h1, h2, h3⟩ := hT ht
    exact ⟨l1, by simp only [h1], h2, h3⟩
  · intro ht hn
    obtain ⟨l1, h1, h2, h3⟩ := hU ht hn
    simp only [h1]
    exact ⟨trivial, trivial, h2, h3⟩
  · intro ht hn hb
    obtain ⟨l1, h1, h2⟩ := hB ht hn hb
    simp only [h1]
    exact ⟨trivial, trivial, h2⟩
  · intro ht hn hb
    obtain ⟨l1, h1, h2⟩ := hE ht hn hb
    exact ⟨l1, by simp only [h1], h2⟩

theorem handler_ret (env : OtaEnv) (content_len : Nat) (flash : OtaFlash)
    (http : HttpServer) :
    (http_server_OTA_update_handler env content_len flash http).ret = ota_ret env content_len := by
  obtain ⟨hT, hU, hB, hE⟩ := handler_cases env content_len flash http
  unfold ota_ret
  split_ifs with h1 h2 h3
  · obtain ⟨l1, h, _⟩ := hT h1
    rw [h, ota_finish_ret]
  · exact (hU h1 h2).1
  · exact (hB h1 h2 h3).1
  · obtain ⟨l1, h, _⟩ := hE h1 h2 (not_not.mp h3)
    rw [h, ota_finish_ret]

/-- A run that returns `ESP_OK` went through `ota_finish` after loop calls only. -/
theorem handler_ok (env : OtaEnv) (content_len : Nat) (flash : OtaFlash)
    (http : HttpServer)
    (h : (http_server_OTA_update_handler env content_len flash http).ret = some ESP_OK) :
    ∃ l1, http_server_OTA_update_handler env content_len flash http = ota_finish env l1 http ∧
      OtaExtends (ota_locals_init env flash) l1 := by
  obtain ⟨hT, hU, hB, hE⟩ := handler_cases env content_len flash http
  by_cases h1 : (first_read env content_len).2 = HTTPD_SOCK_ERR_TIMEOUT
  · obtain ⟨l1, h2, h3, _⟩ := hT h1
    exact ⟨l1, h2, by rw [← h3]; exact ⟨rfl, [], by simp [ota_locals_init], by simp⟩⟩
  · by_cases h2 : strstr (first_read env content_len).1 CRLFCRLF = none
    · rw [(hU h1 h2).1] at h
      exact absurd h (by simp)
    · by_cases h3 : env.esp_ota_begin_ret = ESP_OK
      · exact hE h1 h2 h3
      · rw [(hB h1 h2 h3).1] at h
        exact absurd h (by decide)

/-- A run that does not return `ESP_OK` made loop calls only and sent nothing. -/
theorem handler_not_ok (env : OtaEnv) (content_len : Nat) (flash : OtaFlash)
    (http : HttpServer)
    (h : (http_server_OTA_update_handler env content_len flash http).ret ≠ some ESP_OK) :
    (http_server_OTA_update_handler env content_len flash http).http = http ∧
    OtaExtends (ota_locals_init env flash)
      (http_server_OTA_update_handler env content_len flash http).locals := by
  obtain ⟨hT, hU, hB, hE⟩ := handler_cases env content_len flash http
  by_cases h1 : (first_read env content_len).2 = HTTPD_SOCK_ERR_TIMEOUT
  · obtain ⟨l1, h2, _⟩ := hT h1
    rw [h2, ota_finish_ret] at h
    exact absurd rfl h
  · by_cases h2 : strstr (first_read env content_len).1 CRLFCRLF = none
    · obtain ⟨_, h4, h5, _⟩ := hU h1 h2
      refine ⟨h4, ?_, [], ?_, by simp⟩
      · rw [h5]; rfl
      · rw [h5]; simp [ota_locals_init]
    · by_cases h3 : env.esp_ota_begin_ret = ESP_OK
      · obtain ⟨l1, h4, _⟩ := hE h1 h2 h3
        rw [h4, ota_finish_ret] at h
        exact absurd rfl h
      · exact (hB h1 h2 h3).2
/-- C7 (what the code does on a read time-out): when a read returns the
socket-time-out code, the `continue` reaches the loop condition, which fails
because `recv_len` is negative, so the pass ends the loop, whatever the fuel: no
further read is made.  When this is the first read of a request, the handler
goes straight on to finalize and report an outcome after that single read. -/
theorem C7_timeout_leaves_loop (env : OtaEnv) (cl : Int) (l : OtaLocals)
    (h : env.recv l.reads = Recv.error HTTPD_SOCK_ERR_TIMEOUT) :
    ota_loop_body env cl l
      = OtaStep.exit { l with recv_len := HTTPD_SOCK_ERR_TIMEOUT, reads := l.reads + 1 } ∧
    (∀ fuel, ota_loop (fuel + 1) env cl l
      = OtaStep.exit { l with recv_len := HTTPD_SOCK_ERR_TIMEOUT, reads := l.reads + 1 }) ∧
    (∀ content_len flash http, l = ota_locals_init env flash →
      cl = int_of_size_t content_len →
      http_server_OTA_update_handler env content_len flash http
        = ota_finish env { l with recv_len := HTTPD_SOCK_ERR_TIMEOUT, reads := l.reads + 1 }
            http) := by
  have hbody : ota_loop_body env cl l
      = OtaStep.exit { l with recv_len := HTTPD_SOCK_ERR_TIMEOUT, reads := l.reads + 1 } := by
    unfold ota_loop_body
    simp only [h, httpd_req_recv]
    have hneg : (HTTPD_SOCK_ERR_TIMEOUT : Int) < 0 := by decide
    simp only [hneg, and_self, if_true]
    exact ota_loop_cond_exit _ _ (by dsimp only; omega)
  refine ⟨hbody, fun fuel => by rw [ota_loop, hbody], ?_⟩
  intro content_len flash http hl hcl
  subst hcl
  unfold http_server_OTA_update_handler
  simp only [ota_fuel_eq, ota_loop, ← hl, hbody]

/-- C7 at the failing input: the first read times out, the body would arrive on
the next read; the handler has read once, called finalize and reported Failed. -/
theorem C7_timeout_leaves_loop_witness :
    env_timeout_first.recv (ota_locals_init env_timeout_first OtaFlash.idle).reads
      = Recv.error HTTPD_SOCK_ERR_TIMEOUT ∧
    (http_server_OTA_update_handler env_timeout_first 7 OtaFlash.idle http_ready).locals.reads
      = 1 ∧
    (http_server_OTA_update_handler env_timeout_first 7 OtaFlash.idle
      http_ready).locals.flash.calls = [ota_call.esp_ota_end] ∧
    (http_server_OTA_update_handler env_timeout_first 7 OtaFlash.idle
      http_ready).http.monitor_received = [HTTP_MSG_OTA_UPDATE_FAILED] := by
  have h := (C7_timeout_leaves_loop env_timeout_first (int_of_size_t 7)
    (ota_locals_init env_timeout_first OtaFlash.idle) rfl).2.2 7 OtaFlash.idle http_ready rfl rfl
  rw [h]
  decide

/-- C8 (what the code does without a header terminator): when the first read is
not a time-out and `strstr` finds no CR LF CR LF in the buffer, the handler
does not abort with an error: it goes on with `NULL + 4`, which the model marks
as an undefined result; no outcome message has been sent, and no OTA call has
been made by then. -/
theorem C8_missing_header_undefined (env : OtaEnv) (content_len : Nat) (flash : OtaFlash)
    (http : HttpServer)
    (hnt : (first_read env content_len).2 ≠ HTTPD_SOCK_ERR_TIMEOUT)
    (hnone : strstr (first_read env content_len).1 CRLFCRLF = none) :
    (http_server_OTA_update_handler env content_len flash http).ret = none ∧
    (http_server_OTA_update_handler env content_len flash http).http = http ∧
    (http_server_OTA_update_handler env content_len flash http).locals.flash = flash ∧
    (http_server_OTA_update_handler env content_len flash http).locals.reads = 1 :=
  (handler_cases env content_len flash http).2.1 hnt hnone

/-- C8 at the failing input: a 5-byte request "hello". -/
theorem C8_missing_header_undefined_witness :
    (first_read env_no_header 5).2 ≠ HTTPD_SOCK_ERR_TIMEOUT ∧
    strstr (first_read env_no_header 5).1 CRLFCRLF = none ∧
    (http_server_OTA_update_handler env_no_header 5 OtaFlash.idle http_ready).ret = none ∧
    (http_server_OTA_update_handler env_no_header 5 OtaFlash.idle http_ready).http.monitor_received
      = [] := by
  have h := C8_missing_header_undefined env_no_header 5 OtaFlash.idle http_ready
    (by decide) (by decide)
  refine ⟨by decide, by decide, h.1, ?_⟩
  rw [h.2.1]
  rfl

/-- C9: in every run of the handler, set-boot is called only directly after a
finalize that succeeded, and only in a run that reached finalize; the boot slot
becomes the target slot exactly when the run reached finalize and both finalize
and set-boot succeeded, and is the previous one otherwise; a run that reached
finalize reports Failed when finalize fails (set-boot is then not called) and
when finalize succeeds but set-boot fails. -/
theorem C9_set_boot_only_after_finalize (env : OtaEnv) (content_len : Nat)
    (flash : OtaFlash) (http : HttpServer) :
    ((http_server_OTA_update_handler env content_len flash http).ret = some ESP_OK →
      (∃ during : List ota_call,
        (http_server_OTA_update_handler env content_len flash http).locals.flash.calls
          = flash.calls ++ during ++ [ota_call.esp_ota_end] ++
            (if env.esp_ota_end_ret = ESP_OK then [ota_call.esp_ota_set_boot_partition]
             else []) ∧
        ∀ c ∈ during, loop_call c) ∧
      (http_server_OTA_update_handler env content_len flash http).http
        = http_server_monitor_send_message (ota_outcome env) http) ∧
    ((http_server_OTA_update_handler env content_len flash http).ret ≠ some ESP_OK →
      ∃ during : List ota_call,
        (http_server_OTA_update_handler env content_len flash http).locals.flash.calls
          = flash.calls ++ during ∧
        ∀ c ∈ during, loop_call c) ∧
    (http_server_OTA_update_handler env content_len flash http).locals.flash.boot_partition
      = (if (http_server_OTA_update_handler env content_len flash http).ret = some ESP_OK ∧
            env.esp_ota_end_ret = ESP_OK ∧ env.esp_ota_set_boot_partition_ret = ESP_OK
         then Slot.target else flash.boot_partition) ∧
    (env.esp_ota_end_ret ≠ ESP_OK → ota_outcome env = HTTP_MSG_OTA_UPDATE_FAILED) ∧
    (env.esp_ota_set_boot_partition_ret ≠ ESP_OK →
      ota_outcome env = HTTP_MSG_OTA_UPDATE_FAILED) := by
  refine ⟨?_, ?_, ?_, ?_, ?_⟩
  · intro hok
    obtain ⟨l1, h1, hb, during, hc, hd⟩ := handler_ok env content_len flash http hok
    rw [h1, ota_finish_calls, ota_finish_http, hc]
    exact ⟨⟨during, by simp [ota_locals_init], hd⟩, rfl⟩
  · intro hno
    obtain ⟨_, _, during, hc, hd⟩ := handler_not_ok env content_len flash http hno
    exact ⟨during, by simpa [ota_locals_init] using hc, hd⟩
  · by_cases hok : (http_server_OTA_update_handler env content_len flash http).ret = some ESP_OK
    · obtain ⟨l1, h1, hb, _⟩ := handler_ok env content_len flash http hok
      simp only [hok, true_and]
      rw [h1, ota_finish_boot, hb]
      rfl
    · obtain ⟨_, hb, _⟩ := handler_not_ok env content_len flash http hok
      simp only [hok, false_and, if_false]
      rw [hb]
      rfl
  · intro h
    simp [ota_outcome, h]
  · intro h
    simp [ota_outcome, h]

/-- C9 at a concrete run: finalize fails, so set-boot is not called, the boot slot
stays the previous one and the outcome is Failed. -/
theorem C9_set_boot_only_after_finalize_witness :
    (http_server_OTA_update_handler env_end_fails 7 OtaFlash.idle http_ready).locals.flash.boot_partition
      = Slot.previous ∧
    ota_outcome env_end_fails = HTTP_MSG_OTA_UPDATE_FAILED := by
  have h := C9_set_boot_only_after_finalize env_end_fails 7 OtaFlash.idle http_ready
  refine ⟨?_, h.2.2.2.1 (by decide)⟩
  rw [h.2.2.1]
  decide

/-- C10 refuted as stated: a well-framed request for which `esp_ota_begin` fails
makes the handler return `ESP_FAIL` without any outcome message. -/
theorem C10_counterexample :
    http_ready.http_server_monitor_queue_handle = true ∧
    (http_server_OTA_update_handler env_begin_fails 7 OtaFlash.idle http_ready).ret
      = some ESP_FAIL ∧
    (http_server_OTA_update_handler env_begin_fails 7 OtaFlash.idle
      http_ready).http.monitor_received = [] ∧
    (http_server_OTA_update_handler env_begin_fails 7 OtaFlash.idle
      http_ready).http.g_fw_update_status = OTA_UPDATE_PENDING := by
  decide

/-- C10 as amended: every run of the handler in which the first read times out
or the header terminator is found returns.  If the first read timed out or
`esp_ota_begin` succeeded, it returns `ESP_OK` having sent exactly one outcome
message (Successful or Failed) to the monitor; if `esp_ota_begin` failed, it
returns `ESP_FAIL` and has sent no outcome message. -/
theorem C10_one_outcome_unless_begin_fails (env : OtaEnv) (content_len : Nat)
    (flash : OtaFlash) (http : HttpServer)
    (hmon : http.http_server_monitor_queue_handle = true)
    (hfound : (first_read env content_len).2 = HTTPD_SOCK_ERR_TIMEOUT ∨
      strstr (first_read env content_len).1 CRLFCRLF ≠ none) :
    ((first_read env content_len).2 = HTTPD_SOCK_ERR_TIMEOUT ∨ env.esp_ota_begin_ret = ESP_OK →
      (http_server_OTA_update_handler env content_len flash http).ret = some ESP_OK ∧
      (http_server_OTA_update_handler env content_len flash http).http.monitor_received
        = http.monitor_received ++ [ota_outcome env] ∧
      (ota_outcome env = HTTP_MSG_OTA_UPDATE_SUCCESSFUL ∨
        ota_outcome env = HTTP_MSG_OTA_UPDATE_FAILED)) ∧
    ((first_read env content_len).2 ≠ HTTPD_SOCK_ERR_TIMEOUT →
      env.esp_ota_begin_ret ≠ ESP_OK →
      (http_server_OTA_update_handler env content_len flash http).ret = some ESP_FAIL ∧
      (http_server_OTA_update_handler env content_len flash http).http = http) := by
  have hret := handler_ret env content_len flash http
  constructor
  · intro hcase
    have hok : (http_server_OTA_update_handler env content_len flash http).ret = some ESP_OK := by
      rw [hret]
      unfold ota_ret
      split_ifs with h1 h2 h3
      · rfl
      · rcases hfound with h | h
        · exact absurd h h1
        · exact absurd h2 h
      · rcases hcase with h | h
        · exact absurd h h1
        · exact absurd h h3
      · rfl
    obtain ⟨l1, h1, _⟩ := handler_ok env content_len flash http hok
    refine ⟨hok, ?_, ?_⟩
    · rw [h1, ota_finish_http]
      unfold http_server_monitor_send_message
      rw [if_pos hmon]
      unfold ota_outcome
      split_ifs <;> simp [http_server_monitor, http_server_fw_update_reset_timer]
    · unfold ota_outcome
      split_ifs <;> simp
  · intro hnt hbf
    have hfail : (http_server_OTA_update_handler env content_len flash http).ret
        = some ESP_FAIL := by
      rw [hret]
      unfold ota_ret
      rw [if_neg hnt]
      rcases hfound with h | h
      · exact absurd h hnt
      · rw [if_neg h, if_pos hbf]
    exact ⟨hfail, (handler_not_ok env content_len flash http (by rw [hfail]; decide)).1⟩

/-- C10 amended, at a concrete run: scenario D reports exactly one outcome. -/
theorem C10_one_outcome_unless_begin_fails_witness :
    http_ready.http_server_monitor_queue_handle = true ∧
    strstr (first_read env_scenario_D 2048).1 CRLFCRLF ≠ none ∧
    (http_server_OTA_update_handler env_scenario_D 2048 OtaFlash.idle http_ready).ret
      = some ESP_OK ∧
    (http_server_OTA_update_handler env_scenario_D 2048 OtaFlash.idle
      http_ready).http.monitor_received = [] ++ [ota_outcome env_scenario_D] :=
  ⟨rfl, by simp [first_read, env_scenario_D, recv_chunks, httpd_req_recv, strstr, starts_with],
    ((C10_one_outcome_unless_begin_fails env_scenario_D 2048 OtaFlash.idle http_ready rfl
      (Or.inr (by
        simp [first_read, env_scenario_D, recv_chunks, httpd_req_recv, strstr, starts_with]))).1
      (Or.inr rfl)).1,
    ((C10_one_outcome_unless_begin_fails env_scenario_D 2048 OtaFlash.idle http_ready rfl
      (Or.inr (by
        simp [first_read, env_scenario_D, recv_chunks, httpd_req_recv, strstr, starts_with]))).1
      (Or.inr rfl)).2.1⟩
theorem esp_ota_write_valid (buf : List Nat) (off : Nat) (size : Int) (f : OtaFlash)
    (h0 : 0 ≤ size) (h1 : off + size.toNat ≤ buf.length) :
    (esp_ota_write buf off size f).written = f.written ++ (buf.drop off).take size.toNat := by
  unfold esp_ota_write
  rw [if_pos ⟨h0, h1⟩]

theorem ota_loop_body_chunk (env : OtaEnv) (cl : Int) (l : OtaLocals) (c : List Nat)
    (hs : l.is_req_body_started = true) (hr : env.recv l.reads = Recv.data c)
    (hne : c ≠ []) (hlen : c.length ≤ MIN_content_length_sizeof cl)
    (hlt : l.content_received + (c.length : Int) < cl) :
    ∃ l1, ota_loop_body env cl l = OtaStep.next l1 ∧ l1.is_req_body_started = true ∧
      l1.content_received = l.content_received + (c.length : Int) ∧
      l1.reads = l.reads + 1 ∧ l1.flash.written = l.flash.written ++ c ∧
      l1.flash.boot_partition = l.flash.boot_partition := by
  obtain ⟨buf, cr, rl, st, reads, flash⟩ := l
  simp only at hs hr hlt
  subst hs
  have hpos : 0 < c.length := List.length_pos.mpr hne
  unfold ota_loop_body
  simp only [hr, httpd_req_recv, List.take_of_length_le hlen]
  have h1 : ¬ ((c.length : Int) < 0 ∧ (c.length : Int) = HTTPD_SOCK_ERR_TIMEOUT) := by
    intro h; omega
  rw [if_neg h1]
  simp only [Bool.not_true, Bool.false_eq_true, if_false]
  unfold ota_loop_cond
  dsimp only
  rw [if_pos ⟨by omega, hlt⟩]
  refine ⟨_, rfl, rfl, rfl, rfl, ?_, esp_ota_write_boot _ _ _ _⟩
  dsimp only
  rw [esp_ota_write_valid _ _ _ _ (by omega) (by simp)]
  simp

theorem ota_loop_body_closed (env : OtaEnv) (cl : Int) (l : OtaLocals) (last : Recv)
    (hs : l.is_req_body_started = true) (hr : env.recv l.reads = last) (hc : closed last) :
    ∃ l1, ota_loop_body env cl l = OtaStep.exit l1 ∧
      l1.flash.written = l.flash.written ∧
      l1.flash.boot_partition = l.flash.boot_partition ∧ l1.reads = l.reads + 1 := by
  obtain ⟨buf, cr, rl, st, reads, flash⟩ := l
  simp only at hs hr
  subst hs
  unfold ota_loop_body
  rcases hc with h | ⟨code, hneg, h⟩
  · subst h
    simp only [hr, httpd_req_recv, List.take_nil, List.length_nil, List.nil_append,
      List.drop_zero, Nat.cast_zero]
    have h1 : ¬ ((0 : Int) < 0 ∧ (0 : Int) = HTTPD_SOCK_ERR_TIMEOUT) := by decide
    rw [if_neg h1]
    simp only [Bool.not_true, Bool.false_eq_true, if_false]
    rw [ota_loop_cond_exit _ _ (by dsimp only; omega)]
    refine ⟨_, rfl, ?_, esp_ota_write_boot _ _ _ _, rfl⟩
    dsimp only
    rw [esp_ota_write_valid _ _ _ _ (le_refl _) (by simp)]
    simp
  · subst h
    simp only [hr, httpd_req_recv]
    by_cases ht : code < 0 ∧ code = HTTPD_SOCK_ERR_TIMEOUT
    · rw [if_pos ht, ota_loop_cond_exit _ _ (by dsimp only; omega)]
      exact ⟨_, rfl, rfl, rfl, rfl⟩
    · rw [if_neg ht]
      simp only [Bool.not_true, Bool.false_eq_true, if_false]
      rw [ota_loop_cond_exit _ _ (by dsimp only; omega)]
      refine ⟨_, rfl, ?_, esp_ota_write_boot _ _ _ _, rfl⟩
      dsimp only
      unfold esp_ota_write
      rw [if_neg (by intro h; omega)]

theorem ota_loop_body_header (env : OtaEnv) (cl : Int) (l : OtaLocals) (c0 : List Nat)
    (k : Nat) (hs : l.is_req_body_started = false) (hr : env.recv l.reads = Recv.data c0)
    (hlen : c0.length ≤ MIN_content_length_sizeof cl)
    (hk : strstr c0 CRLFCRLF = some k) (hb : env.esp_ota_begin_ret = ESP_OK)
    (hlt : l.content_received + ((c0.length : Int) - ((k + 4 : Nat) : Int)) < cl) :
    ∃ l1, ota_loop_body env cl l = OtaStep.next l1 ∧ l1.is_req_body_started = true ∧
      l1.content_received = l.content_received + ((c0.length : Int) - ((k + 4 : Nat) : Int)) ∧
      l1.reads = l.reads + 1 ∧ l1.flash.written = c0.drop (k + 4) ∧
      l1.flash.boot_partition = l.flash.boot_partition := by
  have hkl := strstr_some_le CRLFCRLF _ _ hk
  simp only [CRLFCRLF, List.length_cons, List.length_nil] at hkl
  have hrr : httpd_req_recv (env.recv l.reads) l.ota_buff (MIN_content_length_sizeof cl)
      = (c0 ++ l.ota_buff.drop c0.length, (c0.length : Int)) := by
    simp only [hr, httpd_req_recv, List.take_of_length_le hlen]
  obtain ⟨_, _, _, hE⟩ := ota_loop_body_first env cl l hs _ hrr
  have hnt : ((c0 ++ l.ota_buff.drop c0.length, (c0.length : Int)) : List Nat × Int).2
      ≠ HTTPD_SOCK_ERR_TIMEOUT := by
    show (c0.length : Int) ≠ -3
    omega
  rw [hE hnt k (strstr_append CRLFCRLF _ _ _ hk) hb]
  unfold ota_loop_cond
  dsimp only
  rw [if_pos ⟨by omega, hlt⟩]
  refine ⟨_, rfl, rfl, rfl, rfl, ?_, esp_ota_write_boot _ _ _ _⟩
  dsimp only
  rw [esp_ota_write_valid _ _ _ _ (by omega) (by
    simp only [List.length_append, List.length_drop]
    omega)]
  dsimp only
  have h2 : ((c0.length : Int) - ((k + 4 : Nat) : Int)).toNat = c0.length - (k + 4) := by
    omega
  rw [h2, List.nil_append, List.drop_append_of_le_length (by omega),
    List.take_append_of_le_length (by simp)]
  rw [List.take_of_length_le (by simp)]

theorem length_le_total_length (cs : List (List Nat)) (c : List Nat) (h : c ∈ cs) :
    c.length ≤ total_length cs := by
  induction cs with
  | nil => simp at h
  | cons x xs ih =>
      simp only [total_length, List.map_cons, List.sum_cons] at ih ⊢
      rcases List.mem_cons.mp h with rfl | h1
      · omega
      · have := ih h1
        omega

theorem length_le_total_length_of_ne_nil (cs : List (List Nat)) (h : ∀ c ∈ cs, c ≠ []) :
    cs.length ≤ total_length cs := by
  induction cs with
  | nil => simp [total_length]
  | cons x xs ih =>
      have hx : 0 < x.length := List.length_pos.mpr (h x (List.mem_cons_self _ _))
      have := ih (fun c hc => h c (List.mem_cons_of_mem _ hc))
      simp only [total_length, List.map_cons, List.sum_cons, List.length_cons] at this ⊢
      omega

theorem ota_loop_chunks (env : OtaEnv) (cl : Int) :
    ∀ (cs : List (List Nat)) (l : OtaLocals) (fuel : Nat),
      l.is_req_body_started = true →
      (∀ j c, cs.get? j = some c → env.recv (l.reads + j) = Recv.data c) →
      (∀ c ∈ cs, c ≠ [] ∧ c.length ≤ MIN_content_length_sizeof cl) →
      l.content_received + (total_length cs : Int) < cl →
      ∃ l1, ota_loop (cs.length + fuel) env cl l = ota_loop fuel env cl l1 ∧
        l1.is_req_body_started = true ∧
        l1.reads = l.reads + cs.length ∧
        l1.flash.written = l.flash.written ++ cs.flatten ∧
        l1.flash.boot_partition = l.flash.boot_partition := by
  intro cs
  induction cs with
  | nil =>
      intro l fuel hs _ _ _
      exact ⟨l, by simp, hs, by simp, by simp, rfl⟩
  | cons c rest ih =>
      intro l fuel hs hrecv hcs hlt
      have hc := hcs c (List.mem_cons_self _ _)
      simp only [total_length, List.map_cons, List.sum_cons, Nat.cast_add] at hlt
      have hsum : (0 : Int) ≤ ((List.map List.length rest).sum : Int) := by positivity
      obtain ⟨l1, hb, hs1, hcr1, hrd1, hw1, hbt1⟩ := ota_loop_body_chunk env cl l c hs
        (by simpa using hrecv 0 c rfl) hc.1 hc.2 (by omega)
      obtain ⟨l2, hl2, hs2, hrd2, hw2, hbt2⟩ := ih l1 fuel hs1
        (fun j x hj => by
          have := hrecv (j + 1) x (by simpa using hj)
          rw [hrd1]
          rw [← this]
          congr 1
          omega)
        (fun x hx => hcs x (List.mem_cons_of_mem _ hx))
        (by
          rw [hcr1]
          simp only [total_length]
          omega)
      refine ⟨l2, ?_, hs2, ?_, ?_, hbt2.trans hbt1⟩
      · have : (c :: rest).length + fuel = (rest.length + fuel) + 1 := by
          simp only [List.length_cons]; omega
        rw [this, ota_loop, hb]
        exact hl2
      · rw [hrd2, hrd1]
        simp only [List.length_cons]
        omega
      · rw [hw2, hw1]
        simp
theorem int_of_size_t_small (n : Nat) (h : n < 2 ^ 31) : int_of_size_t n = (n : Int) := by
  unfold int_of_size_t
  have h1 : n % 2 ^ 32 = n := Nat.mod_eq_of_lt (by omega)
  rw [h1, if_pos h]

theorem le_MIN_content_length_sizeof (n m : Nat) (h1 : m ≤ n) (h2 : m ≤ sizeof_ota_buff) :
    m ≤ MIN_content_length_sizeof (n : Int) := by
  unfold MIN_content_length_sizeof
  split_ifs with h
  · simpa using h1
  · exact h2

/-- A transfer that delivers a framed first chunk and further non-empty chunks
within the declared length, and then reports that the peer has closed, reaches
finalize with exactly the bytes after the header handed to `esp_ota_write`. -/
theorem handler_chunks (env : OtaEnv) (content_len : Nat) (flash : OtaFlash)
    (http : HttpServer) (c0 : List Nat) (cs : List (List Nat)) (k : Nat) (last : Recv)
    (hD : content_len < 2 ^ 31)
    (hrecv : env.recv = recv_chunks (c0 :: cs) last)
    (hlast : closed last)
    (hk : strstr c0 CRLFCRLF = some k)
    (hne : ∀ c ∈ cs, c ≠ [])
    (hlen : ∀ c ∈ c0 :: cs, c.length ≤ sizeof_ota_buff)
    (hsum : c0.length + total_length cs ≤ content_len)
    (hb : env.esp_ota_begin_ret = ESP_OK) :
    ∃ l1, http_server_OTA_update_handler env content_len flash http = ota_finish env l1 http ∧
      l1.flash.written = c0.drop (k + 4) ++ cs.flatten ∧
      l1.flash.boot_partition = flash.boot_partition ∧
      l1.reads = cs.length + 2 := by
  have hcl := int_of_size_t_small content_len hD
  have hkl := strstr_some_le CRLFCRLF _ _ hk
  simp only [CRLFCRLF, List.length_cons, List.length_nil] at hkl
  have hcsl := length_le_total_length_of_ne_nil cs hne
  obtain ⟨l1, hb1, hs1, hcr1, hrd1, hw1, hbt1⟩ := ota_loop_body_header env (content_len : Int)
    (ota_locals_init env flash) c0 k rfl (by rw [hrecv]; rfl)
    (le_MIN_content_length_sizeof _ _ (by omega) (hlen c0 (List.mem_cons_self _ _))) hk hb
    (by simp only [ota_locals_init]; omega)
  simp only [ota_locals_init] at hcr1 hrd1 hbt1
  obtain ⟨l2, hl2, hs2, hrd2, hw2, hbt2⟩ := ota_loop_chunks env (content_len : Int) cs l1
    ((content_len + 1024 - cs.length) + 1) hs1
    (fun j c hj => by
      rw [hrecv, hrd1]
      simp only [recv_chunks]
      have : (c0 :: cs).get? (0 + 1 + j) = some c := by
        rw [show 0 + 1 + j = j + 1 by omega]
        simpa using hj
      rw [this])
    (fun c hc => ⟨hne c hc, le_MIN_content_length_sizeof _ _
      (by have := length_le_total_length cs c hc; omega)
      (hlen c (List.mem_cons_of_mem _ hc))⟩)
    (by rw [hcr1]; omega)
  obtain ⟨l3, hb3, hw3, hbt3, hrd3⟩ := ota_loop_body_closed env (content_len : Int) l2 last hs2
    (by
      rw [hrecv, hrd2, hrd1]
      simp only [recv_chunks]
      have : (c0 :: cs).get? (0 + 1 + cs.length) = none := by
        rw [List.get?_eq_none]
        simp only [List.length_cons]
        omega
      rw [this])
    hlast
  refine ⟨l3, ?_, ?_, ?_, ?_⟩
  · unfold http_server_OTA_update_handler
    simp only [hcl, ota_fuel_eq, Int.toNat_ofNat]
    have hf : content_len + 1025 = cs.length + ((content_len + 1024 - cs.length) + 1) := by
      omega
    rw [ota_loop, hb1]
    simp only
    rw [hf, hl2, ota_loop, hb3]
  · rw [hw3, hw2, hw1]
  · rw [hbt3, hbt2, hbt1]
  · rw [hrd3, hrd2, hrd1]
    omega

theorem scenario_D_ne : ∀ c ∈ [List.replicate 1024 7], c ≠ ([] : List Nat) := by
  intro c hc hnil
  rw [List.mem_singleton] at hc
  have := congrArg List.length (hc.symm.trans hnil)
  rw [List.length_replicate] at this
  exact absurd this (by decide)

theorem scenario_D_len :
    ∀ c ∈ (CRLFCRLF ++ List.replicate 1020 233) :: [List.replicate 1024 7],
      c.length ≤ sizeof_ota_buff := by
  intro c hc
  simp only [List.mem_cons, List.mem_singleton, List.not_mem_nil, or_false] at hc
  rcases hc with rfl | rfl <;>
  simp only [List.length_append, List.length_replicate, CRLFCRLF, List.length_cons,
    List.length_nil, sizeof_ota_buff] <;> decide

theorem scenario_D_sum :
    (CRLFCRLF ++ List.replicate 1020 233).length + total_length [List.replicate 1024 7]
      = 2048 := by
  simp only [total_length, List.map_cons, List.map_nil, List.sum_cons, List.sum_nil,
    List.length_append, List.length_replicate, CRLFCRLF, List.length_cons, List.length_nil]
  decide

/-- C5 refuted as stated: in scenario D (2048 declared bytes in two chunks of
1024, the first starting with the header terminator) the outcome is Successful
and the target slot is marked for the next boot, but 2044 bytes, not 2048, are
written to the slot. -/
theorem C5_counterexample :
    (http_server_OTA_update_handler env_scenario_D 2048 OtaFlash.idle
      http_ready).http.monitor_received = [HTTP_MSG_OTA_UPDATE_SUCCESSFUL] ∧
    (http_server_OTA_update_handler env_scenario_D 2048 OtaFlash.idle
      http_ready).locals.flash.boot_partition = Slot.target ∧
    (http_server_OTA_update_handler env_scenario_D 2048 OtaFlash.idle
      http_ready).locals.flash.written.length = 2044 ∧
    ¬ (http_server_OTA_update_handler env_scenario_D 2048 OtaFlash.idle
      http_ready).locals.flash.written.length = 2048 := by
  obtain ⟨l1, h, hw, _, _⟩ := handler_chunks env_scenario_D 2048 OtaFlash.idle http_ready
    (CRLFCRLF ++ List.replicate 1020 233) [List.replicate 1024 7] 0 (Recv.data [])
    (by norm_num) rfl (Or.inl rfl) rfl scenario_D_ne scenario_D_len
    (le_of_eq scenario_D_sum) rfl
  have hlen : (http_server_OTA_update_handler env_scenario_D 2048 OtaFlash.idle
      http_ready).locals.flash.written.length = 2044 := by
    rw [h, ota_finish_written, hw]
    simp only [List.length_append, List.length_drop, List.length_replicate, CRLFCRLF,
      List.length_cons, List.length_nil, List.length_flatten, List.map_cons, List.map_nil,
      List.sum_cons, List.sum_nil]
    decide
  refine ⟨?_, ?_, hlen, by rw [hlen]; decide⟩
  · rw [h, ota_finish_http]
    decide
  · rw [h, ota_finish_boot, if_pos ⟨rfl, rfl⟩]

/-- C5 as amended: for every declared length L below 2^31 and every transfer
that delivers the body in chunks of at most 1024 bytes within the declared
length (the first chunk holding the header terminator at offset k when read as
a C string, the later chunks non-empty) and then reports the end of the body,
with begin-write, finalize and set-boot succeeding: the handler returns ESP_OK,
the single outcome sent is Successful, the target slot is marked for the next
boot, and the bytes written to the slot are exactly the delivered bytes after
the k+4 header bytes; when the delivered bytes are the L declared ones, that is
L - (k+4) bytes. -/
theorem C5_full_transfer_writes_body (env : OtaEnv) (L : Nat) (flash : OtaFlash)
    (http : HttpServer) (c0 : List Nat) (cs : List (List Nat)) (k : Nat)
    (hL : L < 2 ^ 31)
    (hrecv : env.recv = recv_chunks (c0 :: cs) (Recv.data []))
    (hk : strstr c0 CRLFCRLF = some k)
    (hne : ∀ c ∈ cs, c ≠ [])
    (hlen : ∀ c ∈ c0 :: cs, c.length ≤ sizeof_ota_buff)
    (hsum : c0.length + total_length cs = L)
    (hb : env.esp_ota_begin_ret = ESP_OK)
    (he : env.esp_ota_end_ret = ESP_OK)
    (hsb : env.esp_ota_set_boot_partition_ret = ESP_OK)
    (hmon : http.http_server_monitor_queue_handle = true) :
    (http_server_OTA_update_handler env L flash http).ret = some ESP_OK ∧
    (http_server_OTA_update_handler env L flash http).http.monitor_received
      = http.monitor_received ++ [HTTP_MSG_OTA_UPDATE_SUCCESSFUL] ∧
    (http_server_OTA_update_handler env L flash http).http.g_fw_update_status
      = OTA_UPDATE_SUCCESSFUL ∧
    (http_server_OTA_update_handler env L flash http).locals.flash.boot_partition
      = Slot.target ∧
    (http_server_OTA_update_handler env L flash http).locals.flash.written
      = c0.drop (k + 4) ++ cs.flatten ∧
    (http_server_OTA_update_handler env L flash http).locals.flash.written.length + (k + 4)
      = L := by
  obtain ⟨l1, h, hw, _, _⟩ := handler_chunks env L flash http c0 cs k (Recv.data []) hL hrecv
    (Or.inl rfl) hk hne hlen (le_of_eq hsum) hb
  have hkl := strstr_some_le CRLFCRLF _ _ hk
  simp only [CRLFCRLF, List.length_cons, List.length_nil] at hkl
  have hout : ota_outcome env = HTTP_MSG_OTA_UPDATE_SUCCESSFUL := by
    simp [ota_outcome, he, hsb]
  rw [h, ota_finish_ret, ota_finish_http, ota_finish_boot, ota_finish_written, hw, hout,
    if_pos ⟨he, hsb⟩]
  refine ⟨rfl, ?_, ?_, rfl, rfl, ?_⟩
  · simp [http_server_monitor_send_message, hmon, http_server_monitor,
      http_server_fw_update_reset_timer]
  · simp [http_server_monitor_send_message, hmon, http_server_monitor,
      http_server_fw_update_reset_timer]
  · simp only [List.length_append, List.length_drop, List.length_flatten]
    simp only [total_length] at hsum
    omega

/-- C5 amended, at scenario D: the 2044 bytes after the 4 header bytes are written. -/
theorem C5_full_transfer_writes_body_witness :
    strstr (CRLFCRLF ++ List.replicate 1020 233) CRLFCRLF = some 0 ∧
    (http_server_OTA_update_handler env_scenario_D 2048 OtaFlash.idle http_ready).ret
      = some ESP_OK ∧
    (http_server_OTA_update_handler env_scenario_D 2048 OtaFlash.idle
      http_ready).locals.flash.boot_partition = Slot.target ∧
    (http_server_OTA_update_handler env_scenario_D 2048 OtaFlash.idle
      http_ready).locals.flash.written.length + (0 + 4) = 2048 :=
  ⟨rfl,
    (C5_full_transfer_writes_body env_scenario_D 2048 OtaFlash.idle http_ready
      (CRLFCRLF ++ List.replicate 1020 233) [List.replicate 1024 7] 0 (by norm_num) rfl rfl
      scenario_D_ne scenario_D_len scenario_D_sum rfl rfl rfl rfl).1,
    (C5_full_transfer_writes_body env_scenario_D 2048 OtaFlash.idle http_ready
      (CRLFCRLF ++ List.replicate 1020 233) [List.replicate 1024 7] 0 (by norm_num) rfl rfl
      scenario_D_ne scenario_D_len scenario_D_sum rfl rfl rfl rfl).2.2.2.1,
    (C5_full_transfer_writes_body env_scenario_D 2048 OtaFlash.idle http_ready
      (CRLFCRLF ++ List.replicate 1020 233) [List.replicate 1024 7] 0 (by norm_num) rfl rfl
      scenario_D_ne scenario_D_len scenario_D_sum rfl rfl rfl rfl).2.2.2.2.2⟩

/-- C6 refuted as stated: the request declares 12 bytes, the source closes after
11; finalize and set-boot succeed, so the outcome is Successful and the target
slot is marked for the next boot. -/
theorem C6_counterexample :
    (http_server_OTA_update_handler env_short 12 OtaFlash.idle http_ready).locals.reads = 2 ∧
    (http_server_OTA_update_handler env_short 12 OtaFlash.idle http_ready).locals.content_received
      = 7 ∧
    (http_server_OTA_update_handler env_short 12 OtaFlash.idle http_ready).http.monitor_received
      = [HTTP_MSG_OTA_UPDATE_SUCCESSFUL] ∧
    (http_server_OTA_update_handler env_short 12 OtaFlash.idle
      http_ready).locals.flash.boot_partition = Slot.target := by
  decide

/-- C6 as amended: when the request declares L+1 bytes (L+1 below 2^31) and the
source closes (a read returns 0 or a negative code) after delivering L bytes in
chunks of at most 1024 bytes, the first chunk holding the header terminator at
offset k and begin-write succeeding, the loop ends and finalize is still
attempted on the bytes written after the header.  The handler returns ESP_OK
and sends exactly one outcome: Successful, with the target slot marked for the
next boot, when finalize and set-boot both succeed; Failed, with the boot slot
unchanged, when either fails. -/
theorem C6_short_transfer_outcome (env : OtaEnv) (L : Nat) (flash : OtaFlash)
    (http : HttpServer) (c0 : List Nat) (cs : List (List Nat)) (k : Nat) (last : Recv)
    (hL : L + 1 < 2 ^ 31)
    (hrecv : env.recv = recv_chunks (c0 :: cs) last)
    (hlast : closed last)
    (hk : strstr c0 CRLFCRLF = some k)
    (hne : ∀ c ∈ cs, c ≠ [])
    (hlen : ∀ c ∈ c0 :: cs, c.length ≤ sizeof_ota_buff)
    (hsum : c0.length + total_length cs = L)
    (hb : env.esp_ota_begin_ret = ESP_OK)
    (hmon : http.http_server_monitor_queue_handle = true) :
    (http_server_OTA_update_handler env (L + 1) flash http).ret = some ESP_OK ∧
    (http_server_OTA_update_handler env (L + 1) flash http).locals.flash.written
      = c0.drop (k + 4) ++ cs.flatten ∧
    (http_server_OTA_update_handler env (L + 1) flash http).http.monitor_received
      = http.monitor_received ++ [ota_outcome env] ∧
    (env.esp_ota_end_ret = ESP_OK ∧ env.esp_ota_set_boot_partition_ret = ESP_OK →
      ota_outcome env = HTTP_MSG_OTA_UPDATE_SUCCESSFUL ∧
      (http_server_OTA_update_handler env (L + 1) flash http).locals.flash.boot_partition
        = Slot.target) ∧
    (¬ (env.esp_ota_end_ret = ESP_OK ∧ env.esp_ota_set_boot_partition_ret = ESP_OK) →
      ota_outcome env = HTTP_MSG_OTA_UPDATE_FAILED ∧
      (http_server_OTA_update_handler env (L + 1) flash http).locals.flash.boot_partition
        = flash.boot_partition) := by
  obtain ⟨l1, h, hw, hbt, _⟩ := handler_chunks env (L + 1) flash http c0 cs k last hL hrecv
    hlast hk hne hlen (by omega) hb
  rw [h, ota_finish_ret, ota_finish_http, ota_finish_boot, ota_finish_written, hw, hbt]
  refine ⟨rfl, rfl, ?_, ?_, ?_⟩
  · unfold http_server_monitor_send_message
    rw [if_pos hmon]
    unfold ota_outcome
    split_ifs <;> simp [http_server_monitor, http_server_fw_update_reset_timer]
  · intro hboth
    rw [if_pos hboth]
    exact ⟨by simp [ota_outcome, hboth], rfl⟩
  · intro hnot
    rw [if_neg hnot]
    exact ⟨by simp only [ota_outcome, if_neg hnot], rfl⟩

/-- C6 amended, at the 12-declared / 11-delivered request with finalize failing:
the outcome is Failed and the boot slot is unchanged. -/
theorem C6_short_transfer_outcome_witness :
    closed (Recv.data []) ∧
    strstr (CRLFCRLF ++ [233, 1, 2]) CRLFCRLF = some 0 ∧
    ota_outcome env_end_fails = HTTP_MSG_OTA_UPDATE_FAILED ∧
    (http_server_OTA_update_handler env_end_fails (7 + 1) OtaFlash.idle
      http_ready).locals.flash.boot_partition = Slot.previous :=
  ⟨Or.inl rfl, rfl,
    ((C6_short_transfer_outcome env_end_fails 7 OtaFlash.idle http_ready
      (CRLFCRLF ++ [233, 1, 2]) [] 0 (Recv.data []) (by norm_num) rfl (Or.inl rfl) rfl
      (by simp) (by simp [CRLFCRLF, sizeof_ota_buff]) rfl rfl rfl).2.2.2.2 (by decide)).1,
    ((C6_short_transfer_outcome env_end_fails 7 OtaFlash.idle http_ready
      (CRLFCRLF ++ [233, 1, 2]) [] 0 (Recv.data []) (by norm_num) rfl (Or.inl rfl) rfl
      (by simp) (by simp [CRLFCRLF, sizeof_ota_buff]) rfl rfl rfl).2.2.2.2 (by decide)).2⟩

/-! ## Theorems: status monitor and reconfiguration -/

/-- C11: applying a status message arms the restart timer, with a delay of
8,000,000 microseconds, exactly when the message is the Successful update
outcome; the Failed outcome sets the update status to Failed and, like every
other message, arms nothing. -/
theorem C11_restart_armed_iff_successful (msg : http_server_message_e) (h : HttpServer) :
    (http_server_monitor msg h).fw_update_reset
      = (if msg = HTTP_MSG_OTA_UPDATE_SUCCESSFUL then h.fw_update_reset ++ [8000000]
         else h.fw_update_reset) ∧
    (msg = HTTP_MSG_OTA_UPDATE_SUCCESSFUL →
      (http_server_monitor msg h).g_fw_update_status = OTA_UPDATE_SUCCESSFUL) ∧
    (msg = HTTP_MSG_OTA_UPDATE_FAILED →
      (http_server_monitor msg h).g_fw_update_status = OTA_UPDATE_FAILED ∧
      (http_server_monitor msg h).fw_update_reset = h.fw_update_reset) ∧
    (http_server_monitor_send_message msg h).fw_update_reset
      = (if msg = HTTP_MSG_OTA_UPDATE_SUCCESSFUL ∧ h.http_server_monitor_queue_handle = true
         then h.fw_update_reset ++ [8000000] else h.fw_update_reset) := by
  cases msg <;> cases hq : h.http_server_monitor_queue_handle <;>
  simp [http_server_monitor, http_server_fw_update_reset_timer,
    http_server_monitor_send_message, hq]

/-- C11 at the two update outcomes, from the initial status. -/
theorem C11_restart_armed_iff_successful_witness :
    (http_server_monitor HTTP_MSG_OTA_UPDATE_SUCCESSFUL HttpServer.static_init).fw_update_reset
      = HttpServer.static_init.fw_update_reset ++ [8000000] ∧
    (http_server_monitor HTTP_MSG_OTA_UPDATE_FAILED HttpServer.static_init).fw_update_reset
      = HttpServer.static_init.fw_update_reset :=
  ⟨(C11_restart_armed_iff_successful HTTP_MSG_OTA_UPDATE_SUCCESSFUL HttpServer.static_init).1,
    ((C11_restart_armed_iff_successful HTTP_MSG_OTA_UPDATE_FAILED
      HttpServer.static_init).2.2.1 rfl).2⟩

theorem app_nvs_save_eth_config_ok (nv : NvsEnv) (c : eth_ip_config_t) (store : NvsEth)
    (h : nv.save_ok) : app_nvs_save_eth_config nv c store = (NvsEth.of_config c, ESP_OK) := by
  obtain ⟨h1, h2, h3⟩ := h
  have h10 : nv.open_ret = 0 := h1
  have h30 : nv.commit_ret = 0 := h3
  have h20 : ∀ key, nv.set_ret key = 0 := h2
  simp [app_nvs_save_eth_config, h10, h20, h30, NvsEth.of_config]

theorem app_nvs_save_eth_config_idem (nv : NvsEnv) (c : eth_ip_config_t) (store : NvsEth) :
    (app_nvs_save_eth_config nv c (app_nvs_save_eth_config nv c store).1).1
      = (app_nvs_save_eth_config nv c store).1 := by
  unfold app_nvs_save_eth_config
  by_cases h0 : nv.open_ret = 0
  · by_cases h1 : nv.set_ret "ip" = 0
    · by_cases h2 : nv.set_ret "gateway" = 0
      · by_cases h3 : nv.set_ret "netmask" = 0
        · by_cases h4 : nv.set_ret "dns" = 0
          · by_cases h5 : nv.set_ret "dhcp" = 0
            · by_cases h6 : nv.commit_ret = 0 <;> simp [h0, h1, h2, h3, h4, h5, h6]
            · simp [h0, h1, h2, h3, h4, h5]
          · simp [h0, h1, h2, h3, h4]
        · simp [h0, h1, h2, h3]
      · simp [h0, h1, h2]
    · simp [h0, h1]
  · simp [h0]

/-- The task's processing of a reconfiguration message, field by field. -/
theorem update_step_fields (env : Env) (s : State) (c : eth_ip_config_t) :
    (ethernet_app_task_step env (update_msg c) s).s_eth_ip_config = c ∧
    (ethernet_app_task_step env (update_msg c) s).nvs
      = (app_nvs_save_eth_config env.nvs c s.nvs).1 ∧
    (ethernet_app_task_step env (update_msg c) s).http = s.http ∧
    (∀ nv2 : NvsEnv,
      ethernet_app_task_step { env with nvs := nv2 } (update_msg c) s
        = { ethernet_app_task_step env (update_msg c) s with
            nvs := (app_nvs_save_eth_config nv2 c s.nvs).1 }) := by
  cases ht : s.s_dhcp_timer <;>
  cases hd : s.s_eth_ip_config.dhcp_enabled <;> cases hc : c.dhcp_enabled <;>
  cases hb : s.event_group.ETH_CONNECTED_BIT <;>
  by_cases hr : env.esp_netif_set_ip_info_ret = 0 <;>
  simp [xTimerStart, update_msg, ethernet_app_send_message, ethernet_app_task_step,
      configure_static_ip, ht, hr, hd, hc, hb]

/-- The whole processing of a reconfiguration from an empty mailbox, field by field. -/
theorem update_process_fields (env : Env) (s : State) (c : eth_ip_config_t)
    (hq : s.ethernet_app_queue = []) :
    (process env s (Event.UpdateConfig c)).s_eth_ip_config = c ∧
    (process env s (Event.UpdateConfig c)).nvs = (app_nvs_save_eth_config env.nvs c s.nvs).1 ∧
    (process env s (Event.UpdateConfig c)).http = s.http ∧
    (∀ nv2 : NvsEnv,
      process { env with nvs := nv2 } s (Event.UpdateConfig c)
        = { process env s (Event.UpdateConfig c) with
            nvs := (app_nvs_save_eth_config nv2 c s.nvs).1 }) := by
  cases ht : s.s_dhcp_timer <;> cases hcb : s.ethernet_connected_event_cb <;>
  cases hd : s.s_eth_ip_config.dhcp_enabled <;> cases hc : c.dhcp_enabled <;>
  cases hb : s.event_group.ETH_CONNECTED_BIT <;>
  by_cases hr : env.esp_netif_set_ip_info_ret = 0 <;>
  simp [process, deliver, ethernet_app_set_ip_config, xTimerStart,
      ethernet_app_send_message, ethernet_app_task_run, ethernet_app_task_step,
      configure_static_ip, ethernet_app_call_callback, hq, ht, hr, hcb, hd, hc, hb]

/-- C12: for every manager state and every UpdateConfig payload c, the task's
processing of the message leaves c as the stored configuration (what
get_config returns) and calls the Config Store save with exactly c (so the
namespace holds c when every NVS call succeeds); the status monitor is not
touched, and apart from the NVS namespace the resulting state is the same
whatever the NVS calls return.  The same holds for the whole processing of the
input from an empty mailbox. -/
theorem C12_update_config_stored_and_saved (env : Env) (s : State) (c : eth_ip_config_t) :
    (ethernet_app_get_ip_config (ethernet_app_task_step env (update_msg c) s)).1 = c ∧
    (ethernet_app_task_step env (update_msg c) s).nvs
      = (app_nvs_save_eth_config env.nvs c s.nvs).1 ∧
    (env.nvs.save_ok →
      (ethernet_app_task_step env (update_msg c) s).nvs = NvsEth.of_config c) ∧
    (ethernet_app_task_step env (update_msg c) s).http = s.http ∧
    (∀ nv2 : NvsEnv,
      ethernet_app_task_step { env with nvs := nv2 } (update_msg c) s
        = { ethernet_app_task_step env (update_msg c) s with
            nvs := (app_nvs_save_eth_config nv2 c s.nvs).1 }) ∧
    (s.ethernet_app_queue = [] →
      (process env s (Event.UpdateConfig c)).s_eth_ip_config = c ∧
      (process env s (Event.UpdateConfig c)).nvs = (app_nvs_save_eth_config env.nvs c s.nvs).1 ∧
      (process env s (Event.UpdateConfig c)).http = s.http ∧
      ∀ nv2 : NvsEnv,
        process { env with nvs := nv2 } s (Event.UpdateConfig c)
          = { process env s (Event.UpdateConfig c) with
              nvs := (app_nvs_save_eth_config nv2 c s.nvs).1 }) := by
  obtain ⟨h1, h2, h3, h4⟩ := update_step_fields env s c
  refine ⟨h1, h2, ?_, h3, h4, update_process_fields env s c⟩
  intro hok
  rw [h2, app_nvs_save_eth_config_ok _ _ _ hok]

/-- C12 at a concrete input: Bound(Dynamic), then UpdateConfig to the Static
configuration of scenario B with every NVS call succeeding. -/
theorem C12_update_config_stored_and_saved_witness :
    Env.ok.nvs.save_ok ∧
    (run start_default history_bound_dynamic).ethernet_app_queue = [] ∧
    (ethernet_app_task_step Env.ok (update_msg cfg_static_B)
      (run start_default history_bound_dynamic)).nvs = NvsEth.of_config cfg_static_B ∧
    (process Env.ok (run start_default history_bound_dynamic)
      (Event.UpdateConfig cfg_static_B)).s_eth_ip_config = cfg_static_B :=
  ⟨⟨rfl, fun _ => rfl, rfl⟩, by decide,
    (C12_update_config_stored_and_saved Env.ok (run start_default history_bound_dynamic)
      cfg_static_B).2.2.1 ⟨rfl, fun _ => rfl, rfl⟩,
    ((C12_update_config_stored_and_saved Env.ok (run start_default history_bound_dynamic)
      cfg_static_B).2.2.2.2.2 (by decide)).1⟩

/-- C13: for every manager state and every configuration c, with the library
calls returning the same results both times, processing UpdateConfig(c) a
second time right after the first leaves the persisted configuration, the
stored configuration and the flags of the event group (link-connected, got-ip,
static marker) as the first processing left them; this holds for the task's
handling of the message in any state and for the whole processing of the input
from an empty mailbox. -/
theorem C13_update_config_idempotent (env : Env) (s : State) (c : eth_ip_config_t) :
    ((ethernet_app_task_step env (update_msg c)
        (ethernet_app_task_step env (update_msg c) s)).nvs
        = (ethernet_app_task_step env (update_msg c) s).nvs ∧
      (ethernet_app_task_step env (update_msg c)
        (ethernet_app_task_step env (update_msg c) s)).s_eth_ip_config
        = (ethernet_app_task_step env (update_msg c) s).s_eth_ip_config ∧
      (ethernet_app_task_step env (update_msg c)
        (ethernet_app_task_step env (update_msg c) s)).event_group
        = (ethernet_app_task_step env (update_msg c) s).event_group) ∧
    (s.ethernet_app_queue = [] →
      (process env (process env s (Event.UpdateConfig c)) (Event.UpdateConfig c)).nvs
        = (process env s (Event.UpdateConfig c)).nvs ∧
      (process env (process env s (Event.UpdateConfig c)) (Event.UpdateConfig c)).s_eth_ip_config
        = (process env s (Event.UpdateConfig c)).s_eth_ip_config ∧
      (process env (process env s (Event.UpdateConfig c)) (Event.UpdateConfig c)).event_group
        = (process env s (Event.UpdateConfig c)).event_group) := by
  have hidem := app_nvs_save_eth_config_idem env.nvs c s.nvs
  constructor
  · obtain ⟨h1, h2, _, _⟩ := update_step_fields env s c
    obtain ⟨k1, k2, _, _⟩ := update_step_fields env (ethernet_app_task_step env (update_msg c) s) c
    refine ⟨?_, ?_, ?_⟩
    · rw [k2, h2, hidem]
    · rw [k1, h1]
    · cases ht : s.s_dhcp_timer <;>
      cases hd : s.s_eth_ip_config.dhcp_enabled <;> cases hc : c.dhcp_enabled <;>
      cases hb : s.event_group.ETH_CONNECTED_BIT <;>
      by_cases hr : env.esp_netif_set_ip_info_ret = 0 <;>
      simp [xTimerStart, update_msg, ethernet_app_send_message, ethernet_app_task_step,
        configure_static_ip, ht, hr, hd, hc, hb]
  · intro hq
    have hq1 := process_queue_empty env s (Event.UpdateConfig c)
    obtain ⟨h1, h2, _, _⟩ := update_process_fields env s c hq
    obtain ⟨k1, k2, _, _⟩ := update_process_fields env (process env s (Event.UpdateConfig c)) c hq1
    refine ⟨?_, ?_, ?_⟩
    · rw [k2, h2, hidem]
    · rw [k1, h1]
    · cases ht : s.s_dhcp_timer <;> cases hcb : s.ethernet_connected_event_cb <;>
      cases hd : s.s_eth_ip_config.dhcp_enabled <;> cases hc : c.dhcp_enabled <;>
      cases hb : s.event_group.ETH_CONNECTED_BIT <;>
      by_cases hr : env.esp_netif_set_ip_info_ret = 0 <;>
      simp [process, deliver, ethernet_app_set_ip_config, xTimerStart,
        ethernet_app_send_message, ethernet_app_task_run, ethernet_app_task_step,
        configure_static_ip, ethernet_app_call_callback, hq, ht, hr, hcb, hd, hc, hb]

/-- C13 at a concrete input: Bound(Dynamic), UpdateConfig to the Static
configuration of scenario B, twice. -/
theorem C13_update_config_idempotent_witness :
    (run start_default history_bound_dynamic).ethernet_app_queue = [] ∧
    (process Env.ok (process Env.ok (run start_default history_bound_dynamic)
      (Event.UpdateConfig cfg_static_B)) (Event.UpdateConfig cfg_static_B)).event_group
      = (process Env.ok (run start_default history_bound_dynamic)
          (Event.UpdateConfig cfg_static_B)).event_group :=
  ⟨by decide,
    ((C13_update_config_idempotent Env.ok (run start_default history_bound_dynamic)
      cfg_static_B).2 (by decide)).2.2⟩

/-- C15 refuted as stated: after static fallback has bound (scenario A), a late
AddressAcquired is not a no-op: the monitor receives ConnectSuccess, the got-ip
flag becomes set and the connected callback runs a second time. -/
theorem C15_counterexample :
    (run start_default history_A).event_group.ETH_USING_STATIC_IP_BIT = true ∧
    (run start_default history_A).event_group.ETH_GOT_IP_BIT = false ∧
    (run start_default history_late_lease).event_group.ETH_GOT_IP_BIT = true ∧
    (run start_default history_A).http.monitor_received = [HTTP_MSG_ETH_CONNECT_INIT] ∧
    (run start_default history_late_lease).http.monitor_received
      = [HTTP_MSG_ETH_CONNECT_INIT, HTTP_MSG_ETH_CONNECT_SUCCESS] ∧
    (run start_default history_A).callback_calls = 1 ∧
    (run start_default history_late_lease).callback_calls = 2 := by
  decide

/-- C15 as amended: an AddressAcquired processed while the static marker is set
(empty mailbox) leaves the stored configuration, the static marker, the
link-connected flag and the interface as they were, so the manager does not
revert to dynamic; it does send ConnectSuccess to the monitor (the phase
becomes Success), sets the got-ip flag, stops the DHCP timer if it is active and
delivers the connected notification (the callback, when registered, runs). -/
theorem C15_late_address_acquired (env : Env) (s : State) (a g m : esp_ip4_addr_t)
    (hq : s.ethernet_app_queue = [])
    (hst : s.event_group.ETH_USING_STATIC_IP_BIT = true)
    (hmon : s.http.http_server_monitor_queue_handle = true) :
    (process env s (Event.AddressAcquired a g m)).s_eth_ip_config = s.s_eth_ip_config ∧
    (process env s (Event.AddressAcquired a g m)).event_group
      = { s.event_group with ETH_GOT_IP_BIT := true } ∧
    (process env s (Event.AddressAcquired a g m)).esp_netif_eth = s.esp_netif_eth ∧
    (process env s (Event.AddressAcquired a g m)).nvs = s.nvs ∧
    (process env s (Event.AddressAcquired a g m)).s_dhcp_timer
      = s.s_dhcp_timer.map (fun _ => false) ∧
    (process env s (Event.AddressAcquired a g m)).http.monitor_received
      = s.http.monitor_received ++ [HTTP_MSG_ETH_CONNECT_SUCCESS] ∧
    (process env s (Event.AddressAcquired a g m)).http.g_eth_connect_status
      = HTTP_ETH_STATUS_CONNECT_SUCCESS ∧
    (process env s (Event.AddressAcquired a g m)).callback_calls
      = s.callback_calls + (if s.ethernet_connected_event_cb then 1 else 0) := by
  rcases ht : s.s_dhcp_timer with _ | _ | _ <;> cases hcb : s.ethernet_connected_event_cb <;>
  simp [process, deliver, ethernet_app_event_handler, send_http,
    http_server_monitor_send_message, http_server_monitor, ethernet_app_send_message,
    ethernet_app_task_run, ethernet_app_task_step, ethernet_app_call_callback,
    hq, hst, hmon, ht, hcb]

/-- C15 amended, at scenario A followed by a late lease. -/
theorem C15_late_address_acquired_witness :
    (run start_default history_A).ethernet_app_queue = [] ∧
    (run start_default history_A).event_group.ETH_USING_STATIC_IP_BIT = true ∧
    (run start_default history_A).http.http_server_monitor_queue_handle = true ∧
    (process Env.ok (run start_default history_A)
      (Event.AddressAcquired ⟨10, 1, 2, 3⟩ ⟨10, 1, 2, 1⟩ ⟨255, 255, 0, 0⟩)).s_eth_ip_config
      = (run start_default history_A).s_eth_ip_config :=
  ⟨by decide, by decide, by decide,
    (C15_late_address_acquired Env.ok (run start_default history_A) ⟨10, 1, 2, 3⟩
      ⟨10, 1, 2, 1⟩ ⟨255, 255, 0, 0⟩ (by decide) (by decide) (by decide)).1⟩

/-- C16 refuted as stated: after a link-up that obtained the lease 10.1.2.3, the
LinkDown clears the flags and reports Disconnected, but the acquired address,
gateway and netmask remain recorded in the stored configuration. -/
theorem C16_counterexample :
    (run start_default history_lease_then_down).event_group.ETH_CONNECTED_BIT = false ∧
    (run start_default history_lease_then_down).http.g_eth_connect_status
      = HTTP_ETH_STATUS_DISCONNECTED ∧
    (run start_default history_lease_then_down).s_eth_ip_config
      = { s_eth_ip_config_init with
          ip := "10.1.2.3", gateway := "10.1.2.1", netmask := "255.255.0.0" } ∧
    (run start_default history_lease_then_down).s_eth_ip_config.ip
      = ip4_str ⟨10, 1, 2, 3⟩ ∧
    (run start_default history_lease_then_down).s_eth_ip_config ≠ s_eth_ip_config_init := by
  decide

/-- C16 as amended: for every manager state with an empty mailbox and the monitor
running, processing LinkDown leaves the link-connected, got-ip and static
marker flags all clear (and the disconnected flag set), leaves the DHCP timer
inactive, and sends Disconnected to the monitor so that the phase is
Disconnected; the stored configuration, with whatever address an earlier
acquisition recorded in it, the interface settings and the persisted
configuration are left as they were. -/
theorem C16_link_down (env : Env) (s : State)
    (hq : s.ethernet_app_queue = [])
    (hmon : s.http.http_server_monitor_queue_handle = true) :
    (process env s Event.LinkDown).event_group.ETH_CONNECTED_BIT = false ∧
    (process env s Event.LinkDown).event_group.ETH_GOT_IP_BIT = false ∧
    (process env s Event.LinkDown).event_group.ETH_USING_STATIC_IP_BIT = false ∧
    (process env s Event.LinkDown).event_group.ETH_DISCONNECTED_BIT = true ∧
    (process env s Event.LinkDown).s_dhcp_timer ≠ some true ∧
    (process env s Event.LinkDown).s_dhcp_timer = s.s_dhcp_timer.map (fun _ => false) ∧
    (process env s Event.LinkDown).http.monitor_received
      = s.http.monitor_received ++ [HTTP_MSG_ETH_USER_DISCONNECT] ∧
    (process env s Event.LinkDown).http.g_eth_connect_status = HTTP_ETH_STATUS_DISCONNECTED ∧
    (process env s Event.LinkDown).s_eth_ip_config = s.s_eth_ip_config ∧
    (process env s Event.LinkDown).esp_netif_eth = s.esp_netif_eth ∧
    (process env s Event.LinkDown).nvs = s.nvs := by
  rcases ht : s.s_dhcp_timer with _ | _ | _ <;>
  simp [process, deliver, ethernet_app_event_handler, send_http,
    http_server_monitor_send_message, http_server_monitor, ethernet_app_send_message,
    ethernet_app_task_run, ethernet_app_task_step, hq, hmon, ht]

/-- C16 amended, at Bound(Dynamic) followed by LinkDown. -/
theorem C16_link_down_witness :
    (run start_default history_bound_dynamic).ethernet_app_queue = [] ∧
    (run start_default history_bound_dynamic).http.http_server_monitor_queue_handle = true ∧
    (process Env.ok (run start_default history_bound_dynamic)
      Event.LinkDown).http.g_eth_connect_status = HTTP_ETH_STATUS_DISCONNECTED :=
  ⟨by decide, by decide,
    (C16_link_down Env.ok (run start_default history_bound_dynamic) (by decide)
      (by decide)).2.2.2.2.2.2.2.1⟩

/-- C17 refuted as stated: after Stop has released the driver, deleted the timer
and cleared the link flags, an UpdateConfig is not ignored: the stored and the
persisted configuration become the new one, both for the mailbox message alone
and for the whole configuration request that sends it. -/
theorem C17_counterexample :
    (run_reacting start_default history_bound_then_stop).s_eth_handle = false ∧
    (run_reacting start_default history_bound_then_stop).s_dhcp_timer = none ∧
    (run_reacting start_default history_bound_then_stop).event_group
      = ⟨false, false, false, true, false⟩ ∧
    (react Env.ok (run_reacting start_default history_bound_then_stop)
      (Event.UpdateConfig cfg_static_B)).s_eth_ip_config = cfg_static_B ∧
    (react Env.ok (run_reacting start_default history_bound_then_stop)
      (Event.UpdateConfig cfg_static_B)).s_eth_ip_config
      ≠ (run_reacting start_default history_bound_then_stop).s_eth_ip_config ∧
    (react Env.ok (run_reacting start_default history_bound_then_stop)
      (Event.UpdateConfig cfg_static_B)).nvs = NvsEth.of_config cfg_static_B ∧
    (react Env.ok (run_reacting start_default history_bound_then_stop)
      (Event.UpdateConfig cfg_static_B)).nvs
      ≠ (run_reacting start_default history_bound_then_stop).nvs ∧
    eth_connect_config request_no_dns = some cfg_static_B ∧
    (eth_connect_request_reacting Env.ok cfg_static_B
      (run_reacting start_default history_bound_then_stop)).s_eth_ip_config = cfg_static_B ∧
    (eth_connect_request_reacting Env.ok cfg_static_B
      (run_reacting start_default history_bound_then_stop)).nvs
      = NvsEth.of_config cfg_static_B := by
  decide

/-- C17 as amended: Stop handled to the end while the driver is installed (empty
mailbox, no pending event, stop and deinit succeeding, the driver posting its
stop event) deletes the DHCP timer, releases the driver and clears the handle,
and the handler of the stop event sets the stop flag and clears the link,
got-ip, disconnected and static-marker flags; the stored and the persisted
configuration and the interface settings are untouched.  A second Stop is then
ignored and a disconnected notification changes nothing.  The other mailbox messages are not ignored:
UpdateConfig replaces the stored configuration and saves it, leaving the
interface, the flags and the monitor untouched; a connected notification runs
the registered callback; a DHCP time-out message applies the static settings
and sets the static marker when the interface accepts them. -/
theorem C17_stop (env env2 : Env) (s : State) (c : eth_ip_config_t)
    (hq : s.ethernet_app_queue = []) (hp : s.posted = [])
    (hh : s.s_eth_handle = true)
    (h1 : env.esp_eth_stop_ret = ESP_OK)
    (h2 : env.eth_deinit_w5500_ret = ESP_OK)
    (h3 : env.eth_stop_event_posted = true) :
    ((react env s Event.Stop).s_eth_handle = false ∧
      (react env s Event.Stop).s_dhcp_timer = none ∧
      (react env s Event.Stop).event_group = ⟨false, false, false, true, false⟩ ∧
      (react env s Event.Stop).s_eth_ip_config = s.s_eth_ip_config ∧
      (react env s Event.Stop).nvs = s.nvs ∧
      (react env s Event.Stop).esp_netif_eth = s.esp_netif_eth ∧
      (react env s Event.Stop).ethernet_app_queue = [] ∧
      (react env s Event.Stop).posted = []) ∧
    react env2 (react env s Event.Stop) Event.Stop = react env s Event.Stop ∧
    ethernet_app_task_step env2 ⟨ETHERNET_APP_MSG_ETH_DISCONNECTED, none⟩
      (react env s Event.Stop) = react env s Event.Stop ∧
    react env2 (react env s Event.Stop) (Event.UpdateConfig c)
      = { react env s Event.Stop with
          s_eth_ip_config := c
          nvs := (app_nvs_save_eth_config env2.nvs c s.nvs).1 } ∧
    ethernet_app_task_step env2 ⟨ETHERNET_APP_MSG_ETH_CONNECTED_GOT_IP, none⟩
      (react env s Event.Stop)
      = { react env s Event.Stop with
          callback_calls :=
            s.callback_calls + (if s.ethernet_connected_event_cb then 1 else 0) } ∧
    (env2.esp_netif_set_ip_info_ret = ESP_OK →
      (ethernet_app_task_step env2 ⟨ETHERNET_APP_MSG_DHCP_TIMEOUT, none⟩
        (react env s Event.Stop)).event_group.ETH_USING_STATIC_IP_BIT = true ∧
      (ethernet_app_task_step env2 ⟨ETHERNET_APP_MSG_DHCP_TIMEOUT, none⟩
        (react env s Event.Stop)).esp_netif_eth.ip_info
        = static_ip_info env2 s.s_eth_ip_config) := by
  have h10 : env.esp_eth_stop_ret = 0 := h1
  have h20 : env.eth_deinit_w5500_ret = 0 := h2
  have hstop : react env s Event.Stop
      = { s with
          s_eth_handle := false
          s_dhcp_timer := none
          event_group := ⟨false, false, false, true, false⟩ } := by
    simp [react, dispatch_posted, process, deliver, ethernet_app_event_handler,
      ethernet_app_send_message, ethernet_app_task_run, ethernet_app_task_step,
      hq, hp, hh, h10, h20, h3]
  rw [hstop]
  refine ⟨⟨rfl, rfl, rfl, rfl, rfl, rfl, hq, hp⟩, ?_, ?_, ?_, ?_, ?_⟩
  · simp [react, dispatch_posted, process, deliver, ethernet_app_send_message,
      ethernet_app_task_run, ethernet_app_task_step, hq, hp]
  · simp [ethernet_app_task_step]
  · simp [react, dispatch_posted, process, deliver, ethernet_app_set_ip_config,
      ethernet_app_send_message, ethernet_app_task_run, ethernet_app_task_step, hq, hp]
  · cases hcb : s.ethernet_connected_event_cb <;>
    simp [ethernet_app_task_step, ethernet_app_call_callback, hcb]
  · intro hok
    have hr : env2.esp_netif_set_ip_info_ret = 0 := hok
    simp [ethernet_app_task_step, configure_static_ip, ethernet_app_send_message,
      static_ip_info, hr]

/-- C17 amended, at Bound(Dynamic) followed by Stop. -/
theorem C17_stop_witness :
    (run_reacting start_default history_bound_dynamic).ethernet_app_queue = [] ∧
    (run_reacting start_default history_bound_dynamic).posted = [] ∧
    (run_reacting start_default history_bound_dynamic).s_eth_handle = true ∧
    Env.ok.eth_stop_event_posted = true ∧
    (react Env.ok (run_reacting start_default history_bound_dynamic) Event.Stop).event_group
      = ⟨false, false, false, true, false⟩ ∧
    react Env.ok (react Env.ok (run_reacting start_default history_bound_dynamic) Event.Stop)
      Event.Stop = react Env.ok (run_reacting start_default history_bound_dynamic) Event.Stop :=
  ⟨by decide, by decide, by decide, rfl,
    (C17_stop Env.ok Env.ok (run_reacting start_default history_bound_dynamic) cfg_static_B
      (by decide) (by decide) (by decide) rfl rfl rfl).1.2.2.1,
    (C17_stop Env.ok Env.ok (run_reacting start_default history_bound_dynamic) cfg_static_B
      (by decide) (by decide) (by decide) rfl rfl rfl).2.1⟩

/-! ## Theorems: the Ethernet configuration request -/

theorem read_hdr_of_short (req : HttpdReq) (field v : String) (h : hdr_short req field v) :
    read_hdr req field 16 = some v := by
  obtain ⟨h1, h2, h3, h4⟩ := h
  have h40 : req.get_hdr_value_str_ret field = 0 := h4
  unfold read_hdr httpd_req_get_hdr_value_len
  simp only [h1]
  rw [if_pos ⟨by omega, by omega⟩]
  simp [h40]

theorem read_hdr_of_long (req : HttpdReq) (field v : String) (h : req.hdr field = some v)
    (hlen : 15 ≤ v.length) : read_hdr req field 16 = none := by
  unfold read_hdr httpd_req_get_hdr_value_len
  simp only [h]
  rw [if_neg (by omega)]

theorem read_hdr_of_missing (req : HttpdReq) (field : String) (h : hdr_missing req field) :
    read_hdr req field 16 = none := by
  unfold hdr_missing at h
  unfold read_hdr httpd_req_get_hdr_value_len
  cases hv : req.hdr field with
  | none => simp
  | some v =>
      rw [hv] at h
      simp only
      rw [if_neg (by omega)]

theorem strncpy15_of_le (v : String) (h : v.length ≤ 15) : strncpy15 v = v := by
  unfold strncpy15
  rw [List.take_of_length_le h]

/-- A static request is rejected as soon as the buffer of one of the three
address fields is left empty. -/
theorem eth_connect_config_none (req : HttpdReq)
    (hstatic : eth_connect_dhcp_enabled req = false)
    (h : read_hdr req "static-ip" 16 = none ∨ read_hdr req "static-subnet" 16 = none ∨
      read_hdr req "static-gateway" 16 = none) :
    eth_connect_config req = none := by
  unfold eth_connect_config
  simp only [hstatic, Bool.not_false, if_true]
  rcases h with h | h | h <;> simp [h]

/-- A static request whose three address fields are short is accepted with
exactly those values. -/
theorem eth_connect_config_short (req : HttpdReq) (ip mask gw : String)
    (hstatic : eth_connect_dhcp_enabled req = false)
    (hip : hdr_short req "static-ip" ip) (hmask : hdr_short req "static-subnet" mask)
    (hgw : hdr_short req "static-gateway" gw) :
    eth_connect_config req
      = some { ip := ip, gateway := gw, netmask := mask
               dns := strncpy15 ((read_hdr req "static-dns" 16).getD "8.8.8.8")
               dhcp_enabled := false } := by
  unfold eth_connect_config
  simp only [hstatic, Bool.not_false, if_true, read_hdr_of_short _ _ _ hip,
    read_hdr_of_short _ _ _ hmask, read_hdr_of_short _ _ _ hgw, Option.getD_some]
  have h1 := hip.2.1
  have h2 := hmask.2.1
  have h3 := hgw.2.1
  have l1 := hip.2.2.1
  have l2 := hmask.2.2.1
  have l3 := hgw.2.2.1
  rw [if_neg (by omega), strncpy15_of_le ip (by omega), strncpy15_of_le mask (by omega),
    strncpy15_of_le gw (by omega)]

theorem handler_rejected (env : Env) (malloc_ok : Bool) (req : HttpdReq) (s : State)
    (h : eth_connect_config req = none) :
    http_server_eth_connect_json_handler env malloc_ok req s
      = { state := s, ret := ESP_FAIL, resp_err := some 400 } := by
  unfold http_server_eth_connect_json_handler
  rw [h]

theorem handler_accepted (env : Env) (req : HttpdReq) (s : State) (c : eth_ip_config_t)
    (h : eth_connect_config req = some c) :
    (http_server_eth_connect_json_handler env true req s).ret = ESP_OK ∧
    (http_server_eth_connect_json_handler env true req s).resp_err = none ∧
    ∃ tail, (http_server_eth_connect_json_handler env true req s).state.ethernet_app_queue
      = s.ethernet_app_queue ++ update_msg c :: tail := by
  unfold http_server_eth_connect_json_handler
  rw [h]
  simp only [ethernet_app_set_ip_config, if_true, ne_eq, not_true_eq_false, if_false]
  refine ⟨trivial, trivial, ?_⟩
  cases hb : s.event_group.ETH_CONNECTED_BIT <;>
  cases hd : s.s_eth_ip_config.dhcp_enabled <;>
  cases ht : s.s_dhcp_timer <;>
  by_cases hr : env.esp_netif_set_ip_info_ret = 0 <;>
  simp [http_server_eth_connect_json_handler_update, ethernet_app_set_ip_config,
    ethernet_app_apply_ip_config, send_http, ethernet_app_send_message, xTimerStart,
    configure_static_ip, update_msg, hb, hd, ht, hr]

/-- C18 refuted as stated: a Static request whose address, netmask and gateway
are the unparseable texts "abc", "x.y" and "300.1.1" is accepted, and an
UpdateConfig carrying them is put in the manager's mailbox. -/
theorem C18_counterexample :
    eth_connect_dhcp_enabled request_malformed = false ∧
    dotted_quad "abc" = none ∧ dotted_quad "x.y" = none ∧ dotted_quad "300.1.1" = none ∧
    (http_server_eth_connect_json_handler Env.ok true request_malformed start_default).ret
      = ESP_OK ∧
    (http_server_eth_connect_json_handler Env.ok true request_malformed
      start_default).state.ethernet_app_queue
      = [update_msg ⟨"abc", "300.1.1", "x.y", "8.8.8.8", false⟩] := by
  decide

/-- C18 as amended: a Static request in which the address, the netmask or the
gateway is absent, empty or longer than 15 characters is rejected: the handler
reports error 400, returns `ESP_FAIL` and leaves the whole state (mailbox,
stored and persisted configuration, flags, status) as it was.  The handler does
not parse the values: when the three fields hold any texts of 1 to 14
characters, the request is accepted and an UpdateConfig carrying exactly those
texts is put in the mailbox. -/
theorem C18_static_request_validation (env : Env) (malloc_ok : Bool) (req : HttpdReq)
    (s : State) (hstatic : eth_connect_dhcp_enabled req = false) :
    (hdr_missing req "static-ip" ∨ hdr_missing req "static-subnet" ∨
        hdr_missing req "static-gateway" →
      http_server_eth_connect_json_handler env malloc_ok req s
        = { state := s, ret := ESP_FAIL, resp_err := some 400 }) ∧
    (∀ ip mask gw : String, hdr_short req "static-ip" ip →
      hdr_short req "static-subnet" mask → hdr_short req "static-gateway" gw →
      ∃ dns tail,
        eth_connect_config req = some ⟨ip, gw, mask, dns, false⟩ ∧
        (http_server_eth_connect_json_handler env true req s).ret = ESP_OK ∧
        (http_server_eth_connect_json_handler env true req s).state.ethernet_app_queue
          = s.ethernet_app_queue ++ update_msg ⟨ip, gw, mask, dns, false⟩ :: tail) := by
  constructor
  · intro h
    apply handler_rejected
    apply eth_connect_config_none req hstatic
    rcases h with h | h | h
    · exact Or.inl (read_hdr_of_missing _ _ h)
    · exact Or.inr (Or.inl (read_hdr_of_missing _ _ h))
    · exact Or.inr (Or.inr (read_hdr_of_missing _ _ h))
  · intro ip mask gw hip hmask hgw
    have hc := eth_connect_config_short req ip mask gw hstatic hip hmask hgw
    obtain ⟨h1, _, tail, h3⟩ := handler_accepted env req s _ hc
    exact ⟨_, tail, hc, h1, h3⟩

/-- C18 amended, at a request without a gateway field. -/
theorem C18_static_request_validation_witness :
    eth_connect_dhcp_enabled
      (request [("ip-mode", "static"), ("static-ip", "10.0.0.5"),
        ("static-subnet", "255.255.255.0")]) = false ∧
    hdr_missing (request [("ip-mode", "static"), ("static-ip", "10.0.0.5"),
        ("static-subnet", "255.255.255.0")]) "static-gateway" ∧
    http_server_eth_connect_json_handler Env.ok true
      (request [("ip-mode", "static"), ("static-ip", "10.0.0.5"),
        ("static-subnet", "255.255.255.0")]) start_default
      = { state := start_default, ret := ESP_FAIL, resp_err := some 400 } :=
  ⟨by decide, by simp [hdr_missing, request],
    (C18_static_request_validation Env.ok true
      (request [("ip-mode", "static"), ("static-ip", "10.0.0.5"),
        ("static-subnet", "255.255.255.0")]) start_default (by decide)).1
      (Or.inr (Or.inr (by simp [hdr_missing, request])))⟩

/-- C19 (what the code does with 15-character addresses): in a Static request,
when the address, the netmask or the gateway has exactly 15 characters, the
test `len < sizeof(buffer)` (with `len` already counting the NUL) skips the
field, so the request is rejected with error 400 and the state is unchanged;
with values of 1 to 14 characters the request is accepted and the enqueued
configuration carries exactly the three strings. -/
theorem C19_fifteen_char_address_rejected (env : Env) (malloc_ok : Bool) (req : HttpdReq)
    (s : State) (field v : String)
    (hstatic : eth_connect_dhcp_enabled req = false)
    (hfield : field = "static-ip" ∨ field = "static-subnet" ∨ field = "static-gateway")
    (hv : req.hdr field = some v) (hlen : v.length = 15) :
    eth_connect_config req = none ∧
    http_server_eth_connect_json_handler env malloc_ok req s
      = { state := s, ret := ESP_FAIL, resp_err := some 400 } ∧
    (∀ (req2 : HttpdReq) (ip mask gw : String), eth_connect_dhcp_enabled req2 = false →
      hdr_short req2 "static-ip" ip → hdr_short req2 "static-subnet" mask →
      hdr_short req2 "static-gateway" gw →
      ∃ dns tail,
        (http_server_eth_connect_json_handler env true req2 s).ret = ESP_OK ∧
        (http_server_eth_connect_json_handler env true req2 s).state.ethernet_app_queue
          = s.ethernet_app_queue ++ update_msg ⟨ip, gw, mask, dns, false⟩ :: tail) := by
  have hnone : eth_connect_config req = none := by
    apply eth_connect_config_none req hstatic
    have hr := read_hdr_of_long req field v hv (by omega)
    rcases hfield with h | h | h <;> subst h
    · exact Or.inl hr
    · exact Or.inr (Or.inl hr)
    · exact Or.inr (Or.inr hr)
  refine ⟨hnone, handler_rejected env malloc_ok req s hnone, ?_⟩
  intro req2 ip mask gw hst hip hmask hgw
  have hc := eth_connect_config_short req2 ip mask gw hst hip hmask hgw
  obtain ⟨h1, _, tail, h3⟩ := handler_accepted env req2 s _ hc
  exact ⟨_, tail, h1, h3⟩

/-- C19 at the failing input: static-ip 192.168.100.200. -/
theorem C19_fifteen_char_address_rejected_witness :
    eth_connect_dhcp_enabled request_long_ip = false ∧
    request_long_ip.hdr "static-ip" = some "192.168.100.200" ∧
    "192.168.100.200".length = 15 ∧
    dotted_quad "192.168.100.200" ≠ none ∧
    http_server_eth_connect_json_handler Env.ok true request_long_ip start_default
      = { state := start_default, ret := ESP_FAIL, resp_err := some 400 } :=
  ⟨by decide, by decide, by decide, by decide,
    (C19_fifteen_char_address_rejected Env.ok true request_long_ip start_default "static-ip"
      "192.168.100.200" (by decide) (Or.inl rfl) (by decide) (by decide)).2.1⟩

/-- C20 (what the code does with the DNS field): in a Static request whose three
address fields have 1 to 14 characters, the enqueued DNS is "8.8.8.8" when no
DNS field is supplied and is the supplied value when that has 1 to 14
characters; but a supplied DNS value of exactly 15 characters is skipped by the
test `len < sizeof(buffer)` and replaced by "8.8.8.8". -/
theorem C20_dns_default (req : HttpdReq) (ip mask gw : String)
    (hstatic : eth_connect_dhcp_enabled req = false)
    (hip : hdr_short req "static-ip" ip) (hmask : hdr_short req "static-subnet" mask)
    (hgw : hdr_short req "static-gateway" gw) :
    (req.hdr "static-dns" = none →
      eth_connect_config req = some ⟨ip, gw, mask, "8.8.8.8", false⟩) ∧
    (∀ dns, hdr_short req "static-dns" dns →
      eth_connect_config req = some ⟨ip, gw, mask, dns, false⟩) ∧
    (∀ dns, req.hdr "static-dns" = some dns → dns.length = 15 →
      eth_connect_config req = some ⟨ip, gw, mask, "8.8.8.8", false⟩) := by
  have hc := eth_connect_config_short req ip mask gw hstatic hip hmask hgw
  have h8 : strncpy15 "8.8.8.8" = "8.8.8.8" := by decide
  refine ⟨?_, ?_, ?_⟩
  · intro hnone
    have : read_hdr req "static-dns" 16 = none :=
      read_hdr_of_missing _ _ (by simp [hdr_missing, hnone])
    rw [hc, this, Option.getD_none, h8]
  · intro dns hdns
    rw [hc, read_hdr_of_short _ _ _ hdns, Option.getD_some,
      strncpy15_of_le dns (by have := hdns.2.2.1; omega)]
  · intro dns hdns hlen
    rw [hc, read_hdr_of_long _ _ _ hdns (by omega), Option.getD_none, h8]

/-- C20 at the failing input: static-dns 192.168.100.100 is replaced by 8.8.8.8. -/
theorem C20_dns_default_witness :
    eth_connect_dhcp_enabled request_long_dns = false ∧
    request_long_dns.hdr "static-dns" = some "192.168.100.100" ∧
    dotted_quad "192.168.100.100" ≠ none ∧
    eth_connect_config request_long_dns
      = some ⟨"10.0.0.5", "10.0.0.1", "255.255.255.0", "8.8.8.8", false⟩ :=
  ⟨by decide, by decide, by decide,
    (C20_dns_default request_long_dns "10.0.0.5" "255.255.255.0" "10.0.0.1" (by decide)
      ⟨by decide, by decide, by decide, rfl⟩ ⟨by decide, by decide, by decide, rfl⟩
      ⟨by decide, by decide, by decide, rfl⟩).2.2 "192.168.100.100" (by decide) (by decide)⟩

/-! ## Theorems: immediate application, configuration store, start -/

/-- C21 refuted as stated: with the link up and no address bound (the static
fallback was rejected by the interface), `ethernet_app_apply_ip_config` does
not return an error: it returns `ESP_OK`, restarts the DHCP client and arms the
timer. -/
theorem C21_counterexample :
    (run start_default history_fallback_fails).event_group.ETH_CONNECTED_BIT = true ∧
    ¬ Bound (run start_default history_fallback_fails) ∧
    (ethernet_app_apply_ip_config Env.ok (run start_default history_fallback_fails)).2
      = ESP_OK ∧
    (run start_default history_fallback_fails).s_dhcp_timer = some false ∧
    (ethernet_app_apply_ip_config Env.ok
      (run start_default history_fallback_fails)).1.s_dhcp_timer = some true ∧
    (run start_default history_fallback_fails).esp_netif_eth.dhcpc_started = false ∧
    (ethernet_app_apply_ip_config Env.ok
      (run start_default history_fallback_fails)).1.esp_netif_eth.dhcpc_started = true := by
  decide

/-- C21 as amended: `ethernet_app_apply_ip_config` re-applies the stored
configuration exactly when the link is up, whether or not an address is bound.
With the link down it returns `ESP_ERR_INVALID_STATE` and changes nothing.  With
the link up and a Dynamic configuration it clears the static marker, starts the
DHCP client, arms the timer and returns `ESP_OK`; with a Static configuration
it applies the stored static settings, sets the static marker, queues the
connected notification and returns `ESP_OK` (the address event the stack posts
for the applied address is then pending), or, when the interface rejects the
settings, returns that error having only stopped the DHCP client.  A bound
manager has the link up, so the call is never refused while bound. -/
theorem C21_apply_now (env : Env) (s : State) :
    (s.event_group.ETH_CONNECTED_BIT = false →
      ethernet_app_apply_ip_config env s = (s, ESP_ERR_INVALID_STATE)) ∧
    (s.event_group.ETH_CONNECTED_BIT = true → s.s_eth_ip_config.dhcp_enabled = true →
      s.s_dhcp_timer ≠ none →
      ethernet_app_apply_ip_config env s
        = ({ s with
             event_group := { s.event_group with ETH_USING_STATIC_IP_BIT := false }
             esp_netif_eth := { s.esp_netif_eth with dhcpc_started := true }
             s_dhcp_timer := some true }, ESP_OK)) ∧
    (s.event_group.ETH_CONNECTED_BIT = true → s.s_eth_ip_config.dhcp_enabled = false →
      env.esp_netif_set_ip_info_ret = ESP_OK →
      ethernet_app_apply_ip_config env s
        = ({ s with
             event_group := { s.event_group with ETH_USING_STATIC_IP_BIT := true }
             esp_netif_eth :=
               { dhcpc_started := false
                 ip_info := static_ip_info env s.s_eth_ip_config
                 dns_server := env.inet_pton s.s_eth_ip_config.dns }
             ethernet_app_queue :=
               s.ethernet_app_queue ++ [⟨ETHERNET_APP_MSG_ETH_CONNECTED_GOT_IP, none⟩]
             posted :=
               if env.got_ip_event_posted then
                 s.posted ++
                   [IP_EVENT_ETH_GOT_IP (got_ip_event_of (static_ip_info env s.s_eth_ip_config))]
               else s.posted },
           ESP_OK)) ∧
    (s.event_group.ETH_CONNECTED_BIT = true → s.s_eth_ip_config.dhcp_enabled = false →
      env.esp_netif_set_ip_info_ret ≠ ESP_OK →
      ethernet_app_apply_ip_config env s
        = ({ s with esp_netif_eth := { s.esp_netif_eth with dhcpc_started := false } },
           env.esp_netif_set_ip_info_ret)) ∧
    (Bound s → s.event_group.ETH_CONNECTED_BIT = true) := by
  refine ⟨?_, ?_, ?_, ?_, fun h => h.1⟩
  · intro hb
    simp [ethernet_app_apply_ip_config, hb]
  · intro hb hd ht
    rcases htm : s.s_dhcp_timer with _ | t
    · exact absurd htm ht
    · simp [ethernet_app_apply_ip_config, xTimerStart, hb, hd, htm]
  · intro hb hd hr
    have hr0 : env.esp_netif_set_ip_info_ret = 0 := hr
    simp [ethernet_app_apply_ip_config, configure_static_ip, ethernet_app_send_message,
      static_ip_info, hb, hd, hr0]
  · intro hb hd hr
    have hr0 : ¬ env.esp_netif_set_ip_info_ret = 0 := hr
    simp [ethernet_app_apply_ip_config, configure_static_ip, hb, hd, hr0]

/-- C21 amended, at the manager before any link event: the call is refused and
nothing changes. -/
theorem C21_apply_now_witness :
    start_default.event_group.ETH_CONNECTED_BIT = false ∧
    ethernet_app_apply_ip_config Env.ok start_default
      = (start_default, ESP_ERR_INVALID_STATE) :=
  ⟨rfl, (C21_apply_now Env.ok start_default).1 rfl⟩

theorem app_nvs_load_of_config (nv : NvsEnv) (c dst : eth_ip_config_t)
    (ho : nv.open_ret = ESP_OK) (hg : ∀ key, nv.get_ret key = ESP_OK) :
    app_nvs_load_eth_config nv (NvsEth.of_config c) dst = (c, true) := by
  have ho0 : nv.open_ret = 0 := ho
  have hg0 : ∀ key, nv.get_ret key = 0 := hg
  obtain ⟨ip, gw, nm, dns, dh⟩ := c
  cases dh <;>
  simp [app_nvs_load_eth_config, nvs_get_field, NvsEth.of_config, ho0, hg0]

theorem app_nvs_save_eth_config_of_ok (nv : NvsEnv) (c : eth_ip_config_t) (store : NvsEth)
    (h : (app_nvs_save_eth_config nv c store).2 = ESP_OK) :
    (app_nvs_save_eth_config nv c store).1 = NvsEth.of_config c := by
  unfold app_nvs_save_eth_config at h ⊢
  by_cases h0 : nv.open_ret = 0
  · by_cases h1 : nv.set_ret "ip" = 0
    · by_cases h2 : nv.set_ret "gateway" = 0
      · by_cases h3 : nv.set_ret "netmask" = 0
        · by_cases h4 : nv.set_ret "dns" = 0
          · by_cases h5 : nv.set_ret "dhcp" = 0
            · by_cases h6 : nv.commit_ret = 0
              · simp [h0, h1, h2, h3, h4, h5, h6, NvsEth.of_config]
              · simp [h0, h1, h2, h3, h4, h5, h6] at h
            · simp [h0, h1, h2, h3, h4, h5] at h
          · simp [h0, h1, h2, h3, h4] at h
        · simp [h0, h1, h2, h3] at h
      · simp [h0, h1, h2] at h
    · simp [h0, h1] at h
  · simp [h0] at h

theorem app_nvs_load_empty (nv : NvsEnv) (dst : eth_ip_config_t) :
    app_nvs_load_eth_config nv NvsEth.empty dst = (dst, false) := by
  by_cases ho : nv.open_ret = 0 <;>
  simp [app_nvs_load_eth_config, nvs_get_field, NvsEth.empty, ho]

/-- C22: for every configuration c and every prior contents of the namespace, a
save of c that returns `ESP_OK`, followed by a load whose NVS calls succeed,
reports found and returns a configuration equal to c in all five fields; a
clear that returns `ESP_OK` (from any contents), followed by a load, reports
not found whatever the NVS calls of the load return, and leaves the caller's
destination as it was. -/
theorem C22_config_store_round_trip (c dst : eth_ip_config_t) (store : NvsEth)
    (nv nv2 : NvsEnv) :
    ((app_nvs_save_eth_config nv c store).2 = ESP_OK →
      nv2.open_ret = ESP_OK → (∀ key, nv2.get_ret key = ESP_OK) →
      app_nvs_load_eth_config nv2 (app_nvs_save_eth_config nv c store).1 dst = (c, true)) ∧
    ((app_nvs_clear_eth_config nv store).2 = ESP_OK →
      app_nvs_load_eth_config nv2 (app_nvs_clear_eth_config nv store).1 dst = (dst, false)) := by
  constructor
  · intro hs ho hg
    rw [app_nvs_save_eth_config_of_ok nv c store hs]
    exact app_nvs_load_of_config nv2 c dst ho hg
  · intro hc
    have hst : (app_nvs_clear_eth_config nv store).1 = NvsEth.empty := by
      unfold app_nvs_clear_eth_config at hc ⊢
      by_cases h0 : nv.open_ret = 0
      · by_cases h1 : nv.erase_all_ret = 0
        · by_cases h2 : nv.commit_ret = 0 <;> simp [h0, h1, h2]
        · simp [h0, h1] at hc
      · simp [h0] at hc
    rw [hst]
    exact app_nvs_load_empty nv2 dst

/-- C22 at a concrete input: the Static configuration of scenario B saved over an
empty namespace and loaded back. -/
theorem C22_config_store_round_trip_witness :
    (app_nvs_save_eth_config NvsEnv.ok cfg_static_B NvsEth.empty).2 = ESP_OK ∧
    app_nvs_load_eth_config NvsEnv.ok
      (app_nvs_save_eth_config NvsEnv.ok cfg_static_B NvsEth.empty).1 s_eth_ip_config_init
      = (cfg_static_B, true) ∧
    app_nvs_load_eth_config NvsEnv.ok
      (app_nvs_clear_eth_config NvsEnv.ok (NvsEth.of_config cfg_static_B)).1
      s_eth_ip_config_init = (s_eth_ip_config_init, false) :=
  ⟨rfl,
    (C22_config_store_round_trip cfg_static_B s_eth_ip_config_init NvsEth.empty NvsEnv.ok
      NvsEnv.ok).1 rfl rfl (fun _ => rfl),
    (C22_config_store_round_trip cfg_static_B s_eth_ip_config_init
      (NvsEth.of_config cfg_static_B) NvsEnv.ok NvsEnv.ok).2 rfl⟩

theorem nvs_get_field_snd (ret : esp_err_t) (stored : Option String) (dst : String)
    (success : Bool) :
    (nvs_get_field ret stored dst success).2
      = (decide (ret = ESP_OK) && stored.isSome && success) := by
  cases stored <;> by_cases h : ret = 0 <;> simp [nvs_get_field, h]

theorem nvs_get_field_fst (ret : esp_err_t) (stored : Option String) (dst : String)
    (success : Bool) :
    (nvs_get_field ret stored dst success).1 = if ret = ESP_OK then stored.getD dst else dst := by
  cases stored <;> by_cases h : ret = 0 <;> simp [nvs_get_field, h]

/-- When `app_nvs_load_eth_config` reports found, the NVS open succeeded, each of
the five keys is present and was read, and the result holds the stored values. -/
theorem app_nvs_load_found (nv : NvsEnv) (store : NvsEth) (dst : eth_ip_config_t) :
    (app_nvs_load_eth_config nv store dst).2 = true ↔
      nv.open_ret = ESP_OK ∧
      (nv.get_ret "ip" = ESP_OK ∧ nv.get_ret "gateway" = ESP_OK ∧
        nv.get_ret "netmask" = ESP_OK ∧ nv.get_ret "dns" = ESP_OK ∧
        nv.get_ret "dhcp" = ESP_OK) ∧
      ∃ v, store = { ip := some (app_nvs_load_eth_config nv store dst).1.ip
                     gateway := some (app_nvs_load_eth_config nv store dst).1.gateway
                     netmask := some (app_nvs_load_eth_config nv store dst).1.netmask
                     dns := some (app_nvs_load_eth_config nv store dst).1.dns
                     dhcp := some v } ∧
        (app_nvs_load_eth_config nv store dst).1.dhcp_enabled = decide (v = 1) := by
  obtain ⟨ip, gw, nm, dns, dh⟩ := store
  unfold app_nvs_load_eth_config
  simp only [nvs_get_field_snd, nvs_get_field_fst]
  by_cases h0 : nv.open_ret = 0
  · by_cases h5 : nv.get_ret "dhcp" = 0
    · by_cases h1 : nv.get_ret "ip" = 0
      · by_cases h2 : nv.get_ret "gateway" = 0
        · by_cases h3 : nv.get_ret "netmask" = 0
          · by_cases h4 : nv.get_ret "dns" = 0
            · cases ip <;> cases gw <;> cases nm <;> cases dns <;> cases dh <;>
              simp [h0, h1, h2, h3, h4, h5]
            · cases dh <;> simp [h0, h4, h5]
          · cases dh <;> simp [h0, h3, h5]
        · cases dh <;> simp [h0, h2, h5]
      · cases dh <;> simp [h0, h1, h5]
    · cases dh <;> simp [h0, h5]
  · simp [h0]

theorem ethernet_app_task_start_config (se : StartEnv) (s : State) :
    (ethernet_app_task_start se s).1.s_eth_ip_config
      = if se.esp_event_handler_register_ret = ESP_OK ∧ se.xTimerCreate_ok = true ∧
          (app_nvs_load_eth_config se.env.nvs s.nvs se.loaded_config).2 = true
        then (app_nvs_load_eth_config se.env.nvs s.nvs se.loaded_config).1
        else s.s_eth_ip_config := by
  unfold ethernet_app_task_start
  by_cases h1 : se.esp_event_handler_register_ret = 0
  · cases h2 : se.xTimerCreate_ok
    · simp [h1]
    · cases h3 : (app_nvs_load_eth_config se.env.nvs s.nvs se.loaded_config).2 <;>
      cases h4 : se.eth_init_w5500_ok <;>
      by_cases h5 : se.esp_netif_attach_ret = 0 <;>
      by_cases h6 : se.esp_eth_start_ret = 0 <;>
      by_cases h7 : se.env.esp_netif_set_ip_info_ret = 0 <;>
      cases h8 : s.s_eth_ip_config.dhcp_enabled <;>
      cases h9 : (app_nvs_load_eth_config se.env.nvs s.nvs se.loaded_config).1.dhcp_enabled <;>
      simp [h1, h3, h4, h5, h6, h7, h8, h9, configure_static_ip, ethernet_app_send_message]
  · simp [h1]

/-- C23: when `ethernet_app_task` starts, the configuration is the static
initialiser (192.168.0.101, 192.168.0.1, 255.255.255.0, 8.8.8.8, DHCP).  After
the start-up code, whatever the uninitialised local `loaded_config` held: when
the load reports not found the manager's configuration is exactly those
defaults; when it reports found (and the task got as far as the load) the
configuration is the loaded one, and found means that the namespace could be
opened and each of the five keys was present and read, the loaded fields being
the stored ones. -/
theorem C23_start_configuration (se : StartEnv) (nvs : NvsEth) (http : HttpServer)
    (cb : Bool) :
    (task_entry_state nvs http cb).s_eth_ip_config
      = ⟨"192.168.0.101", "192.168.0.1", "255.255.255.0", "8.8.8.8", true⟩ ∧
    ((app_nvs_load_eth_config se.env.nvs nvs se.loaded_config).2 = false →
      (ethernet_app_get_ip_config
        (ethernet_app_task_start se (task_entry_state nvs http cb)).1).1
        = s_eth_ip_config_init) ∧
    ((app_nvs_load_eth_config se.env.nvs nvs se.loaded_config).2 = true →
      se.esp_event_handler_register_ret = ESP_OK → se.xTimerCreate_ok = true →
      (ethernet_app_get_ip_config
        (ethernet_app_task_start se (task_entry_state nvs http cb)).1).1
        = (app_nvs_load_eth_config se.env.nvs nvs se.loaded_config).1) ∧
    ((app_nvs_load_eth_config se.env.nvs nvs se.loaded_config).2 = true ↔
      se.env.nvs.open_ret = ESP_OK ∧
      (se.env.nvs.get_ret "ip" = ESP_OK ∧ se.env.nvs.get_ret "gateway" = ESP_OK ∧
        se.env.nvs.get_ret "netmask" = ESP_OK ∧ se.env.nvs.get_ret "dns" = ESP_OK ∧
        se.env.nvs.get_ret "dhcp" = ESP_OK) ∧
      ∃ v, nvs = { ip := some (app_nvs_load_eth_config se.env.nvs nvs se.loaded_config).1.ip
                   gateway :=
                     some (app_nvs_load_eth_config se.env.nvs nvs se.loaded_config).1.gateway
                   netmask :=
                     some (app_nvs_load_eth_config se.env.nvs nvs se.loaded_config).1.netmask
                   dns := some (app_nvs_load_eth_config se.env.nvs nvs se.loaded_config).1.dns
                   dhcp := some v } ∧
        (app_nvs_load_eth_config se.env.nvs nvs se.loaded_config).1.dhcp_enabled
          = decide (v = 1)) := by
  refine ⟨rfl, ?_, ?_, app_nvs_load_found _ _ _⟩
  · intro hl
    show (ethernet_app_task_start se (task_entry_state nvs http cb)).1.s_eth_ip_config = _
    rw [ethernet_app_task_start_config]
    have : (task_entry_state nvs http cb).nvs = nvs := rfl
    rw [this, hl]
    simp [task_entry_state]
  · intro hl h1 h2
    show (ethernet_app_task_start se (task_entry_state nvs http cb)).1.s_eth_ip_config = _
    rw [ethernet_app_task_start_config]
    have : (task_entry_state nvs http cb).nvs = nvs := rfl
    rw [this, if_pos ⟨h1, h2, hl⟩]

/-- C23 at a concrete input: a namespace in which only the address was stored
leaves the defaults in force, although the local was filled with that address. -/
theorem C23_start_configuration_witness :
    (app_nvs_load_eth_config Env.ok.nvs ⟨some "10.0.0.5", none, none, none, none⟩
      cfg_static_B).2 = false ∧
    (ethernet_app_get_ip_config
      (ethernet_app_task_start ⟨Env.ok, ESP_OK, true, true, ESP_OK, ESP_OK, cfg_static_B⟩
        (task_entry_state ⟨some "10.0.0.5", none, none, none, none⟩ http_ready true)).1).1
      = s_eth_ip_config_init :=
  ⟨by decide,
    (C23_start_configuration ⟨Env.ok, ESP_OK, true, true, ESP_OK, ESP_OK, cfg_static_B⟩
      ⟨some "10.0.0.5", none, none, none, none⟩ http_ready true).2.1 (by decide)⟩

theorem last_set_nil (f : http_server_message_e → Option Nat) (init : Nat) :
    last_set f init [] = init := rfl

theorem last_set_cons (f : http_server_message_e → Option Nat) (init : Nat)
    (m : http_server_message_e) (ms : List http_server_message_e) :
    last_set f init (m :: ms) = last_set f ((f m).getD init) ms := by
  unfold last_set
  rw [List.reverse_cons, List.findSome?_append]
  cases h : ms.reverse.findSome? f <;> cases hm : f m <;> simp [List.findSome?, hm]

theorem http_server_monitor_fields (m : http_server_message_e) (h : HttpServer) :
    (http_server_monitor m h).g_wifi_connect_status
      = (wifi_phase_of m).getD h.g_wifi_connect_status ∧
    (http_server_monitor m h).g_eth_connect_status
      = (eth_phase_of m).getD h.g_eth_connect_status ∧
    (http_server_monitor m h).g_fw_update_status
      = (update_outcome_of m).getD h.g_fw_update_status ∧
    (http_server_monitor m h).g_is_local_time_set
      = (h.g_is_local_time_set || decide (m = HTTP_MSG_TIME_SERVICE_INITIALIZED)) ∧
    (http_server_monitor m h).http_server_monitor_queue_handle
      = h.http_server_monitor_queue_handle ∧
    (http_server_monitor m h).monitor_received = h.monitor_received := by
  cases m <;>
  simp [http_server_monitor, http_server_fw_update_reset_timer, wifi_phase_of, eth_phase_of,
    update_outcome_of]

theorem http_server_monitor_run_fields (msgs : List http_server_message_e) :
    ∀ h : HttpServer,
      (http_server_monitor_run msgs h).g_wifi_connect_status
        = last_set wifi_phase_of h.g_wifi_connect_status msgs ∧
      (http_server_monitor_run msgs h).g_eth_connect_status
        = last_set eth_phase_of h.g_eth_connect_status msgs ∧
      (http_server_monitor_run msgs h).g_fw_update_status
        = last_set update_outcome_of h.g_fw_update_status msgs ∧
      (http_server_monitor_run msgs h).g_is_local_time_set
        = (h.g_is_local_time_set || decide (HTTP_MSG_TIME_SERVICE_INITIALIZED ∈ msgs)) := by
  induction msgs with
  | nil => intro h; simp [http_server_monitor_run, last_set_nil]
  | cons m ms ih =>
      intro h
      obtain ⟨h1, h2, h3, h4, _, _⟩ := http_server_monitor_fields m h
      obtain ⟨i1, i2, i3, i4⟩ := ih (http_server_monitor m h)
      have hrun : http_server_monitor_run (m :: ms) h
          = http_server_monitor_run ms (http_server_monitor m h) := rfl
      rw [hrun, i1, i2, i3, i4, h1, h2, h3, h4]
      refine ⟨(last_set_cons _ _ _ _).symm, (last_set_cons _ _ _ _).symm,
        (last_set_cons _ _ _ _).symm, ?_⟩
      cases h.g_is_local_time_set <;> cases m <;> simp [eq_comm]

theorem http_server_monitor_received (m : http_server_message_e) (h : HttpServer)
    (x : List http_server_message_e) :
    http_server_monitor m { h with monitor_received := x }
      = { http_server_monitor m h with monitor_received := x } := by
  cases m <;> simp [http_server_monitor, http_server_fw_update_reset_timer]

theorem http_server_monitor_send_all_eq (msgs : List http_server_message_e) :
    ∀ h : HttpServer, h.http_server_monitor_queue_handle = true →
      http_server_monitor_send_all msgs h
        = { http_server_monitor_run msgs h with
            monitor_received := h.monitor_received ++ msgs } := by
  induction msgs with
  | nil => intro h _; simp [http_server_monitor_send_all, http_server_monitor_run]
  | cons m ms ih =>
      intro h hq
      have hs : http_server_monitor_send_all (m :: ms) h
          = http_server_monitor_send_all ms (http_server_monitor_send_message m h) := rfl
      have hr : http_server_monitor_run (m :: ms) h
          = http_server_monitor_run ms (http_server_monitor m h) := rfl
      have hsend : http_server_monitor_send_message m h
          = { http_server_monitor m h with monitor_received := h.monitor_received ++ [m] } := by
        unfold http_server_monitor_send_message
        rw [if_pos hq, http_server_monitor_received]
      obtain ⟨_, _, _, _, h5, h6⟩ := http_server_monitor_fields m h
      have hq1 : (http_server_monitor_send_message m h).http_server_monitor_queue_handle
          = true := by
        rw [hsend]; exact h5.trans hq
      rw [hs, ih _ hq1, hr, hsend]
      have hrun : ∀ (l : List http_server_message_e) (st : HttpServer)
          (x : List http_server_message_e),
          http_server_monitor_run l { st with monitor_received := x }
            = { http_server_monitor_run l st with monitor_received := x } := by
        intro l
        induction l with
        | nil => intro st x; rfl
        | cons a as iha =>
            intro st x
            show http_server_monitor_run as (http_server_monitor a { st with monitor_received := x })
              = { http_server_monitor_run as (http_server_monitor a st) with
                  monitor_received := x }
            rw [http_server_monitor_received, iha]
      rw [hrun]
      simp

/-- C24: for every finite sequence of status events, the snapshot the monitor
reaches from the initial one (both phases NONE, update outcome pending, time
not set) by applying the events in arrival order has, for each bearer, the
phase set by the last event of that bearer (NONE when there is none), the update
outcome set by the last update event (pending when there is none), and the time
flag set exactly when a time-service event occurred.  The run over a sequence
is the run over its first part followed by the run over the rest; sending the
events through the monitor queue gives the same snapshot; every event belongs
to exactly one of the four fields and leaves the three others as they were. -/
theorem C24_snapshot_is_fold (msgs : List http_server_message_e) :
    (http_server_monitor_run msgs http_ready).g_wifi_connect_status
      = last_set wifi_phase_of NONE msgs ∧
    (http_server_monitor_run msgs http_ready).g_eth_connect_status
      = last_set eth_phase_of HTTP_ETH_STATUS_NONE msgs ∧
    (http_server_monitor_run msgs http_ready).g_fw_update_status
      = last_set update_outcome_of OTA_UPDATE_PENDING msgs ∧
    (http_server_monitor_run msgs http_ready).g_is_local_time_set
      = decide (HTTP_MSG_TIME_SERVICE_INITIALIZED ∈ msgs) ∧
    (∀ (first rest : List http_server_message_e) (h : HttpServer),
      http_server_monitor_run (first ++ rest) h
        = http_server_monitor_run rest (http_server_monitor_run first h)) ∧
    http_server_monitor_send_all msgs http_ready
      = { http_server_monitor_run msgs http_ready with monitor_received := msgs } ∧
    (∀ (m : http_server_message_e) (h : HttpServer),
      (wifi_phase_of m = none →
        (http_server_monitor m h).g_wifi_connect_status = h.g_wifi_connect_status) ∧
      (eth_phase_of m = none →
        (http_server_monitor m h).g_eth_connect_status = h.g_eth_connect_status) ∧
      (update_outcome_of m = none →
        (http_server_monitor m h).g_fw_update_status = h.g_fw_update_status) ∧
      (m ≠ HTTP_MSG_TIME_SERVICE_INITIALIZED →
        (http_server_monitor m h).g_is_local_time_set = h.g_is_local_time_set)) ∧
    (∀ m : http_server_message_e,
      ((wifi_phase_of m).isSome = true ∧ eth_phase_of m = none ∧ update_outcome_of m = none ∧
          m ≠ HTTP_MSG_TIME_SERVICE_INITIALIZED) ∨
      (wifi_phase_of m = none ∧ (eth_phase_of m).isSome = true ∧ update_outcome_of m = none ∧
          m ≠ HTTP_MSG_TIME_SERVICE_INITIALIZED) ∨
      (wifi_phase_of m = none ∧ eth_phase_of m = none ∧ (update_outcome_of m).isSome = true ∧
          m ≠ HTTP_MSG_TIME_SERVICE_INITIALIZED) ∨
      (wifi_phase_of m = none ∧ eth_phase_of m = none ∧ update_outcome_of m = none ∧
          m = HTTP_MSG_TIME_SERVICE_INITIALIZED)) := by
  obtain ⟨h1, h2, h3, h4⟩ := http_server_monitor_run_fields msgs http_ready
  refine ⟨h1, h2, h3, ?_, ?_, ?_, ?_, ?_⟩
  · rw [h4]
    simp [http_ready, http_server_configure, HttpServer.static_init]
  · intro first rest h
    simp [http_server_monitor_run, List.foldl_append]
  · rw [http_server_monitor_send_all_eq msgs http_ready rfl]
    simp [http_ready, http_server_configure, HttpServer.static_init]
  · intro m h
    obtain ⟨k1, k2, k3, k4, _, _⟩ := http_server_monitor_fields m h
    refine ⟨fun hn => ?_, fun hn => ?_, fun hn => ?_, fun hn => ?_⟩
    · rw [k1, hn]; rfl
    · rw [k2, hn]; rfl
    · rw [k3, hn]; rfl
    · rw [k4]; simp [hn]
  · intro m
    cases m <;> simp [wifi_phase_of, eth_phase_of, update_outcome_of]

/-- C24 at a concrete sequence: link-up, failed update, address obtained. -/
theorem C24_snapshot_is_fold_witness :
    (http_server_monitor_run
      [HTTP_MSG_ETH_CONNECT_INIT, HTTP_MSG_OTA_UPDATE_FAILED, HTTP_MSG_ETH_CONNECT_SUCCESS]
      http_ready).g_eth_connect_status
      = last_set eth_phase_of HTTP_ETH_STATUS_NONE
          [HTTP_MSG_ETH_CONNECT_INIT, HTTP_MSG_OTA_UPDATE_FAILED, HTTP_MSG_ETH_CONNECT_SUCCESS] ∧
    last_set eth_phase_of HTTP_ETH_STATUS_NONE
      [HTTP_MSG_ETH_CONNECT_INIT, HTTP_MSG_OTA_UPDATE_FAILED, HTTP_MSG_ETH_CONNECT_SUCCESS]
      = HTTP_ETH_STATUS_CONNECT_SUCCESS ∧
    last_set update_outcome_of OTA_UPDATE_PENDING
      [HTTP_MSG_ETH_CONNECT_INIT, HTTP_MSG_OTA_UPDATE_FAILED, HTTP_MSG_ETH_CONNECT_SUCCESS]
      = OTA_UPDATE_FAILED :=
  ⟨(C24_snapshot_is_fold
      [HTTP_MSG_ETH_CONNECT_INIT, HTTP_MSG_OTA_UPDATE_FAILED,
        HTTP_MSG_ETH_CONNECT_SUCCESS]).2.1,
    by decide, by decide⟩

/-! ## Theorems: fallback and address acquisition -/

/-- C25 refuted as stated: when the interface rejects the static settings, the
DHCP time-out handled to the end leaves the static marker clear and the manager
unbound, runs no connected callback and sends no status event (the monitor has
only the ConnectInit of the link-up); the link flag is still set. -/
theorem C25_counterexample :
    env_set_ip_fails.esp_netif_set_ip_info_ret ≠ ESP_OK ∧
    (run_reacting start_default
      history_fallback_fails).event_group.ETH_USING_STATIC_IP_BIT = false ∧
    ¬ Bound (run_reacting start_default history_fallback_fails) ∧
    (run_reacting start_default history_fallback_fails).callback_calls = 0 ∧
    (run_reacting start_default history_fallback_fails).http.monitor_received
      = [HTTP_MSG_ETH_CONNECT_INIT] ∧
    (run_reacting start_default history_fallback_fails).event_group.ETH_CONNECTED_BIT
      = true := by
  decide

/-- C25 as amended: DhcpTimeout handled to the end (empty mailbox, no pending
event) never touches the link flag, the driver handle or the stored and
persisted configuration, so the link is not aborted.  The marker and the
notifications need the interface call to succeed.  When the interface accepts
the address, the static marker is set, the interface carries the stored static
settings and the connected notification is delivered (the registered callback
runs once, and once more for the notification of the address event when the
stack posts it), and when the stack posts the address event for the applied
address and the monitor is running, ConnectSuccess is sent and the Ethernet
phase is Success.  When the interface rejects the address, the only changes are that the
DHCP client is stopped and the timer is dormant: the marker is not set, nothing
is notified and no status message is sent. -/
theorem C25_fallback_outcome (env : Env) (s : State)
    (hq : s.ethernet_app_queue = []) (hp : s.posted = []) :
    ((react env s Event.DhcpTimeout).event_group.ETH_CONNECTED_BIT
        = s.event_group.ETH_CONNECTED_BIT ∧
      (react env s Event.DhcpTimeout).s_eth_handle = s.s_eth_handle ∧
      (react env s Event.DhcpTimeout).s_eth_ip_config = s.s_eth_ip_config ∧
      (react env s Event.DhcpTimeout).nvs = s.nvs) ∧
    (env.esp_netif_set_ip_info_ret = ESP_OK →
      (react env s Event.DhcpTimeout).event_group.ETH_USING_STATIC_IP_BIT = true ∧
      (react env s Event.DhcpTimeout).esp_netif_eth.ip_info
        = static_ip_info env s.s_eth_ip_config ∧
      (react env s Event.DhcpTimeout).callback_calls
        = s.callback_calls +
            (if s.ethernet_connected_event_cb then
              (if env.got_ip_event_posted then 2 else 1) else 0) ∧
      (env.got_ip_event_posted = true → s.http.http_server_monitor_queue_handle = true →
        (react env s Event.DhcpTimeout).http.monitor_received
          = s.http.monitor_received ++ [HTTP_MSG_ETH_CONNECT_SUCCESS] ∧
        (react env s Event.DhcpTimeout).http.g_eth_connect_status
          = HTTP_ETH_STATUS_CONNECT_SUCCESS)) ∧
    (env.esp_netif_set_ip_info_ret ≠ ESP_OK →
      react env s Event.DhcpTimeout
        = { s with
            s_dhcp_timer := s.s_dhcp_timer.map (fun _ => false)
            esp_netif_eth := { s.esp_netif_eth with dhcpc_started := false } }) := by
  by_cases hr : env.esp_netif_set_ip_info_ret = 0
  · have hr2 : ¬ (env.esp_netif_set_ip_info_ret ≠ ESP_OK) := fun h => h hr
    rcases ht : s.s_dhcp_timer with _ | t <;> cases hcb : s.ethernet_connected_event_cb <;>
    cases hpo : env.got_ip_event_posted <;>
    cases hm : s.http.http_server_monitor_queue_handle <;>
    simp [react, dispatch_posted, process, deliver, ethernet_app_event_handler, send_http,
      http_server_monitor_send_message, http_server_monitor, dhcp_timeout_callback,
      ethernet_app_send_message, ethernet_app_task_run, ethernet_app_task_step,
      configure_static_ip, ethernet_app_call_callback, static_ip_info,
      hq, hp, hr, ht, hcb, hpo, hm]
  · have hr2 : ¬ (env.esp_netif_set_ip_info_ret = ESP_OK) := hr
    rcases ht : s.s_dhcp_timer with _ | t <;>
    simp [react, dispatch_posted, process, deliver, dhcp_timeout_callback,
      ethernet_app_send_message, ethernet_app_task_run, ethernet_app_task_step,
      configure_static_ip, hq, hp, hr, ht]

/-- C25 amended, at the rejected fallback after a link-up. -/
theorem C25_fallback_outcome_witness :
    (react Env.ok start_default Event.LinkUp).ethernet_app_queue = [] ∧
    (react Env.ok start_default Event.LinkUp).posted = [] ∧
    env_set_ip_fails.esp_netif_set_ip_info_ret ≠ ESP_OK ∧
    react env_set_ip_fails (react Env.ok start_default Event.LinkUp) Event.DhcpTimeout
      = { react Env.ok start_default Event.LinkUp with
          s_dhcp_timer := (react Env.ok start_default Event.LinkUp).s_dhcp_timer.map
            (fun _ => false)
          esp_netif_eth :=
            { (react Env.ok start_default Event.LinkUp).esp_netif_eth with
              dhcpc_started := false } } :=
  ⟨by decide, by decide, by decide,
    (C25_fallback_outcome env_set_ip_fails (react Env.ok start_default Event.LinkUp)
      (by decide) (by decide)).2.2 (by decide)⟩

/-- C26: when AddressAcquired(address, gateway, netmask) is processed while the
manager is acquiring (link up, no address, static marker clear; empty mailbox,
monitor running), the DHCP timer is not active afterwards, the address, gateway
and netmask of the configuration in force are the acquired values with the DNS
server and the addressing mode unchanged, the NVS namespace and the interface
settings are untouched, the static marker is clear and the got-ip flag set
(Bound, Dynamic), and ConnectSuccess is sent to the monitor, whose Ethernet
phase becomes Success. -/
theorem C26_address_acquired (env : Env) (s : State) (a g m : esp_ip4_addr_t)
    (hq : s.ethernet_app_queue = []) (hacq : AcquiringAddress s)
    (hmon : s.http.http_server_monitor_queue_handle = true) :
    (process env s (Event.AddressAcquired a g m)).s_dhcp_timer
      = s.s_dhcp_timer.map (fun _ => false) ∧
    (process env s (Event.AddressAcquired a g m)).s_dhcp_timer ≠ some true ∧
    (process env s (Event.AddressAcquired a g m)).s_eth_ip_config
      = { ip := ip4_str a, gateway := ip4_str g, netmask := ip4_str m
          dns := s.s_eth_ip_config.dns, dhcp_enabled := s.s_eth_ip_config.dhcp_enabled } ∧
    (process env s (Event.AddressAcquired a g m)).nvs = s.nvs ∧
    (process env s (Event.AddressAcquired a g m)).esp_netif_eth = s.esp_netif_eth ∧
    BoundDynamic (process env s (Event.AddressAcquired a g m)) ∧
    (process env s (Event.AddressAcquired a g m)).http.monitor_received
      = s.http.monitor_received ++ [HTTP_MSG_ETH_CONNECT_SUCCESS] ∧
    (process env s (Event.AddressAcquired a g m)).http.g_eth_connect_status
      = HTTP_ETH_STATUS_CONNECT_SUCCESS := by
  obtain ⟨hconn, hgot, hst⟩ := hacq
  rcases ht : s.s_dhcp_timer with _ | _ | _ <;> cases hcb : s.ethernet_connected_event_cb <;>
  simp [process, deliver, ethernet_app_event_handler, send_http,
    http_server_monitor_send_message, http_server_monitor, ethernet_app_send_message,
    ethernet_app_task_run, ethernet_app_task_step, ethernet_app_call_callback, BoundDynamic,
    hq, hconn, hgot, hst, hmon, ht, hcb]

/-- C26 at a concrete input: the lease 10.1.2.3 arriving after a link-up. -/
theorem C26_address_acquired_witness :
    (process Env.ok start_default Event.LinkUp).ethernet_app_queue = [] ∧
    AcquiringAddress (process Env.ok start_default Event.LinkUp) ∧
    (process Env.ok (process Env.ok start_default Event.LinkUp)
      (Event.AddressAcquired ⟨10, 1, 2, 3⟩ ⟨10, 1, 2, 1⟩ ⟨255, 255, 0, 0⟩)).s_eth_ip_config
      = { ip := "10.1.2.3", gateway := "10.1.2.1", netmask := "255.255.0.0"
          dns := "8.8.8.8", dhcp_enabled := true } ∧
    (process Env.ok (process Env.ok start_default Event.LinkUp)
      (Event.AddressAcquired ⟨10, 1, 2, 3⟩ ⟨10, 1, 2, 1⟩ ⟨255, 255, 0, 0⟩)).s_dhcp_timer
      ≠ some true :=
  ⟨by decide, by decide,
    (C26_address_acquired Env.ok (process Env.ok start_default Event.LinkUp) ⟨10, 1, 2, 3⟩
      ⟨10, 1, 2, 1⟩ ⟨255, 255, 0, 0⟩ (by decide) (by decide) (by decide)).2.2.1,
    (C26_address_acquired Env.ok (process Env.ok start_default Event.LinkUp) ⟨10, 1, 2, 3⟩
      ⟨10, 1, 2, 1⟩ ⟨255, 255, 0, 0⟩ (by decide) (by decide) (by decide)).2.1⟩

/-- C27 refuted as stated: after static fallback has bound (scenario A, static
marker set), the late lease 10.1.2.3 does not overwrite the stored address,
gateway and netmask: they are still the ones the fallback applied. -/
theorem C27_counterexample :
    (run start_default history_A).event_group.ETH_USING_STATIC_IP_BIT = true ∧
    (run start_default history_late_lease).s_eth_ip_config
      = (run start_default history_A).s_eth_ip_config ∧
    (run start_default history_late_lease).s_eth_ip_config
      = ⟨"192.168.0.101", "192.168.0.1", "255.255.255.0", "8.8.8.8", true⟩ ∧
    (run start_default history_late_lease).s_eth_ip_config.ip ≠ ip4_str ⟨10, 1, 2, 3⟩ := by
  decide

/-- C27 as amended: the source guards the overwrite with the static marker.  The
handler of `IP_EVENT_ETH_GOT_IP` leaves the stored configuration untouched when
the marker is set, and writes the acquired address, gateway and netmask (DNS
and mode kept) only when it is clear; `configure_static_ip` sets the marker
whenever it succeeds.  Hence an AddressAcquired processed while the marker is
set (empty mailbox) leaves the stored and the persisted configuration as they
were. -/
theorem C27_late_acquisition_guarded (env : Env) (s : State) (event : ip_event_got_ip_t) :
    (s.event_group.ETH_USING_STATIC_IP_BIT = true →
      (ethernet_app_event_handler env (IP_EVENT_ETH_GOT_IP event) s).s_eth_ip_config
        = s.s_eth_ip_config) ∧
    (s.event_group.ETH_USING_STATIC_IP_BIT = false →
      (ethernet_app_event_handler env (IP_EVENT_ETH_GOT_IP event) s).s_eth_ip_config
        = { ip := ip4_str event.ip, gateway := ip4_str event.gw
            netmask := ip4_str event.netmask
            dns := s.s_eth_ip_config.dns
            dhcp_enabled := s.s_eth_ip_config.dhcp_enabled }) ∧
    ((configure_static_ip env s).2 = ESP_OK →
      (configure_static_ip env s).1.event_group.ETH_USING_STATIC_IP_BIT = true) ∧
    (s.event_group.ETH_USING_STATIC_IP_BIT = true → s.ethernet_app_queue = [] →
      (process env s (Event.AddressAcquired event.ip event.gw event.netmask)).s_eth_ip_config
        = s.s_eth_ip_config ∧
      (process env s (Event.AddressAcquired event.ip event.gw event.netmask)).nvs = s.nvs) := by
  refine ⟨?_, ?_, ?_, ?_⟩
  · intro hst
    rcases ht : s.s_dhcp_timer with _ | _ | _ <;>
    simp [ethernet_app_event_handler, send_http, ethernet_app_send_message, hst, ht]
  · intro hst
    rcases ht : s.s_dhcp_timer with _ | _ | _ <;>
    simp [ethernet_app_event_handler, send_http, ethernet_app_send_message, hst, ht]
  · by_cases hr : env.esp_netif_set_ip_info_ret = 0 <;>
    simp [configure_static_ip, ethernet_app_send_message, hr]
  · intro hst hq
    rcases ht : s.s_dhcp_timer with _ | _ | _ <;> cases hcb : s.ethernet_connected_event_cb <;>
    simp [process, deliver, ethernet_app_event_handler, send_http, ethernet_app_send_message,
      ethernet_app_task_run, ethernet_app_task_step, ethernet_app_call_callback,
      hq, hst, ht, hcb]

/-- C27 amended, at scenario A followed by the late lease. -/
theorem C27_late_acquisition_guarded_witness :
    (run start_default history_A).event_group.ETH_USING_STATIC_IP_BIT = true ∧
    (ethernet_app_event_handler Env.ok
      (IP_EVENT_ETH_GOT_IP ⟨⟨10, 1, 2, 3⟩, ⟨255, 255, 0, 0⟩, ⟨10, 1, 2, 1⟩⟩)
      (run start_default history_A)).s_eth_ip_config
      = (run start_default history_A).s_eth_ip_config :=
  ⟨by decide,
    (C27_late_acquisition_guarded Env.ok (run start_default history_A)
      ⟨⟨10, 1, 2, 3⟩, ⟨255, 255, 0, 0⟩, ⟨10, 1, 2, 1⟩⟩).1 (by decide)⟩

/-! ## Theorems: the receive loop -/

theorem ota_loop_cond_locals (cl : Int) (l : OtaLocals) : (ota_loop_cond cl l).locals = l := by
  unfold ota_loop_cond
  split_ifs <;> rfl

theorem ota_loop_cond_next (cl : Int) (l l1 : OtaLocals)
    (h : ota_loop_cond cl l = OtaStep.next l1) :
    l1 = l ∧ 0 < l.recv_len ∧ l.content_received < cl := by
  unfold ota_loop_cond at h
  split_ifs at h with hc
  · simp only [OtaStep.next.injEq] at h
    exact ⟨h.symm, hc.1, hc.2⟩

/-- A pass of the loop makes exactly one read; when the loop goes on, that read
returned a positive value and the count is below the declared length. -/
theorem ota_loop_body_pass (env : OtaEnv) (cl : Int) (l : OtaLocals) :
    (ota_loop_body env cl l).locals.reads = l.reads + 1 ∧
    (ota_loop_body env cl l).locals.recv_len
      = (httpd_req_recv (env.recv l.reads) l.ota_buff (MIN_content_length_sizeof cl)).2 ∧
    (∀ l1, ota_loop_body env cl l = OtaStep.next l1 →
      0 < l1.recv_len ∧ l1.content_received < cl ∧ l1.reads = l.reads + 1 ∧
      l1.recv_len
        = (httpd_req_recv (env.recv l.reads) l.ota_buff (MIN_content_length_sizeof cl)).2) := by
  obtain ⟨buf, cr, rl, st, reads, flash⟩ := l
  unfold ota_loop_body
  dsimp only
  generalize httpd_req_recv (env.recv reads) buf (MIN_content_length_sizeof cl) = r
  by_cases ht : r.2 < 0 ∧ r.2 = HTTPD_SOCK_ERR_TIMEOUT
  · rw [if_pos ht]
    refine ⟨by rw [ota_loop_cond_locals], by rw [ota_loop_cond_locals], ?_⟩
    intro l1 h
    obtain ⟨h1, h2, h3⟩ := ota_loop_cond_next _ _ _ h
    subst h1
    exact ⟨h2, h3, rfl, rfl⟩
  · rw [if_neg ht]
    cases st with
    | true =>
        simp only [Bool.not_true, Bool.false_eq_true, if_false]
        refine ⟨by rw [ota_loop_cond_locals], by rw [ota_loop_cond_locals], ?_⟩
        intro l1 h
        obtain ⟨h1, h2, h3⟩ := ota_loop_cond_next _ _ _ h
        subst h1
        exact ⟨h2, h3, rfl, rfl⟩
    | false =>
        simp only [Bool.not_false, if_true]
        cases hk : strstr r.1 CRLFCRLF with
        | none =>
            simp only
            exact ⟨rfl, rfl, fun l1 h => by simp at h⟩
        | some k =>
            simp only
            by_cases hb : env.esp_ota_begin_ret = ESP_OK
            · have hb2 : ¬ (env.esp_ota_begin_ret ≠ ESP_OK) := fun h => h hb
              rw [if_neg hb2]
              refine ⟨by rw [ota_loop_cond_locals], by rw [ota_loop_cond_locals], ?_⟩
              intro l1 h
              obtain ⟨h1, h2, h3⟩ := ota_loop_cond_next _ _ _ h
              subst h1
              exact ⟨h2, h3, rfl, rfl⟩
            · have hb2 : env.esp_ota_begin_ret ≠ ESP_OK := hb
              rw [if_pos hb2]
              exact ⟨rfl, rfl, fun l1 h => by simp at h⟩

/-- Once the loop has ended, more fuel gives the same result. -/
theorem ota_loop_fuel_mono (env : OtaEnv) (cl : Int) :
    ∀ (fuel : Nat) (l : OtaLocals) (st : OtaStep), ota_loop fuel env cl l = st →
      (∀ l1, st ≠ OtaStep.next l1) → ∀ extra, ota_loop (fuel + extra) env cl l = st := by
  intro fuel
  induction fuel with
  | zero =>
      intro l st h hn
      simp only [ota_loop] at h
      exact absurd h.symm (hn l)
  | succ n ih =>
      intro l st h hn extra
      have he : n + 1 + extra = (n + extra) + 1 := by omega
      rw [he]
      rw [ota_loop] at h ⊢
      cases hb : ota_loop_body env cl l with
      | next l1 =>
          rw [hb] at h
          simp only at h ⊢
          exact ih l1 st h hn extra
      | exit l1 => rw [hb] at h; exact h
      | begin_failed l1 => rw [hb] at h; exact h
      | undefined l1 => rw [hb] at h; exact h

/-- From a pass after the first, the loop ends after at most
`max 1 (content_length - content_received)` further reads. -/
theorem ota_loop_started_reads (env : OtaEnv) (cl : Int) :
    ∀ (fuel : Nat) (l : OtaLocals), l.is_req_body_started = true →
      (cl - l.content_received).toNat ≤ fuel →
      ∃ l1, ota_loop (fuel + 1) env cl l = OtaStep.exit l1 ∧
        l1.reads ≤ l.reads + max 1 (cl - l.content_received).toNat := by
  intro fuel
  induction fuel with
  | zero =>
      intro l hs hm
      rcases ota_loop_body_started env cl l hs with ⟨l1, hb, _, _, h1, h2, _⟩ | ⟨l1, hb, _, hr⟩
      · omega
      · refine ⟨l1, by simp [ota_loop, hb], ?_⟩
        rw [hr]
        have := le_max_left 1 (cl - l.content_received).toNat
        omega
  | succ n ih =>
      intro l hs hm
      rcases ota_loop_body_started env cl l hs with
        ⟨l1, hb, hs1, _, h1, h2, hr⟩ | ⟨l1, hb, _, hr⟩
      · obtain ⟨l2, hl2, hr2⟩ := ih l1 hs1 (by omega)
        refine ⟨l2, ?_, ?_⟩
        · rw [ota_loop, hb]
          exact hl2
        · have e1 : max 1 (cl - l1.content_received).toNat = (cl - l1.content_received).toNat :=
            max_eq_right (by omega)
          have e2 : max 1 (cl - l.content_received).toNat = (cl - l.content_received).toNat :=
            max_eq_right (by omega)
          rw [e1] at hr2
          rw [e2]
          omega
      · refine ⟨l1, by simp [ota_loop, hb], ?_⟩
        rw [hr]
        have := le_max_left 1 (cl - l.content_received).toNat
        omega

/-- The receive loop of the handler ends, and the number of reads is bounded. -/
theorem receive_loop_reads (env : OtaEnv) (content_len : Nat) (flash : OtaFlash) :
    (∀ l, receive_loop env content_len flash ≠ OtaStep.next l) ∧
    (receive_loop env content_len flash).locals.reads
      ≤ (int_of_size_t content_len).toNat + 1024 ∧
    ((∀ k, strstr (first_read env content_len).1 CRLFCRLF = some k →
        ((k + 4 : Nat) : Int) ≤ (first_read env content_len).2) →
      (receive_loop env content_len flash).locals.reads
        ≤ (int_of_size_t content_len).toNat + 1) := by
  obtain ⟨hT, hU, hB, hE⟩ := ota_loop_body_first env (int_of_size_t content_len)
    (ota_locals_init env flash) rfl _ (first_read_eq env content_len flash)
  unfold receive_loop
  rw [ota_fuel_eq]
  by_cases ht : (first_read env content_len).2 = HTTPD_SOCK_ERR_TIMEOUT
  · rw [ota_loop, hT ht]
    refine ⟨fun l h => by simp at h, ?_, fun _ => ?_⟩ <;>
    · simp only [OtaStep.locals, ota_locals_init]
      omega
  · cases hk : strstr (first_read env content_len).1 CRLFCRLF with
    | none =>
        rw [ota_loop, hU ht hk]
        refine ⟨fun l h => by simp at h, ?_, fun _ => ?_⟩ <;>
        · simp only [OtaStep.locals, ota_locals_init]
          omega
    | some k =>
        by_cases hb : env.esp_ota_begin_ret = ESP_OK
        · have hklen := strstr_some_le CRLFCRLF _ _ hk
          rw [first_read_length] at hklen
          simp only [CRLFCRLF, sizeof_ota_buff, List.length_cons, List.length_nil] at hklen
          rw [ota_loop, hE ht k hk hb]
          unfold ota_loop_cond
          dsimp only
          split_ifs with hcond
          · dsimp only
            obtain ⟨l2, hl2, hr2⟩ := ota_loop_started_reads env (int_of_size_t content_len)
              ((int_of_size_t content_len).toNat + 1024)
              { ota_locals_init env flash with
                ota_buff := (first_read env content_len).1
                recv_len := (first_read env content_len).2
                reads := (ota_locals_init env flash).reads + 1
                is_req_body_started := true
                flash := esp_ota_write (first_read env content_len).1 (k + 4)
                  ((first_read env content_len).2 - ((k + 4 : Nat) : Int))
                  { (ota_locals_init env flash).flash with
                    calls := (ota_locals_init env flash).flash.calls ++ [ota_call.esp_ota_begin],
                    written := [] }
                content_received := (ota_locals_init env flash).content_received +
                  ((first_read env content_len).2 - ((k + 4 : Nat) : Int)) } rfl (by
                have h1 := hcond.1
                simp only [ota_locals_init] at h1 ⊢
                omega)
            rw [hl2]
            have h1 := hcond.1
            have h2 := hcond.2
            simp only [ota_locals_init] at h1 h2 hr2
            have e2 : max 1 (int_of_size_t content_len -
                (0 + ((first_read env content_len).2 - ((k + 4 : Nat) : Int)))).toNat
                = (int_of_size_t content_len -
                  (0 + ((first_read env content_len).2 - ((k + 4 : Nat) : Int)))).toNat :=
              max_eq_right (by omega)
            rw [e2] at hr2
            refine ⟨fun l h => by simp at h, ?_, fun hin => ?_⟩
            · simp only [OtaStep.locals]
              omega
            · have h3 := hin k rfl
              simp only [OtaStep.locals]
              omega
          · refine ⟨fun l h => by simp at h, ?_, fun _ => ?_⟩ <;>
            · simp only [OtaStep.locals, ota_locals_init]
              omega
        · rw [ota_loop, hB ht k hk hb]
          refine ⟨fun l h => by simp at h, ?_, fun _ => ?_⟩ <;>
          · simp only [OtaStep.locals, ota_locals_init]
            omega

theorem delivered_succ (env : OtaEnv) (cl : Int) (n : Nat) :
    delivered env cl (n + 1)
      = delivered env cl n + recv_count (env.recv n) (MIN_content_length_sizeof cl) := by
  simp [delivered, List.range_succ]

theorem httpd_req_recv_pos (r : Recv) (buf : List Nat) (n : Nat)
    (hneg : ∀ code, r = Recv.error code → code < 0) (h : 0 < (httpd_req_recv r buf n).2) :
    1 ≤ recv_count r n := by
  cases r with
  | data bytes =>
      simp only [httpd_req_recv, recv_count] at h ⊢
      omega
  | error code =>
      have := hneg code rfl
      simp only [httpd_req_recv] at h
      omega

/-- When the reads never deliver more than `N` bytes in total, an ended loop has
made at most `N + 1` reads. -/
theorem ota_loop_delivered (env : OtaEnv) (cl : Int) (N : Nat)
    (hneg : ∀ i code, env.recv i = Recv.error code → code < 0)
    (hN : ∀ n, delivered env cl n ≤ N) :
    ∀ (fuel : Nat) (l : OtaLocals), l.reads ≤ delivered env cl l.reads →
      (∀ l1, ota_loop fuel env cl l ≠ OtaStep.next l1) →
      (ota_loop fuel env cl l).locals.reads ≤ N + 1 := by
  intro fuel
  induction fuel with
  | zero =>
      intro l _ hn
      exact absurd rfl (hn l)
  | succ n ih =>
      intro l hl hn
      obtain ⟨hr, _, hnext⟩ := ota_loop_body_pass env cl l
      rw [ota_loop] at hn ⊢
      cases hb : ota_loop_body env cl l with
      | next l1 =>
          rw [hb] at hn
          simp only at hn ⊢
          obtain ⟨hpos, _, hr1, hlen⟩ := hnext l1 hb
          have hc := httpd_req_recv_pos (env.recv l.reads) l.ota_buff
            (MIN_content_length_sizeof cl) (fun code h => hneg _ code h) (by rw [← hlen]; exact hpos)
          apply ih l1 _ hn
          rw [hr1, delivered_succ]
          omega
      | exit l1 =>
          rw [hb] at hr
          simp only [OtaStep.locals] at hr ⊢
          have := hN l.reads
          omega
      | begin_failed l1 =>
          rw [hb] at hr
          simp only [OtaStep.locals] at hr ⊢
          have := hN l.reads
          omega
      | undefined l1 =>
          rw [hb] at hr
          simp only [OtaStep.locals] at hr ⊢
          have := hN l.reads
          omega

theorem handler_reads (env : OtaEnv) (content_len : Nat) (flash : OtaFlash)
    (http : HttpServer) :
    (http_server_OTA_update_handler env content_len flash http).locals.reads
      = (receive_loop env content_len flash).locals.reads := by
  unfold http_server_OTA_update_handler receive_loop
  dsimp only
  generalize ota_loop (ota_fuel (int_of_size_t content_len)) env (int_of_size_t content_len)
    (ota_locals_init env flash) = st
  cases st with
  | next l => rfl
  | exit l =>
      simp only [OtaStep.locals]
      unfold ota_finish
      split_ifs <;> rfl
  | begin_failed l => rfl
  | undefined l => rfl

/-- C30: for every declared content length and every sequence of read results
the receive loop ends within the handler's bound on passes (more fuel gives the
same result); a pass lets the loop go on only when its read returned a positive
value and the count is below the declared length, and each pass makes one
read.  With the reads `httpd_req_recv` can return (error codes negative, no
more bytes in total than the declared length) the loop makes at most
content_length + 1 reads; the same bound holds whenever the header terminator
`strstr` finds lies inside the bytes of the first read, and without either
assumption the bound is content_length + 1024. -/
theorem C30_receive_loop_terminates (env : OtaEnv) (content_len : Nat) (flash : OtaFlash) :
    (∀ l, receive_loop env content_len flash ≠ OtaStep.next l) ∧
    (∀ extra,
      ota_loop (ota_fuel (int_of_size_t content_len) + extra) env (int_of_size_t content_len)
        (ota_locals_init env flash) = receive_loop env content_len flash) ∧
    (∀ l l1, ota_loop_body env (int_of_size_t content_len) l = OtaStep.next l1 →
      0 < l1.recv_len ∧ l1.content_received < int_of_size_t content_len ∧
      l1.reads = l.reads + 1) ∧
    (receive_loop env content_len flash).locals.reads
      ≤ (int_of_size_t content_len).toNat + 1024 ∧
    ((∀ k, strstr (first_read env content_len).1 CRLFCRLF = some k →
        ((k + 4 : Nat) : Int) ≤ (first_read env content_len).2) →
      (receive_loop env content_len flash).locals.reads
        ≤ (int_of_size_t content_len).toNat + 1) ∧
    ((∀ i code, env.recv i = Recv.error code → code < 0) →
      (∀ n, delivered env (int_of_size_t content_len) n ≤ content_len) →
      (receive_loop env content_len flash).locals.reads ≤ content_len + 1) ∧
    (∀ http, (http_server_OTA_update_handler env content_len flash http).locals.reads
      = (receive_loop env content_len flash).locals.reads) := by
  obtain ⟨h1, h2, h3⟩ := receive_loop_reads env content_len flash
  refine ⟨h1, ?_, ?_, h2, h3, ?_, fun http => handler_reads env content_len flash http⟩
  · intro extra
    exact ota_loop_fuel_mono env _ _ _ _ rfl h1 extra
  · intro l l1 h
    obtain ⟨_, _, hn⟩ := ota_loop_body_pass env (int_of_size_t content_len) l
    obtain ⟨a, b, c, _⟩ := hn l1 h
    exact ⟨a, b, c⟩
  · intro hneg hN
    exact ota_loop_delivered env _ content_len hneg hN _ _
      (by simp [ota_locals_init, delivered]) h1

/-- C30 at the request that declares 12 bytes and delivers 11 (the header
terminator at the start of the only chunk) before the peer closes: no read is
an error, the reads deliver 11 bytes in total, and the loop makes at most 13
reads. -/
theorem C30_receive_loop_terminates_witness :
    (∀ i code, env_short.recv i = Recv.error code → code < 0) ∧
    (∀ n, delivered env_short (int_of_size_t 12) n ≤ 12) ∧
    (receive_loop env_short 12 OtaFlash.idle).locals.reads ≤ 12 + 1 :=
  have hneg : ∀ i code, env_short.recv i = Recv.error code → code < 0 := by
    intro i code h
    cases i with
    | zero => simp [env_short, recv_chunks] at h
    | succ k => simp [env_short, recv_chunks] at h
  have hdel : ∀ n, delivered env_short (int_of_size_t 12) n ≤ 12 := by
    have key : ∀ n, delivered env_short (int_of_size_t 12) (n + 1) = 11 := by
      intro n
      induction n with
      | zero => decide
      | succ k ih =>
          rw [delivered_succ, ih]
          have hk : env_short.recv (k + 1) = Recv.data [] := by
            simp [env_short, recv_chunks]
          rw [hk]
          rfl
    intro n
    cases n with
    | zero => decide
    | succ k =>
        rw [key k]
        decide
  ⟨hneg, hdel,
    (C30_receive_loop_terminates env_short 12 OtaFlash.idle).2.2.2.2.2.1 hneg hdel⟩

/-! ## Theorems: outcome and first chunk of the update transfer -/

/-- C28: whenever the handler reaches begin-write and it succeeds (the first read
is not a time-out, `strstr` finds the header terminator, `esp_ota_begin` returns
`ESP_OK`; the first pass then calls `esp_ota_begin` and writes), the handler
returns `ESP_OK` and sends exactly one outcome, which is Successful if and only
if finalize and set-boot both return `ESP_OK`, and Failed otherwise.  The
outcome is a function of those two results alone: any other request that reaches
a successful begin-write with the same two results, whatever its declared
length and read results, leaves the monitor in the same state. -/
theorem C28_outcome_iff_finalize_and_set_boot (env : OtaEnv) (content_len : Nat)
    (flash : OtaFlash) (http : HttpServer)
    (hmon : http.http_server_monitor_queue_handle = true)
    (hread : (first_read env content_len).2 ≠ HTTPD_SOCK_ERR_TIMEOUT)
    (hfound : strstr (first_read env content_len).1 CRLFCRLF ≠ none)
    (hb : env.esp_ota_begin_ret = ESP_OK) :
    (∃ c, (ota_loop_body env (int_of_size_t content_len)
        (ota_locals_init env flash)).locals.flash.calls
        = flash.calls ++ [ota_call.esp_ota_begin, c]) ∧
    (http_server_OTA_update_handler env content_len flash http).ret = some ESP_OK ∧
    (http_server_OTA_update_handler env content_len flash http).http.monitor_received
      = http.monitor_received ++ [ota_outcome env] ∧
    (ota_outcome env = HTTP_MSG_OTA_UPDATE_SUCCESSFUL ↔
      env.esp_ota_end_ret = ESP_OK ∧ env.esp_ota_set_boot_partition_ret = ESP_OK) ∧
    ((http_server_OTA_update_handler env content_len flash http).http.g_fw_update_status
        = OTA_UPDATE_SUCCESSFUL ↔
      env.esp_ota_end_ret = ESP_OK ∧ env.esp_ota_set_boot_partition_ret = ESP_OK) ∧
    (¬ (env.esp_ota_end_ret = ESP_OK ∧ env.esp_ota_set_boot_partition_ret = ESP_OK) →
      ota_outcome env = HTTP_MSG_OTA_UPDATE_FAILED ∧
      (http_server_OTA_update_handler env content_len flash http).http.g_fw_update_status
        = OTA_UPDATE_FAILED) ∧
    (∀ (env2 : OtaEnv) (content_len2 : Nat) (flash2 : OtaFlash),
      (first_read env2 content_len2).2 ≠ HTTPD_SOCK_ERR_TIMEOUT →
      strstr (first_read env2 content_len2).1 CRLFCRLF ≠ none →
      env2.esp_ota_begin_ret = ESP_OK →
      env2.esp_ota_end_ret = env.esp_ota_end_ret →
      env2.esp_ota_set_boot_partition_ret = env.esp_ota_set_boot_partition_ret →
      (http_server_OTA_update_handler env2 content_len2 flash2 http).http
        = (http_server_OTA_update_handler env content_len flash http).http) := by
  obtain ⟨_, _, _, hE⟩ := handler_cases env content_len flash http
  obtain ⟨l1, h1, _⟩ := hE hread hfound hb
  have hhttp : (http_server_OTA_update_handler env content_len flash http).http
      = http_server_monitor_send_message (ota_outcome env) http := by
    rw [h1, ota_finish_http]
  refine ⟨?_, ?_, ?_, ?_, ?_, ?_, ?_⟩
  · obtain ⟨k, hk⟩ := Option.ne_none_iff_exists'.mp hfound
    obtain ⟨_, _, _, hF⟩ := ota_loop_body_first env (int_of_size_t content_len)
      (ota_locals_init env flash) rfl _ (first_read_eq env content_len flash)
    rw [hF hread k hk hb, ota_loop_cond_locals]
    obtain ⟨c, hc, _⟩ := esp_ota_write_calls (first_read env content_len).1 (k + 4)
      ((first_read env content_len).2 - ((k + 4 : Nat) : Int))
      { (ota_locals_init env flash).flash with
        calls := (ota_locals_init env flash).flash.calls ++ [ota_call.esp_ota_begin],
        written := [] }
    refine ⟨c, ?_⟩
    dsimp only
    rw [hc]
    simp [ota_locals_init]
  · rw [h1, ota_finish_ret]
  · rw [hhttp]
    unfold http_server_monitor_send_message
    rw [if_pos hmon]
    unfold ota_outcome
    split_ifs <;> simp [http_server_monitor, http_server_fw_update_reset_timer]
  · unfold ota_outcome
    split_ifs with h
    · simp [h]
    · simp only [reduceCtorEq, false_iff]
      exact h
  · rw [hhttp]
    unfold http_server_monitor_send_message
    rw [if_pos hmon]
    unfold ota_outcome
    split_ifs with h
    · simp [http_server_monitor, http_server_fw_update_reset_timer, h]
    · simp only [http_server_monitor]
      constructor
      · intro hc
        exact absurd hc (by decide)
      · intro hc
        exact absurd hc h
  · intro hnot
    rw [hhttp]
    unfold http_server_monitor_send_message
    rw [if_pos hmon]
    unfold ota_outcome
    rw [if_neg hnot]
    exact ⟨rfl, rfl⟩
  · intro env2 content_len2 flash2 hr2 hf2 hb2 he2 hs2
    obtain ⟨_, _, _, hE2⟩ := handler_cases env2 content_len2 flash2 http
    obtain ⟨l2, h2, _⟩ := hE2 hr2 hf2 hb2
    rw [hhttp, h2, ota_finish_http]
    unfold ota_outcome
    rw [he2, hs2]

/-- C28 at two concrete runs: a full transfer is reported Successful, and the
same kind of request with finalize failing is reported Failed. -/
theorem C28_outcome_iff_finalize_and_set_boot_witness :
    strstr (first_read env_end_fails 7).1 CRLFCRLF ≠ none ∧
    (first_read env_end_fails 7).2 ≠ HTTPD_SOCK_ERR_TIMEOUT ∧
    (http_server_OTA_update_handler env_end_fails 7 OtaFlash.idle http_ready).http.monitor_received
      = [] ++ [ota_outcome env_end_fails] ∧
    ota_outcome env_end_fails = HTTP_MSG_OTA_UPDATE_FAILED :=
  ⟨by decide, by decide,
    (C28_outcome_iff_finalize_and_set_boot env_end_fails 7 OtaFlash.idle http_ready rfl
      (by decide) (by decide) rfl).2.2.1,
    ((C28_outcome_iff_finalize_and_set_boot env_end_fails 7 OtaFlash.idle http_ready rfl
      (by decide) (by decide) rfl).2.2.2.2.2.1 (by decide)).1⟩

theorem starts_with_length :
    ∀ (m a : List Nat), starts_with a m = true → m.length ≤ a.length := by
  intro m
  induction m with
  | nil => intro a _; simp
  | cons x xs ihm =>
      intro a hs
      cases a with
      | nil => simp [starts_with] at hs
      | cons y ys =>
          simp only [starts_with, Bool.and_eq_true] at hs
          have := ihm ys hs.2
          simp only [List.length_cons]
          omega

theorem first_occurrence_some_le (n : List Nat) :
    ∀ (hay : List Nat) (k : Nat), first_occurrence hay n = some k →
      k + n.length ≤ hay.length := by
  intro hay
  induction hay with
  | nil => intro k h; simp [first_occurrence] at h
  | cons c rest ih =>
      intro k h
      unfold first_occurrence at h
      split_ifs at h with h1
      · have hk : k = 0 := by simpa using h.symm
        subst hk
        simpa using starts_with_length _ _ h1
      · cases hr : first_occurrence rest n with
        | none => simp [hr] at h
        | some k1 =>
            simp only [hr, Option.map_some', Option.some.injEq] at h
            have := ih k1 hr
            simp only [List.length_cons]
            omega

/-- Read as a C string, the buffer yields the first occurrence exactly when no
NUL byte precedes it. -/
theorem strstr_of_first_occurrence (n : List Nat) :
    ∀ (hay : List Nat) (k : Nat), first_occurrence hay n = some k → 0 ∉ hay.take k →
      strstr hay n = some k := by
  intro hay
  induction hay with
  | nil => intro k h; simp [first_occurrence] at h
  | cons c rest ih =>
      intro k h hz
      unfold first_occurrence at h
      unfold strstr
      split_ifs at h ⊢ with h1 h2
      · exact h
      · cases hr : first_occurrence rest n with
        | none => simp [hr] at h
        | some k1 =>
            simp only [hr, Option.map_some', Option.some.injEq] at h
            subst h
            simp [h2] at hz
      · cases hr : first_occurrence rest n with
        | none => simp [hr] at h
        | some k1 =>
            simp only [hr, Option.map_some', Option.some.injEq] at h
            subst h
            simp only [List.take_succ_cons, List.mem_cons, not_or] at hz
            rw [ih k1 hr hz.2]
            rfl

theorem strstr_none_of_nul (n : List Nat) :
    ∀ (hay : List Nat) (k : Nat) (tail : List Nat), first_occurrence hay n = some k →
      0 ∈ hay.take k → strstr (hay ++ tail) n = none := by
  intro hay
  induction hay with
  | nil => intro k tail h; simp [first_occurrence] at h
  | cons c rest ih =>
      intro k tail h hz
      have hlen := first_occurrence_some_le n _ _ h
      unfold first_occurrence at h
      split_ifs at h with h1
      · have hk : k = 0 := by simpa using h.symm
        subst hk
        simp at hz
      · cases hr : first_occurrence rest n with
        | none => simp [hr] at h
        | some k1 =>
            simp only [hr, Option.map_some', Option.some.injEq] at h
            subst h
            have hn1 : n.length ≤ (c :: rest).length := by omega
            simp only [List.cons_append]
            unfold strstr
            rw [← List.cons_append, starts_with_append n (c :: rest) tail hn1]
            simp only [h1, Bool.false_eq_true, if_false]
            by_cases hc : c = 0
            · simp [hc]
            · simp only [hc, if_false]
              simp only [List.take_succ_cons, List.mem_cons] at hz
              rcases hz with hz | hz
              · exact absurd hz.symm hc
              · rw [ih k1 tail hr hz]
                rfl

theorem esp_ota_write_valid_calls (buf : List Nat) (off : Nat) (size : Int) (f : OtaFlash)
    (h0 : 0 ≤ size) (h1 : off + size.toNat ≤ buf.length) :
    (esp_ota_write buf off size f).calls
      = f.calls ++ [ota_call.esp_ota_write ((buf.drop off).take size.toNat)] := by
  unfold esp_ota_write
  rw [if_pos ⟨h0, h1⟩]

/-- The first pass on a chunk in which `strstr` finds the terminator at offset k. -/
theorem ota_loop_body_header_cond (env : OtaEnv) (cl : Int) (l : OtaLocals) (c0 : List Nat)
    (k : Nat) (hs : l.is_req_body_started = false) (hr : env.recv l.reads = Recv.data c0)
    (hlen : c0.length ≤ MIN_content_length_sizeof cl)
    (hk : strstr c0 CRLFCRLF = some k) (hb : env.esp_ota_begin_ret = ESP_OK) :
    ∃ l1, ota_loop_body env cl l = ota_loop_cond cl l1 ∧ l1.is_req_body_started = true ∧
      l1.content_received = l.content_received + ((c0.length : Int) - ((k + 4 : Nat) : Int)) ∧
      l1.recv_len = (c0.length : Int) ∧
      l1.reads = l.reads + 1 ∧ l1.flash.written = c0.drop (k + 4) ∧
      l1.flash.calls = l.flash.calls
        ++ [ota_call.esp_ota_begin, ota_call.esp_ota_write (c0.drop (k + 4))] ∧
      l1.flash.boot_partition = l.flash.boot_partition := by
  have hkl := strstr_some_le CRLFCRLF _ _ hk
  simp only [CRLFCRLF, List.length_cons, List.length_nil] at hkl
  have hrr : httpd_req_recv (env.recv l.reads) l.ota_buff (MIN_content_length_sizeof cl)
      = (c0 ++ l.ota_buff.drop c0.length, (c0.length : Int)) := by
    simp only [hr, httpd_req_recv, List.take_of_length_le hlen]
  obtain ⟨_, _, _, hE⟩ := ota_loop_body_first env cl l hs _ hrr
  have hnt : ((c0 ++ l.ota_buff.drop c0.length, (c0.length : Int)) : List Nat × Int).2
      ≠ HTTPD_SOCK_ERR_TIMEOUT := by
    show (c0.length : Int) ≠ -3
    omega
  have h2 : ((c0.length : Int) - ((k + 4 : Nat) : Int)).toNat = c0.length - (k + 4) := by
    omega
  have hdata : (List.drop (k + 4) (c0 ++ List.drop c0.length l.ota_buff)).take
      (c0.length - (k + 4)) = c0.drop (k + 4) := by
    rw [List.drop_append_of_le_length (by omega), List.take_append_of_le_length (by simp)]
    rw [List.take_of_length_le (by simp)]
  refine ⟨_, hE hnt k (strstr_append CRLFCRLF _ _ _ hk) hb, rfl, rfl, rfl, rfl, ?_, ?_,
    esp_ota_write_boot _ _ _ _⟩
  · dsimp only
    rw [esp_ota_write_valid _ _ _ _ (by omega) (by
      simp only [List.length_append, List.length_drop]
      omega)]
    dsimp only
    rw [h2, List.nil_append, hdata]
  · dsimp only
    rw [esp_ota_write_valid_calls _ _ _ _ (by omega) (by
      simp only [List.length_append, List.length_drop]
      omega)]
    dsimp only
    rw [h2, hdata]
    simp

/-- A later pass on a chunk: the chunk is written whole and counted in full. -/
theorem ota_loop_body_chunk_cond (env : OtaEnv) (cl : Int) (l : OtaLocals) (c : List Nat)
    (hs : l.is_req_body_started = true) (hr : env.recv l.reads = Recv.data c)
    (hlen : c.length ≤ MIN_content_length_sizeof cl) :
    ∃ l1, ota_loop_body env cl l = ota_loop_cond cl l1 ∧ l1.is_req_body_started = true ∧
      l1.content_received = l.content_received + (c.length : Int) ∧
      l1.recv_len = (c.length : Int) ∧
      l1.reads = l.reads + 1 ∧ l1.flash.written = l.flash.written ++ c ∧
      l1.flash.calls = l.flash.calls ++ [ota_call.esp_ota_write c] ∧
      l1.flash.boot_partition = l.flash.boot_partition := by
  obtain ⟨buf, cr, rl, st, reads, flash⟩ := l
  simp only at hs hr
  subst hs
  unfold ota_loop_body
  simp only [hr, httpd_req_recv, List.take_of_length_le hlen]
  have h1 : ¬ ((c.length : Int) < 0 ∧ (c.length : Int) = HTTPD_SOCK_ERR_TIMEOUT) := by
    intro h; omega
  rw [if_neg h1]
  simp only [Bool.not_true, Bool.false_eq_true, if_false]
  refine ⟨_, rfl, rfl, rfl, rfl, rfl, ?_, ?_, esp_ota_write_boot _ _ _ _⟩
  · dsimp only
    rw [esp_ota_write_valid _ _ _ _ (by omega) (by simp)]
    simp
  · dsimp only
    rw [esp_ota_write_valid_calls _ _ _ _ (by omega) (by simp)]
    simp

theorem ota_loop_chunks_received (env : OtaEnv) (cl : Int) :
    ∀ (cs : List (List Nat)) (l : OtaLocals) (fuel : Nat),
      l.is_req_body_started = true →
      (∀ j c, cs.get? j = some c → env.recv (l.reads + j) = Recv.data c) →
      (∀ c ∈ cs, c ≠ [] ∧ c.length ≤ MIN_content_length_sizeof cl) →
      l.content_received + (total_length cs : Int) < cl →
      ∃ l1, ota_loop (cs.length + fuel) env cl l = ota_loop fuel env cl l1 ∧
        l1.is_req_body_started = true ∧
        l1.reads = l.reads + cs.length ∧
        l1.flash.written = l.flash.written ++ cs.flatten ∧
        l1.content_received = l.content_received + (total_length cs : Int) := by
  intro cs
  induction cs with
  | nil =>
      intro l fuel hs _ _ _
      exact ⟨l, by simp, hs, by simp, by simp, by simp [total_length]⟩
  | cons c rest ih =>
      intro l fuel hs hrecv hcs hlt
      have hc := hcs c (List.mem_cons_self _ _)
      simp only [total_length, List.map_cons, List.sum_cons, Nat.cast_add] at hlt
      have hsum : (0 : Int) ≤ ((List.map List.length rest).sum : Int) := by positivity
      obtain ⟨l1, hb, hs1, hcr1, hrd1, hw1, _⟩ := ota_loop_body_chunk env cl l c hs
        (by simpa using hrecv 0 c rfl) hc.1 hc.2 (by omega)
      obtain ⟨l2, hl2, hs2, hrd2, hw2, hcr2⟩ := ih l1 fuel hs1
        (fun j x hj => by
          have := hrecv (j + 1) x (by simpa using hj)
          rw [hrd1]
          rw [← this]
          congr 1
          omega)
        (fun x hx => hcs x (List.mem_cons_of_mem _ hx))
        (by
          rw [hcr1]
          simp only [total_length]
          omega)
      refine ⟨l2, ?_, hs2, ?_, ?_, ?_⟩
      · have : (c :: rest).length + fuel = (rest.length + fuel) + 1 := by
          simp only [List.length_cons]; omega
        rw [this, ota_loop, hb]
        exact hl2
      · rw [hrd2, hrd1]
        simp only [List.length_cons]
        omega
      · rw [hw2, hw1]
        simp
      · rw [hcr2, hcr1]
        simp only [total_length, List.map_cons, List.sum_cons, Nat.cast_add]
        omega

theorem ota_loop_body_end (env : OtaEnv) (cl : Int) (l : OtaLocals)
    (hs : l.is_req_body_started = true) (hr : env.recv l.reads = Recv.data []) :
    ∃ l1, ota_loop_body env cl l = OtaStep.exit l1 ∧
      l1.flash.written = l.flash.written ∧ l1.content_received = l.content_received ∧
      l1.reads = l.reads + 1 := by
  obtain ⟨l1, hb, _, hcr, hrl, hrd, hw, _, _⟩ := ota_loop_body_chunk_cond env cl l [] hs hr
    (by simp)
  refine ⟨l1, ?_, by simpa using hw, by simpa using hcr, hrd⟩
  rw [hb, ota_loop_cond_exit _ _ (by rw [hrl]; simp)]

theorem ota_finish_received (env : OtaEnv) (l : OtaLocals) (http : HttpServer) :
    (ota_finish env l http).locals.content_received = l.content_received := by
  unfold ota_finish
  split_ifs <;> rfl

/-- A transfer that delivers exactly the declared bytes and then reports the end
of the body: what is written and what is counted. -/
theorem handler_chunks_received (env : OtaEnv) (content_len : Nat) (flash : OtaFlash)
    (http : HttpServer) (c0 : List Nat) (cs : List (List Nat)) (k : Nat)
    (hD : content_len < 2 ^ 31)
    (hrecv : env.recv = recv_chunks (c0 :: cs) (Recv.data []))
    (hk : strstr c0 CRLFCRLF = some k)
    (hne : ∀ c ∈ cs, c ≠ [])
    (hlen : ∀ c ∈ c0 :: cs, c.length ≤ sizeof_ota_buff)
    (hsum : c0.length + total_length cs = content_len)
    (hb : env.esp_ota_begin_ret = ESP_OK) :
    (http_server_OTA_update_handler env content_len flash http).locals.flash.written
      = c0.drop (k + 4) ++ cs.flatten ∧
    (http_server_OTA_update_handler env content_len flash http).locals.content_received
      = (content_len : Int) - ((k + 4 : Nat) : Int) ∧
    (http_server_OTA_update_handler env content_len flash http).locals.reads
      = cs.length + 2 := by
  have hcl := int_of_size_t_small content_len hD
  have hkl := strstr_some_le CRLFCRLF _ _ hk
  simp only [CRLFCRLF, List.length_cons, List.length_nil] at hkl
  have hcsl := length_le_total_length_of_ne_nil cs hne
  obtain ⟨l1, hb1, hs1, hcr1, hrd1, hw1, _⟩ := ota_loop_body_header env (content_len : Int)
    (ota_locals_init env flash) c0 k rfl (by rw [hrecv]; rfl)
    (le_MIN_content_length_sizeof _ _ (by omega) (hlen c0 (List.mem_cons_self _ _))) hk hb
    (by simp only [ota_locals_init]; omega)
  simp only [ota_locals_init] at hcr1 hrd1
  obtain ⟨l2, hl2, hs2, hrd2, hw2, hcr2⟩ := ota_loop_chunks_received env (content_len : Int)
    cs l1 ((content_len + 1024 - cs.length) + 1) hs1
    (fun j c hj => by
      rw [hrecv, hrd1]
      simp only [recv_chunks]
      have : (c0 :: cs).get? (0 + 1 + j) = some c := by
        rw [show 0 + 1 + j = j + 1 by omega]
        simpa using hj
      rw [this])
    (fun c hc => ⟨hne c hc, le_MIN_content_length_sizeof _ _
      (by have := length_le_total_length cs c hc; omega)
      (hlen c (List.mem_cons_of_mem _ hc))⟩)
    (by rw [hcr1]; omega)
  obtain ⟨l3, hb3, hw3, hcr3, hrd3⟩ := ota_loop_body_end env (content_len : Int) l2 hs2
    (by
      rw [hrecv, hrd2, hrd1]
      simp only [recv_chunks]
      have : (c0 :: cs).get? (0 + 1 + cs.length) = none := by
        rw [List.get?_eq_none]
        simp only [List.length_cons]
        omega
      rw [this])
  have hh : http_server_OTA_update_handler env content_len flash http
      = ota_finish env l3 http := by
    unfold http_server_OTA_update_handler
    simp only [hcl, ota_fuel_eq, Int.toNat_ofNat]
    have hf : content_len + 1025 = cs.length + ((content_len + 1024 - cs.length) + 1) := by
      omega
    rw [ota_loop, hb1]
    simp only
    rw [hf, hl2, ota_loop, hb3]
  have hreads : (ota_finish env l3 http).locals.reads = l3.reads := by
    unfold ota_finish
    split_ifs <;> rfl
  rw [hh, ota_finish_written, ota_finish_received, hreads]
  refine ⟨by rw [hw3, hw2, hw1], ?_, by rw [hrd3, hrd2, hrd1]; omega⟩
  rw [hcr3, hcr2, hcr1]
  have : ((c0.length + total_length cs : Nat) : Int) = (content_len : Int) := by rw [hsum]
  push_cast at this ⊢
  omega

/-- C29 (what the code does with the first chunk): let the first occurrence of
CR LF CR LF in the first chunk be at offset k.  When no NUL byte precedes it,
`strstr` finds it: the first pass calls begin-write, writes exactly the chunk's
bytes from offset k+4 to its end and counts chunk length - (k+4); every later
chunk is written whole and counted in full; and when the chunks are exactly the
declared bytes, followed by the end of the body, bytes-received ends at the
declared length minus k+4.  When a NUL byte precedes the terminator, `strstr`,
which reads the buffer as a C string, returns NULL: nothing is written and the
pass goes on with `NULL + 4`. -/
theorem C29_first_chunk_offset (env : OtaEnv) (c0 : List Nat) (k : Nat)
    (hk : first_occurrence c0 CRLFCRLF = some k)
    (hb : env.esp_ota_begin_ret = ESP_OK) :
    (0 ∉ c0.take k →
      strstr c0 CRLFCRLF = some k ∧
      ∀ (cl : Int) (l : OtaLocals), l.is_req_body_started = false →
        env.recv l.reads = Recv.data c0 → c0.length ≤ MIN_content_length_sizeof cl →
        ∃ l1, ota_loop_body env cl l = ota_loop_cond cl l1 ∧
          l1.flash.calls = l.flash.calls
            ++ [ota_call.esp_ota_begin, ota_call.esp_ota_write (c0.drop (k + 4))] ∧
          l1.flash.written = c0.drop (k + 4) ∧
          l1.content_received
            = l.content_received + ((c0.length : Int) - ((k + 4 : Nat) : Int))) ∧
    (0 ∈ c0.take k →
      ∀ (cl : Int) (l : OtaLocals), l.is_req_body_started = false →
        env.recv l.reads = Recv.data c0 → c0.length ≤ MIN_content_length_sizeof cl →
        ∃ l1, ota_loop_body env cl l = OtaStep.undefined l1 ∧ l1.flash = l.flash) ∧
    (∀ (cl : Int) (l : OtaLocals) (c : List Nat), l.is_req_body_started = true →
      env.recv l.reads = Recv.data c → c.length ≤ MIN_content_length_sizeof cl →
      ∃ l1, ota_loop_body env cl l = ota_loop_cond cl l1 ∧
        l1.flash.calls = l.flash.calls ++ [ota_call.esp_ota_write c] ∧
        l1.flash.written = l.flash.written ++ c ∧
        l1.content_received = l.content_received + (c.length : Int)) ∧
    (0 ∉ c0.take k →
      ∀ (L : Nat) (flash : OtaFlash) (http : HttpServer) (cs : List (List Nat)),
        L < 2 ^ 31 → env.recv = recv_chunks (c0 :: cs) (Recv.data []) →
        (∀ c ∈ cs, c ≠ []) → (∀ c ∈ c0 :: cs, c.length ≤ sizeof_ota_buff) →
        c0.length + total_length cs = L →
        (http_server_OTA_update_handler env L flash http).locals.content_received
          = (L : Int) - ((k + 4 : Nat) : Int) ∧
        (http_server_OTA_update_handler env L flash http).locals.flash.written
          = c0.drop (k + 4) ++ cs.flatten) := by
  refine ⟨?_, ?_, ?_, ?_⟩
  · intro hz
    have hs := strstr_of_first_occurrence CRLFCRLF c0 k hk hz
    refine ⟨hs, ?_⟩
    intro cl l hst hr hlen
    obtain ⟨l1, h1, _, h3, _, _, h6, h7, _⟩ :=
      ota_loop_body_header_cond env cl l c0 k hst hr hlen hs hb
    exact ⟨l1, h1, h7, h6, h3⟩
  · intro hz cl l hst hr hlen
    have hrr : httpd_req_recv (env.recv l.reads) l.ota_buff (MIN_content_length_sizeof cl)
        = (c0 ++ l.ota_buff.drop c0.length, (c0.length : Int)) := by
      simp only [hr, httpd_req_recv, List.take_of_length_le hlen]
    obtain ⟨_, hU, _, _⟩ := ota_loop_body_first env cl l hst _ hrr
    have hnt : ((c0 ++ l.ota_buff.drop c0.length, (c0.length : Int)) : List Nat × Int).2
        ≠ HTTPD_SOCK_ERR_TIMEOUT := by
      show (c0.length : Int) ≠ -3
      omega
    exact ⟨_, hU hnt (strstr_none_of_nul CRLFCRLF c0 k _ hk hz), rfl⟩
  · intro cl l c hst hr hlen
    obtain ⟨l1, h1, _, h3, _, _, h6, h7, _⟩ := ota_loop_body_chunk_cond env cl l c hst hr hlen
    exact ⟨l1, h1, h7, h6, h3⟩
  · intro hz L flash http cs hL hrecv hne hlen hsum
    have hs := strstr_of_first_occurrence CRLFCRLF c0 k hk hz
    obtain ⟨h1, h2, _⟩ := handler_chunks_received env L flash http c0 cs k hL hrecv hs hne hlen
      hsum hb
    exact ⟨h2, h1⟩

/-- C29 at the failing input and at a well-framed request: the chunk with a NUL
byte in front of the terminator leaves the first pass undefined with nothing
written, although the terminator is at offset 1; the request that delivers its
11 declared bytes with the terminator at offset 0 ends with bytes-received
11 - 4. -/
theorem C29_first_chunk_offset_witness :
    first_occurrence [0, 13, 10, 13, 10, 233, 1, 2] CRLFCRLF = some 1 ∧
    (0 : Nat) ∈ ([0, 13, 10, 13, 10, 233, 1, 2] : List Nat).take 1 ∧
    (∃ l1, ota_loop_body env_nul_before_header 8 (ota_locals_init env_nul_before_header
        OtaFlash.idle) = OtaStep.undefined l1 ∧
      l1.flash = (ota_locals_init env_nul_before_header OtaFlash.idle).flash) ∧
    (http_server_OTA_update_handler env_nul_before_header 8 OtaFlash.idle http_ready).ret
      = none ∧
    (http_server_OTA_update_handler env_nul_before_header 8 OtaFlash.idle
      http_ready).locals.flash.written = [] ∧
    first_occurrence (CRLFCRLF ++ [233, 1, 2, 3, 4, 5, 6]) CRLFCRLF = some 0 ∧
    (http_server_OTA_update_handler env_short 11 OtaFlash.idle http_ready).locals.content_received
      = ((11 : Nat) : Int) - ((0 + 4 : Nat) : Int) :=
  ⟨by decide, by decide,
    (C29_first_chunk_offset env_nul_before_header [0, 13, 10, 13, 10, 233, 1, 2] 1
      (by decide) rfl).2.1 (by decide) 8 (ota_locals_init env_nul_before_header OtaFlash.idle)
      rfl rfl (by decide),
    by decide, by decide, by decide,
    ((C29_first_chunk_offset env_short (CRLFCRLF ++ [233, 1, 2, 3, 4, 5, 6]) 0 (by decide)
      rfl).2.2.2 (by simp) 11 OtaFlash.idle http_ready [] (by norm_num) rfl (by simp)
      (by simp [CRLFCRLF, sizeof_ota_buff]) rfl).1⟩

end W5500
